import Mathlib

/-!
# SmartLamp lamp core: shallow embedding and verified properties

The lamp controller of `src/app` (`lamp.hpp`, `lamp_core.cpp`, `lamp_fade.cpp`,
`lamp_render.cpp`, `lamp_storage.cpp`, the Police case of `lamp_effects.cpp`),
the settings store of `src/system/storage.cpp` with its Wi-Fi list, and the
colour-temperature handler of `src/network/mqtt_task.cpp`, embedded as pure
functions over an explicit state.

Conventions
* machine integers are `Nat`/`Int`; a narrowing conversion is written with an
  explicit `%` (`u8`, `u16`, `u32`, `i32`);
* `millis()` is an argument `now` of every function that reads the clock;
* every public call runs under the controller mutex (`portMAX_DELAY`), so it is
  one atomic state transformer; one iteration of the body of `taskLoop` is
  `taskLoop`;
* `FastLED.show()` copies the pixel buffer into the ghost field `shown`,
  `send_ui_event` appends to the ghost field `events`.
* a history of the controller is a list of `Call`s (public setters and task
  iterations, each with its clock reading) run by `runCalls` from `init`.
-/

namespace SmartLamp

/-! ## Machine integers and Arduino helpers -/

/-- Narrowing to `uint8_t`. -/
def u8 (x : Int) : Nat := (x % 256).toNat

/-- Narrowing to `uint16_t`. -/
def u16 (x : Int) : Nat := (x % 65536).toNat

/-- Narrowing to `uint32_t`. -/
def u32 (x : Int) : Nat := (x % 4294967296).toNat

/-- Narrowing to `int32_t` (two's complement). -/
def i32 (x : Int) : Int :=
  let r : Nat := (x % 4294967296).toNat
  if 2147483648 ≤ r then (r : Int) - 4294967296 else (r : Int)

/-- Arduino core `map(x, in_min, in_max, out_min, out_max)` on `long`:
`(x - in_min) * (out_max - out_min) / (in_max - in_min) + out_min`, the
division truncating toward zero. -/
def map (x in_min in_max out_min out_max : Int) : Int :=
  Int.tdiv ((x - in_min) * (out_max - out_min)) (in_max - in_min) + out_min

/-- Arduino `String::toLowerCase()`: `tolower` on every character. -/
def toLowerCase (s : String) : String := ⟨s.data.map Char.toLower⟩

/-! ## Constants of `lamp.hpp` -/

def LAMP_NUM_LEDS : Nat := 64
def LAMP_CCT_MIN : Nat := 2700
def LAMP_CCT_MAX : Nat := 6500
def LAMP_PWM_HARD_MIN : Nat := 10
def LAMP_PWM_HARD_MAX : Nat := 80
def kMaxPwmOutput : Nat := LAMP_PWM_HARD_MAX
def kMinPwmOutput : Nat := LAMP_PWM_HARD_MIN

/-- The constant `(uint16_t)kMinPwmOutput * 100 / kMaxPwmOutput`, stored in a
`uint8_t`. -/
def kMinVisibleBrightness : Nat := u8 ((kMinPwmOutput * 100 / kMaxPwmOutput : Nat) : Int)

def STEP_MS : Nat := 10
def COMMIT_DELAY_MS : Nat := 1000

/-- Fade curves of `enum class FadeCurve`. -/
inductive FadeCurve where
  | Linear | EaseIn | EaseOut | EaseInOut | Smoothstep
  deriving DecidableEq, Repr

/-- Effects of `enum class EffectMode`. -/
inductive EffectMode where
  | None | Rainbow | Breathing | Police | Night | Reading | Spin | Meteor
  deriving DecidableEq, Repr

/-- One pixel, FastLED `CRGB`. -/
structure CRGB where
  r : Nat
  g : Nat
  b : Nat
  deriving DecidableEq, Repr

def CRGB.Black : CRGB := ⟨0, 0, 0⟩
def CRGB.White : CRGB := ⟨255, 255, 255⟩

/-- A notification handed to `send_ui_event`, with the exclude mask of the call. -/
structure UIEvent where
  type : Nat
  value : Int
  excludeMask : Nat
  deriving DecidableEq, Repr

def UI_EVENT_LIGHT : Nat := 5
def UI_EVENT_BRIGHTNESS : Nat := 6
def UI_EVENT_CCT : Nat := 7
def UI_EVENT_RGB : Nat := 8
def UI_EVENT_AUTO_BR : Nat := 10

/-! ## Controller state -/

/-- The data members of `class LampController` (`lamp.hpp`) with their default
member initialisers, plus the two ghost fields `shown` and `events`. -/
structure LampController where
  m_scene : String := "None"
  m_leds : List CRGB := List.replicate LAMP_NUM_LEDS CRGB.Black
  m_brightness : Nat := 50
  m_cct : Nat := 4000
  m_rgbColor : CRGB := CRGB.White
  m_useCCT : Bool := true
  m_fadeActive : Bool := false
  m_targetBrightness : Nat := 50
  m_fadeDurationMs : Nat := 0
  m_curve : FadeCurve := FadeCurve.Linear
  m_colorFadeActive : Bool := false
  m_colorFadeDurationMs : Nat := 0
  m_startCCT : Nat := 0
  m_targetCCT : Nat := 0
  m_startRGB : CRGB := CRGB.Black
  m_targetRGB : CRGB := CRGB.Black
  m_fadingToCCT : Bool := false
  m_effect : EffectMode := EffectMode.None
  m_effectTick : Nat := 0
  m_on : Bool := false
  m_savedOnBrightness : Nat := 50
  m_dirty_on : Bool := false
  m_dirty_br : Bool := false
  m_dirty_cct : Bool := false
  m_dirty_rgb : Bool := false
  m_dirty_mode : Bool := false
  m_dirty_auto_br : Bool := false
  m_lastChangeMs : Nat := 0
  m_autoBrightness : Bool := false
  shown : List CRGB := List.replicate LAMP_NUM_LEDS CRGB.Black
  events : List UIEvent := []
  deriving DecidableEq, Repr

namespace LampController

/-! ## Photometric mapping (`lamp_render.cpp`) -/

/-- `scaleChannel(value, brightness)`. -/
def scaleChannel (value brightness : Nat) : Nat :=
  if brightness = 0 then 0
  else if value = 0 then 0
  else
    let target_pwm : Nat :=
      if brightness ≤ 10 then
        let range := kMaxPwmOutput - kMinPwmOutput
        let low_end := kMinPwmOutput
        let high_end := kMinPwmOutput + range / 10
        u32 (map brightness 1 10 low_end high_end)
      else
        let range := kMaxPwmOutput - kMinPwmOutput
        let low_end := kMinPwmOutput + range / 10
        let b_norm := brightness - 10
        let b_sq := b_norm * b_norm
        let pwm_range := kMaxPwmOutput - low_end
        (low_end + (b_sq * pwm_range) % 4294967296 / 7921) % 4294967296
    let numerator := (value * target_pwm) % 4294967296
    u8 ((numerator / 255 : Nat) : Int)

/-- `cctToRawRGB(cct, r, g, b)`. -/
def cctToRawRGB (cct : Nat) : CRGB :=
  let cct := if cct < LAMP_CCT_MIN then LAMP_CCT_MIN else cct
  let cct := if cct > LAMP_CCT_MAX then LAMP_CCT_MAX else cct
  let span := LAMP_CCT_MAX - LAMP_CCT_MIN
  let pos := cct - LAMP_CCT_MIN
  let alphaQ10 := if span = 0 then 0 else (pos * 1024) / span
  let lerpQ10 := fun (a b : Nat) =>
    u16 (((a * (1024 - alphaQ10) + b * alphaQ10) / 1024 : Nat) : Int)
  ⟨u8 (lerpQ10 255 255), u8 (lerpQ10 147 255), u8 (lerpQ10 41 255)⟩

/-- `cctToRGB(cct, brightness, r, g, b)`. -/
def cctToRGB (cct brightness : Nat) : CRGB :=
  let raw := cctToRawRGB cct
  ⟨scaleChannel raw.r brightness, scaleChannel raw.g brightness,
    scaleChannel raw.b brightness⟩

/-- `update()`: static re-render, skipped while an effect is selected. -/
def update (s : LampController) : LampController :=
  if s.m_effect ≠ EffectMode.None then s
  else
    let c : CRGB :=
      if s.m_useCCT then cctToRGB s.m_cct s.m_brightness
      else ⟨scaleChannel s.m_rgbColor.r s.m_brightness,
            scaleChannel s.m_rgbColor.g s.m_brightness,
            scaleChannel s.m_rgbColor.b s.m_brightness⟩
    let leds := List.replicate LAMP_NUM_LEDS c
    { s with m_leds := leds, shown := leds }

/-! ## Fades (`lamp_fade.cpp`) -/

/-- `fadeToBrightness(targetPercent, duration_ms)`. -/
def fadeToBrightness (s : LampController) (targetPercent duration_ms : Nat) :
    LampController :=
  let targetPercent := if targetPercent > 100 then 100 else targetPercent
  let diff :=
    if targetPercent > s.m_brightness then u8 ((targetPercent : Int) - s.m_brightness)
    else u8 ((s.m_brightness : Int) - targetPercent)
  let actual_duration := (duration_ms * diff) % 4294967296 / 100
  let actual_duration :=
    if actual_duration < 50 ∧ diff > 0 ∧ duration_ms > 0 then 50 else actual_duration
  let actual_duration := if duration_ms = 0 then 0 else actual_duration
  { s with
    m_targetBrightness := targetPercent
    m_fadeDurationMs := u16 actual_duration
    m_fadeActive := true }

/-- `cancelFade()`. -/
def cancelFade (s : LampController) : LampController :=
  { s with m_fadeActive := false }

/-- `isFading()`. -/
def isFading (s : LampController) : Bool := s.m_fadeActive

/-- `setFadeCurve(curve)`. -/
def setFadeCurve (s : LampController) (curve : FadeCurve) : LampController :=
  { s with m_curve := curve }

/-- `getFadeCurve()`. -/
def getFadeCurve (s : LampController) : FadeCurve := s.m_curve

/-- `applyEasing(t)` in Q16; the 64-bit intermediates never wrap for a 32-bit
argument, the result is narrowed to `uint32_t`. -/
def applyEasing (s : LampController) (t : Nat) : Nat :=
  if t = 0 then 0
  else if t ≥ 65535 then 65535
  else
    match s.m_curve with
    | FadeCurve.Linear => t
    | FadeCurve.EaseIn => u32 (((t * t) / 65536 : Nat) : Int)
    | FadeCurve.EaseOut =>
      let u := u32 ((65535 : Int) - t)
      u32 ((65535 : Int) - u32 (((u * u) / 65536 : Nat) : Int))
    | FadeCurve.EaseInOut | FadeCurve.Smoothstep =>
      let t2 := (t * t) / 65536
      let t3 := (t2 * t) / 65536
      u32 ((3 * t2 : Int) - (2 * t3 : Int))

/-- The clock step shared by `advanceFade` and `advanceColorFade`:
`elapsed += STEP_MS; if (elapsed >= duration) elapsed = duration;`. -/
def stepElapsed (elapsed duration : Nat) : Nat :=
  let elapsed := (elapsed + STEP_MS) % 4294967296
  if elapsed ≥ duration then duration else elapsed

/-- The eased progress of both fades:
`t_q16 = applyEasing((uint32_t)(((uint64_t)elapsed << 16) / duration))`. -/
def fadeProgress (s : LampController) (elapsed duration : Nat) : Nat :=
  applyEasing s (u32 (((elapsed * 65536) % 18446744073709551616 / duration : Nat) : Int))

/-- The interpolated brightness of `advanceFade`:
`val = (int32_t)start * 65536 + (int32_t)delta * (int32_t)t_q16; cur = (uint8_t)(val >> 16)`. -/
def fadeValue (target start t_q16 : Nat) : Nat :=
  let delta : Int := (target : Int) - (start : Int)
  let val : Int := i32 (i32 ((start : Int) * 65536) + i32 (delta * i32 (t_q16 : Int)))
  u8 (val / 65536)

/-- The interpolation of one colour component in `advanceColorFade`:
`start + (((target - start) * (int32_t)t_q16) >> 16)`, before narrowing. -/
def colorValue (start target t_q16 : Nat) : Int :=
  (start : Int) + i32 (((target : Int) - (start : Int)) * i32 (t_q16 : Int)) / 65536

/-- The statement pair `m_brightness = v; update();` of `advanceFade`. -/
def renderBrightness (s : LampController) (v : Nat) : LampController :=
  update { s with m_brightness := v }

/-- `advanceFade(elapsed, start)`: the new controller, the new values of the
two reference arguments `elapsed` and `start`, and the returned flag. -/
def advanceFade (s : LampController) (elapsed start : Nat) :
    LampController × Nat × Nat × Bool :=
  if s.m_brightness = s.m_targetBrightness ∨ s.m_fadeDurationMs = 0 then
    let s := cancelFade (renderBrightness s s.m_targetBrightness)
    (s, 0, s.m_brightness, false)
  else
    let elapsed := stepElapsed elapsed s.m_fadeDurationMs
    let t_q16 := fadeProgress s elapsed s.m_fadeDurationMs
    let cur := fadeValue s.m_targetBrightness start t_q16
    let s := if cur ≠ s.m_brightness then renderBrightness s cur else s
    if elapsed ≥ s.m_fadeDurationMs then
      let s :=
        if s.m_brightness ≠ s.m_targetBrightness then renderBrightness s s.m_targetBrightness
        else s
      let s := cancelFade s
      (s, 0, s.m_brightness, false)
    else (s, elapsed, start, true)

/-- The interpolation block of `advanceColorFade` (CCT or RGB, whichever is live). -/
def colorFadeMix (s : LampController) (t_q16 : Nat) : LampController :=
  if s.m_useCCT then
    { s with m_cct := u16 (colorValue s.m_startCCT s.m_targetCCT t_q16) }
  else
    { s with m_rgbColor :=
        ⟨u8 (colorValue s.m_startRGB.r s.m_targetRGB.r t_q16),
         u8 (colorValue s.m_startRGB.g s.m_targetRGB.g t_q16),
         u8 (colorValue s.m_startRGB.b s.m_targetRGB.b t_q16)⟩ }

/-- The completion block of `advanceColorFade`: snap to the target, committing
the mode flag when the fade was crossing from RGB back to CCT. -/
def colorFadeSnap (s : LampController) : LampController :=
  if s.m_fadingToCCT then
    { s with m_useCCT := true, m_cct := s.m_targetCCT, m_fadingToCCT := false }
  else if s.m_useCCT then { s with m_cct := s.m_targetCCT }
  else { s with m_rgbColor := s.m_targetRGB }

/-- The statement `m_colorFadeActive = false`. -/
def colorFadeStop (s : LampController) : LampController :=
  { s with m_colorFadeActive := false }

/-- `advanceColorFade(elapsed)`: the new controller, the new value of the
reference argument and the returned flag; `none` when the division by
`m_colorFadeDurationMs` is a division by zero. -/
def advanceColorFade (s : LampController) (elapsed : Nat) :
    Option (LampController × Nat × Bool) :=
  let elapsed := stepElapsed elapsed s.m_colorFadeDurationMs
  if s.m_colorFadeDurationMs = 0 then none
  else
    let t_q16 := fadeProgress s elapsed s.m_colorFadeDurationMs
    let s := update (colorFadeMix s t_q16)
    if elapsed ≥ s.m_colorFadeDurationMs then
      some (colorFadeStop (update (colorFadeSnap s)), 0, false)
    else some (s, elapsed, true)

end LampController

/-! ## Persistent settings store (`storage.cpp`)

`Preferences` is the ESP32 key/value library behind `AppConfig`; it is modelled
as a typed map from key to value, a typed read of an absent key (or of a key
holding another type) giving the caller's default, and a write always
succeeding. -/

/-- A typed value held under a key. -/
inductive PrefVal where
  | uchar (n : Nat)
  | ushort (n : Nat)
  | uint (n : Nat)
  | int (i : Int)
  | bool (b : Bool)
  | str (v : String)
  deriving DecidableEq, Repr

/-- The content of the `"lamp"` namespace. -/
def Preferences : Type := String → Option PrefVal

namespace Preferences

def empty : Preferences := fun _ => none

def put (p : Preferences) (key : String) (v : PrefVal) : Preferences :=
  fun k => if k = key then some v else p k

def getUChar (p : Preferences) (key : String) (dflt : Nat) : Nat :=
  match p key with
  | some (PrefVal.uchar n) => n
  | _ => dflt

def getUShort (p : Preferences) (key : String) (dflt : Nat) : Nat :=
  match p key with
  | some (PrefVal.ushort n) => n
  | _ => dflt

def getUInt (p : Preferences) (key : String) (dflt : Nat) : Nat :=
  match p key with
  | some (PrefVal.uint n) => n
  | _ => dflt

def getInt (p : Preferences) (key : String) (dflt : Int) : Int :=
  match p key with
  | some (PrefVal.int i) => i
  | _ => dflt

def getBool (p : Preferences) (key : String) (dflt : Bool) : Bool :=
  match p key with
  | some (PrefVal.bool b) => b
  | _ => dflt

def isKey (p : Preferences) (key : String) : Bool := (p key).isSome

def getString (p : Preferences) (key : String) : String :=
  match p key with
  | some (PrefVal.str v) => v
  | _ => ""

def remove (p : Preferences) (key : String) : Preferences :=
  fun k => if k = key then none else p k

end Preferences

namespace AppConfig

def K_ON : String := "on"
def K_BR : String := "br"
def K_CCT : String := "cct"
def K_RGB : String := "rgb"
def K_MODE : String := "mode"
def K_AUTO_BR : String := "auto_br"

/-- `loadOn(on)`. -/
def loadOn (p : Preferences) : Bool := p.getUChar K_ON 1 != 0

/-- `loadSavedBrightness(br)`. -/
def loadSavedBrightness (p : Preferences) : Nat := p.getUChar K_BR 50

/-- `loadCCT(cct)`. -/
def loadCCT (p : Preferences) : Nat := p.getUShort K_CCT 4000

/-- `loadRGB(r, g, b)`. -/
def loadRGB (p : Preferences) : CRGB :=
  let val := p.getUInt K_RGB 0xFFFFFF
  ⟨(val >>> 16) &&& 0xFF, (val >>> 8) &&& 0xFF, val &&& 0xFF⟩

/-- `loadMode(isCCT)`. -/
def loadMode (p : Preferences) : Bool := p.getBool K_MODE true

/-- `loadAutoBrightness(enabled)`. -/
def loadAutoBrightness (p : Preferences) : Bool := p.getInt K_AUTO_BR 0 != 0

/-- `saveOn(on)`. -/
def saveOn (p : Preferences) (onFlag : Bool) : Preferences :=
  p.put K_ON (PrefVal.uchar (if onFlag then 1 else 0))

/-- `saveSavedBrightness(br)`. -/
def saveSavedBrightness (p : Preferences) (br : Nat) : Preferences :=
  p.put K_BR (PrefVal.uchar br)

/-- `saveCCT(cct)`. -/
def saveCCT (p : Preferences) (cct : Nat) : Preferences :=
  p.put K_CCT (PrefVal.ushort cct)

/-- `saveRGB(r, g, b)`. -/
def saveRGB (p : Preferences) (r g b : Nat) : Preferences :=
  let val := ((r <<< 16) % 4294967296) ||| ((g <<< 8) % 4294967296) ||| b
  p.put K_RGB (PrefVal.uint val)

/-- `saveMode(isCCT)`. -/
def saveMode (p : Preferences) (isCCT : Bool) : Preferences :=
  p.put K_MODE (PrefVal.bool isCCT)

/-- `saveAutoBrightness(enabled)`. -/
def saveAutoBrightness (p : Preferences) (enabled : Bool) : Preferences :=
  p.put K_AUTO_BR (PrefVal.int (if enabled then 1 else 0))

/-! ### The Wi-Fi list -/

def K_WIFI_SSID : String := "ssid"
def K_WIFI_PASS : String := "pass"

/-- `struct WifiCred`. -/
structure WifiCred where
  ssid : String
  pass : String
  deriving DecidableEq, Repr

/-- The second step of `loadWifiList`: the loop over `ssid_<i>`, `pass_<i>` for
`i < count`, skipping empty names and names already in the list. -/
def loadWifiEntries (p : Preferences) (count : Nat) (list : List WifiCred) : List WifiCred :=
  (List.range count).foldl
    (fun list i =>
      let ssid := p.getString ("ssid_" ++ toString i)
      let pass := p.getString ("pass_" ++ toString i)
      if ssid.length > 0 then
        if list.any (fun cred => cred.ssid = ssid) then list else list ++ [⟨ssid, pass⟩]
      else list)
    list

/-- `loadWifiList(list)`: the list it fills. -/
def loadWifiList (p : Preferences) : List WifiCred :=
  let list : List WifiCred :=
    if p.isKey K_WIFI_SSID then
      let ssid := p.getString K_WIFI_SSID
      let pass := p.getString K_WIFI_PASS
      if ssid.length > 0 then [⟨ssid, pass⟩] else []
    else []
  let count := p.getInt "wifi_count" 0
  loadWifiEntries p count.toNat list

/-- The block "save the list" of `addWifi` and `removeWifi`: `wifi_count`, then
`ssid_<i>` and `pass_<i>` for every entry. -/
def saveWifiEntries (p : Preferences) (list : List WifiCred) : Preferences :=
  let p := p.put "wifi_count" (PrefVal.int list.length)
  list.enum.foldl
    (fun p e =>
      (p.put ("ssid_" ++ toString e.1) (PrefVal.str e.2.ssid)).put
        ("pass_" ++ toString e.1) (PrefVal.str e.2.pass))
    p

/-- The first loop of `addWifi`: the password of the first entry with that
name is replaced, or there is no such entry. -/
def updateWifiPass : List WifiCred → String → String → Option (List WifiCred)
  | [], _, _ => none
  | cred :: rest, ssid, password =>
    if cred.ssid = ssid then some ({ cred with pass := password } :: rest)
    else (updateWifiPass rest ssid password).map (fun l => cred :: l)

/-- `addWifi(ssid, password)`. -/
def addWifi (p : Preferences) (ssid password : String) : Preferences :=
  let list := loadWifiList p
  let list :=
    match updateWifiPass list ssid password with
    | some l => l
    | none =>
      let list := if list.length ≥ 5 then list.tail else list
      list ++ [⟨ssid, password⟩]
  let p := saveWifiEntries p list
  let p := p.put K_WIFI_SSID (PrefVal.str ssid)
  p.put K_WIFI_PASS (PrefVal.str password)

/-- `removeWifi(ssid)`. -/
def removeWifi (p : Preferences) (ssid : String) : Preferences :=
  let list := (loadWifiList p).filter (fun cred => cred.ssid ≠ ssid)
  saveWifiEntries p list

/-- `clearWifiList()`. -/
def clearWifiList (p : Preferences) : Preferences :=
  let p := p.put "wifi_count" (PrefVal.int 0)
  (p.remove K_WIFI_SSID).remove K_WIFI_PASS

end AppConfig

namespace LampController

/-! ## Persistence glue (`lamp_storage.cpp`) -/

/-- `markChanged()`. -/
def markChanged (s : LampController) (now : Nat) : LampController :=
  { s with m_lastChangeMs := now }

def saveOnToNVS (s : LampController) (p : Preferences) : Preferences :=
  AppConfig.saveOn p s.m_on

def saveSavedBrightnessToNVS (s : LampController) (p : Preferences) : Preferences :=
  let br := if s.m_savedOnBrightness > 0 then s.m_savedOnBrightness else 50
  AppConfig.saveSavedBrightness p br

def saveCCTToNVS (s : LampController) (p : Preferences) : Preferences :=
  AppConfig.saveCCT p s.m_cct

def saveRGBToNVS (s : LampController) (p : Preferences) : Preferences :=
  AppConfig.saveRGB p s.m_rgbColor.r s.m_rgbColor.g s.m_rgbColor.b

def saveModeToNVS (s : LampController) (p : Preferences) : Preferences :=
  AppConfig.saveMode p s.m_useCCT

def saveAutoBrightnessToNVS (s : LampController) (p : Preferences) : Preferences :=
  AppConfig.saveAutoBrightness p s.m_autoBrightness

/-- First block of `flushNow`: `if (m_dirty_on) { saveOnToNVS(); m_dirty_on = false; }`. -/
def flushOn (s : LampController) (p : Preferences) : LampController × Preferences :=
  if s.m_dirty_on then ({ s with m_dirty_on := false }, saveOnToNVS s p) else (s, p)

/-- Second block of `flushNow`, for the saved brightness. -/
def flushBr (s : LampController) (p : Preferences) : LampController × Preferences :=
  if s.m_dirty_br then ({ s with m_dirty_br := false }, saveSavedBrightnessToNVS s p) else (s, p)

/-- Third block of `flushNow`, for the colour temperature. -/
def flushCCT (s : LampController) (p : Preferences) : LampController × Preferences :=
  if s.m_dirty_cct then ({ s with m_dirty_cct := false }, saveCCTToNVS s p) else (s, p)

/-- Fourth block of `flushNow`, for the RGB colour. -/
def flushRGB (s : LampController) (p : Preferences) : LampController × Preferences :=
  if s.m_dirty_rgb then ({ s with m_dirty_rgb := false }, saveRGBToNVS s p) else (s, p)

/-- Fifth block of `flushNow`, for the colour mode. -/
def flushMode (s : LampController) (p : Preferences) : LampController × Preferences :=
  if s.m_dirty_mode then ({ s with m_dirty_mode := false }, saveModeToNVS s p) else (s, p)

/-- Sixth block of `flushNow`, for the auto-brightness switch. -/
def flushAutoBr (s : LampController) (p : Preferences) : LampController × Preferences :=
  if s.m_dirty_auto_br then
    ({ s with m_dirty_auto_br := false }, saveAutoBrightnessToNVS s p)
  else (s, p)

/-- The last statement of `flushNow`: `m_lastChangeMs = 0`. -/
def clearChangeStamp (s : LampController) : LampController :=
  { s with m_lastChangeMs := 0 }

/-- `flushNow()`: the six guarded blocks in order, then the timestamp. -/
def flushNow (s : LampController) (p : Preferences) : LampController × Preferences :=
  let r := flushOn s p
  let r := flushBr r.1 r.2
  let r := flushCCT r.1 r.2
  let r := flushRGB r.1 r.2
  let r := flushMode r.1 r.2
  let r := flushAutoBr r.1 r.2
  (clearChangeStamp r.1, r.2)

/-- `flushIfIdle()`. -/
def flushIfIdle (s : LampController) (p : Preferences) (now : Nat) :
    LampController × Preferences :=
  if ¬ (s.m_dirty_on ∨ s.m_dirty_br ∨ s.m_dirty_cct ∨ s.m_dirty_rgb ∨ s.m_dirty_mode
        ∨ s.m_dirty_auto_br) then (s, p)
  else if s.m_lastChangeMs = 0 then (s, p)
  else if u32 ((now : Int) - (s.m_lastChangeMs : Int)) ≥ COMMIT_DELAY_MS then flushNow s p
  else (s, p)

/-- `loadStateFromNVS()`. -/
def loadStateFromNVS (s : LampController) (p : Preferences) : LampController :=
  let onFlag := AppConfig.loadOn p
  let br := AppConfig.loadSavedBrightness p
  let cct := AppConfig.loadCCT p
  let rgb := AppConfig.loadRGB p
  let isCCT := AppConfig.loadMode p
  let autoBr := AppConfig.loadAutoBrightness p
  let br := if br = 0 then 50 else br
  let br := if br < 1 then 1 else br
  let cct := if cct < LAMP_CCT_MIN then LAMP_CCT_MIN else cct
  let cct := if cct > LAMP_CCT_MAX then LAMP_CCT_MAX else cct
  { s with
    m_on := onFlag
    m_savedOnBrightness := br
    m_cct := cct
    m_rgbColor := rgb
    m_useCCT := isCCT
    m_autoBrightness := autoBr }

/-! ## Control surface (`lamp_core.cpp`) -/

/-- `getSavedBrightness()`. -/
def getSavedBrightness (s : LampController) : Nat :=
  if s.m_savedOnBrightness > 0 then s.m_savedOnBrightness else 50

/-- `isOn()`. -/
def isOn (s : LampController) : Bool := s.m_on

/-- `getBrightness()`. -/
def getBrightness (s : LampController) : Nat := s.m_brightness

/-- `isCCTMode()`. -/
def isCCTMode (s : LampController) : Bool := s.m_useCCT

/-- `getCCT()`. -/
def getCCT (s : LampController) : Nat :=
  if s.m_colorFadeActive ∧ s.m_useCCT then s.m_targetCCT else s.m_cct

/-- `getRGB()`. -/
def getRGB (s : LampController) : CRGB :=
  if s.m_colorFadeActive ∧ ¬ s.m_useCCT then s.m_targetRGB else s.m_rgbColor

/-- `getEffect()`. -/
def getEffect (s : LampController) : EffectMode := s.m_effect

/-- `getScene()`. -/
def getScene (s : LampController) : String := s.m_scene

/-- `isAutoBrightness()`. -/
def isAutoBrightness (s : LampController) : Bool := s.m_autoBrightness

/-- The ghost effect of `send_ui_event(evt, excludeMask)`. -/
def send_ui_event (s : LampController) (type : Nat) (value : Int) (excludeMask : Nat) :
    LampController :=
  { s with events := s.events ++ [⟨type, value, excludeMask⟩] }

/-- `setPower(on, fade_ms, excludeMask)`. -/
def setPower (s : LampController) (now : Nat) (onFlag : Bool) (fade_ms excludeMask : Nat) :
    LampController :=
  let s := cancelFade s
  let s :=
    if onFlag then
      let s := { s with m_on := true }
      let saved := getSavedBrightness s
      let target := u8 (map saved 1 100 kMinVisibleBrightness 100)
      let s := fadeToBrightness s target fade_ms
      send_ui_event s UI_EVENT_LIGHT 1 excludeMask
    else
      let s := { s with m_on := false }
      let s :=
        if s.m_effect ≠ EffectMode.None then fadeToBrightness s 0 0
        else fadeToBrightness s 0 fade_ms
      send_ui_event s UI_EVENT_LIGHT 0 excludeMask
  markChanged { s with m_dirty_on := true } now

/-- `togglePower(fade_ms)`. -/
def togglePower (s : LampController) (now : Nat) (fade_ms : Nat) : LampController :=
  setPower s now (!s.m_on) fade_ms 0

/-- `setBrightness(percent, fade_ms, excludeMask)`. -/
def setBrightness (s : LampController) (percent fade_ms excludeMask : Nat) : LampController :=
  let percent := if percent > 100 then 100 else percent
  let percent := if percent = 0 then 1 else percent
  let internal_val :=
    if percent > 0 then u8 (map percent 1 100 kMinVisibleBrightness 100) else 0
  if s.m_on then
    let s :=
      if fade_ms > 0 then fadeToBrightness s internal_val fade_ms
      else update { cancelFade s with m_brightness := internal_val }
    let s :=
      if percent > 0 then { s with m_savedOnBrightness := percent, m_dirty_br := true } else s
    send_ui_event s UI_EVENT_BRIGHTNESS percent excludeMask
  else s

/-- `setCCT(cct, fade_ms, excludeMask)`. -/
def setCCT (s : LampController) (now : Nat) (cct fade_ms excludeMask : Nat) : LampController :=
  let cct := if cct < LAMP_CCT_MIN then LAMP_CCT_MIN else cct
  let cct := if cct > LAMP_CCT_MAX then LAMP_CCT_MAX else cct
  let s :=
    if s.m_useCCT ∧ fade_ms > 0 then
      { s with
        m_startCCT := s.m_cct
        m_targetCCT := cct
        m_colorFadeDurationMs := fade_ms
        m_colorFadeActive := true
        m_fadingToCCT := false }
    else if ¬ s.m_useCCT ∧ fade_ms > 0 then
      { s with
        m_startRGB := s.m_rgbColor
        m_targetRGB := cctToRawRGB cct
        m_targetCCT := cct
        m_useCCT := false
        m_colorFadeDurationMs := fade_ms
        m_colorFadeActive := true
        m_fadingToCCT := true }
    else
      update { s with
        m_cct := cct
        m_useCCT := true
        m_colorFadeActive := false
        m_fadingToCCT := false }
  let s := send_ui_event s UI_EVENT_CCT cct excludeMask
  markChanged { s with m_dirty_cct := true, m_dirty_mode := true } now

/-- `setColor(r, g, b, fade_ms, excludeMask)`. -/
def setColor (s : LampController) (now : Nat) (r g b fade_ms excludeMask : Nat) :
    LampController :=
  let target : CRGB := ⟨r, g, b⟩
  let s :=
    if ¬ s.m_useCCT ∧ fade_ms > 0 then
      { s with
        m_startRGB := s.m_rgbColor
        m_targetRGB := target
        m_colorFadeDurationMs := fade_ms
        m_colorFadeActive := true
        m_fadingToCCT := false }
    else if s.m_useCCT ∧ fade_ms > 0 then
      { s with
        m_startRGB := cctToRawRGB s.m_cct
        m_targetRGB := target
        m_useCCT := false
        m_colorFadeDurationMs := fade_ms
        m_colorFadeActive := true
        m_fadingToCCT := false }
    else
      update { s with
        m_rgbColor := target
        m_useCCT := false
        m_colorFadeActive := false
        m_fadingToCCT := false }
  let rgbValue : Nat := (r <<< 16) ||| (g <<< 8) ||| b
  let s := send_ui_event s UI_EVENT_RGB rgbValue excludeMask
  markChanged { s with m_dirty_rgb := true, m_dirty_mode := true } now

/-- `setHSV(h, s, v, fade_ms, excludeMask)`; `hsv2rgb` is FastLED's `CRGB::setHSV`. -/
def setHSV (hsv2rgb : Nat → Nat → Nat → CRGB) (s : LampController) (now : Nat)
    (h sat v fade_ms excludeMask : Nat) : LampController :=
  let rgb := hsv2rgb h sat v
  setColor s now rgb.r rgb.g rgb.b fade_ms excludeMask

/-- `setSavedBrightness(percent)`. -/
def setSavedBrightness (s : LampController) (now : Nat) (percent : Nat) : LampController :=
  let percent := if percent > 100 then 100 else percent
  if percent > 0 then markChanged { s with m_savedOnBrightness := percent, m_dirty_br := true } now
  else s

/-- `setEffect(EffectMode mode)`. -/
def setEffect (s : LampController) (mode : EffectMode) : LampController :=
  let s := { s with m_effect := mode, m_effectTick := 0 }
  let s := if mode ≠ EffectMode.None then { s with m_scene := "None" } else s
  if mode = EffectMode.None then update s else s

/-- `setEffect(const char* effectName)`. -/
def setEffectName (s : LampController) (effectName : String) : LampController :=
  let nm := toLowerCase effectName
  let mode :=
    if nm = "rainbow" then EffectMode.Rainbow
    else if nm = "breathing" then EffectMode.Breathing
    else if nm = "police" then EffectMode.Police
    else if nm = "spin" then EffectMode.Spin
    else if nm = "meteor" then EffectMode.Meteor
    else EffectMode.None
  setEffect s mode

/-- `setScene(scene, excludeMask)`; the nested setters read the clock at `now`. -/
def setScene (s : LampController) (now : Nat) (scene : String) (excludeMask : Nat) :
    LampController :=
  let nm := toLowerCase scene
  let s :=
    if nm = "reading" then
      { setBrightness (setCCT s now 4500 500 excludeMask) 80 500 excludeMask with
        m_scene := "Reading" }
    else if nm = "night" then
      { setBrightness (setCCT s now 2700 500 excludeMask) 5 500 excludeMask with
        m_scene := "Night" }
    else if nm = "cozy" then
      { setBrightness (setCCT s now 3000 500 excludeMask) 50 500 excludeMask with
        m_scene := "Cozy" }
    else if nm = "bright" then
      { setBrightness (setCCT s now 6000 500 excludeMask) 100 500 excludeMask with
        m_scene := "Bright" }
    else if nm = "none" then { s with m_scene := "None" }
    else s
  if nm ≠ "none" then setEffect s EffectMode.None else s

/-- `setAutoBrightness(enable)`. -/
def setAutoBrightness (s : LampController) (now : Nat) (enable : Bool) : LampController :=
  if s.m_autoBrightness ≠ enable then
    let s := markChanged { s with m_autoBrightness := enable, m_dirty_auto_br := true } now
    send_ui_event s UI_EVENT_AUTO_BR (if enable then 1 else 0) 0
  else s

/-- `init()` on a default-constructed controller, reading the store `p`. -/
def init (p : Preferences) : LampController :=
  let s : LampController := {}
  let s := loadStateFromNVS s p
  let s := { s with m_dirty_on := false, m_dirty_br := false, m_dirty_cct := false,
                    m_lastChangeMs := 0 }
  let s := update { s with m_brightness := 0 }
  let s :=
    if s.m_on then
      let saved := if s.m_savedOnBrightness > 0 then s.m_savedOnBrightness else 50
      fadeToBrightness s (u8 (map saved 1 100 kMinVisibleBrightness 100)) 1000
    else s
  let s := send_ui_event s UI_EVENT_BRIGHTNESS (getSavedBrightness s) 0
  let s := send_ui_event s UI_EVENT_CCT (getCCT s) 0
  send_ui_event s UI_EVENT_AUTO_BR (if isAutoBrightness s then 1 else 0) 0

end LampController

/-! ## The periodic task (`LampController::taskLoop`) -/

/-- The local variables of `taskLoop` that live across iterations. -/
structure TaskLocals where
  elapsed : Nat
  elapsedColor : Nat
  start : Nat
  lastTarget : Nat
  lastTargetCCT : Nat
  lastTargetRGB : CRGB
  lastUseCCT : Bool
  deriving DecidableEq, Repr

/-- The locals as initialised on entry of `taskLoop`. -/
def TaskLocals.entry (s : LampController) : TaskLocals :=
  { elapsed := 0, elapsedColor := 0, start := s.m_brightness,
    lastTarget := s.m_targetBrightness, lastTargetCCT := s.m_targetCCT,
    lastTargetRGB := s.m_targetRGB, lastUseCCT := s.m_useCCT }

/-- The frame an effect draws into the pixel buffer (`runEffect`'s `switch`,
built on FastLED and `millis()`), as a function of the controller, whose
`m_effectTick` is already incremented, and the clock. -/
abbrev EffectFrame : Type := LampController → Nat → List CRGB

namespace LampController

/-- `runEffect()`. -/
def runEffect (fx : EffectFrame) (s : LampController) (now : Nat) : LampController :=
  if s.m_effect = EffectMode.None then s
  else
    let s := { s with m_effectTick := (s.m_effectTick + 1) % 4294967296 }
    let leds := fx s now
    { s with m_leds := leds, shown := leds }

/-- Section 1 of the loop body: the brightness fade. -/
def tickBrightness (s : LampController) (l : TaskLocals) : LampController × TaskLocals :=
  let l :=
    if s.m_fadeActive ∧ s.m_targetBrightness ≠ l.lastTarget then
      { l with start := s.m_brightness, elapsed := 0, lastTarget := s.m_targetBrightness }
    else l
  if s.m_fadeActive then
    let r := advanceFade s l.elapsed l.start
    (r.1, { l with elapsed := r.2.1, start := r.2.2.1 })
  else
    (s, { l with start := s.m_brightness, elapsed := 0, lastTarget := s.m_targetBrightness })

/-- The flag `colorChanged` of section 2 of the loop body: the colour target
differs from the one seen on the previous iteration. -/
def colorChanged (s : LampController) (l : TaskLocals) : Bool :=
  if s.m_useCCT ≠ l.lastUseCCT then true
  else if s.m_useCCT then decide (s.m_targetCCT ≠ l.lastTargetCCT)
  else decide (s.m_targetRGB.r ≠ l.lastTargetRGB.r ∨ s.m_targetRGB.g ≠ l.lastTargetRGB.g
    ∨ s.m_targetRGB.b ≠ l.lastTargetRGB.b)

/-- Section 2 of the loop body: the colour fade. -/
def tickColor (s : LampController) (l : TaskLocals) : Option (LampController × TaskLocals) :=
  let l :=
    if s.m_colorFadeActive ∧ colorChanged s l then
      { l with elapsedColor := 0, lastUseCCT := s.m_useCCT, lastTargetCCT := s.m_targetCCT,
               lastTargetRGB := s.m_targetRGB }
    else l
  if s.m_colorFadeActive then
    match advanceColorFade s l.elapsedColor with
    | none => none
    | some r => some (r.1, { l with elapsedColor := r.2.1 })
  else
    some (s, { l with elapsedColor := 0, lastUseCCT := s.m_useCCT,
                      lastTargetCCT := s.m_targetCCT, lastTargetRGB := s.m_targetRGB })

/-- Section 4 of the loop body: the effect frame, or black while off. -/
def tickEffect (fx : EffectFrame) (s : LampController) (now : Nat) : LampController :=
  if s.m_effect ≠ EffectMode.None then
    if s.m_on ∨ s.m_brightness > 0 then runEffect fx s now
    else
      let leds := List.replicate LAMP_NUM_LEDS CRGB.Black
      { s with m_leds := leds, shown := leds }
  else s

end LampController

/-- The controller, the task's locals and the settings store. -/
structure Sys where
  lamp : LampController
  loc : TaskLocals
  prefs : Preferences

/-- One iteration of the `for (;;)` body of `taskLoop`, run at clock `now`;
`none` when the iteration divides by zero. -/
def taskLoop (fx : EffectFrame) (now : Nat) (c : Sys) : Option Sys :=
  let b := LampController.tickBrightness c.lamp c.loc
  match LampController.tickColor b.1 b.2 with
  | none => none
  | some k =>
    let f := LampController.flushIfIdle k.1 c.prefs now
    some { lamp := LampController.tickEffect fx f.1 now, loc := k.2, prefs := f.2 }

/-- Successive iterations of the task, one per clock reading of the list. -/
def runTicks (fx : EffectFrame) : List Nat → Sys → Option Sys
  | [], c => some c
  | now :: rest, c =>
    match taskLoop fx now c with
    | none => none
    | some c1 => runTicks fx rest c1

/-! ## The Police effect (`lamp_effects.cpp`) -/

/-- FastLED's `CRGB::Red`. -/
def CRGB.Red : CRGB := ⟨255, 0, 0⟩

/-- FastLED's `CRGB::Blue`. -/
def CRGB.Blue : CRGB := ⟨0, 0, 255⟩

namespace LampController

/-- The pixels the `EffectMode::Police` case of `runEffect` writes before the
brightness scaling, from the tick counter `m_effectTick`. -/
def policePattern (effectTick : Nat) : List CRGB :=
  let cycle := effectTick % 400
  if cycle < 300 then
    let offset := (LAMP_NUM_LEDS / 4) - (cycle / 2) % (LAMP_NUM_LEDS / 4)
    (List.range LAMP_NUM_LEDS).map fun i =>
      let panel := i / 16
      let local_x := i % 4
      let x := panel * 4 + local_x
      let pos := (x + offset) % (LAMP_NUM_LEDS / 4)
      if pos < LAMP_NUM_LEDS / 8 then CRGB.Red else CRGB.Blue
  else
    let flashPhase := (cycle - 300) / 5
    if flashPhase % 4 = 0 ∨ flashPhase % 4 = 2 then
      List.replicate LAMP_NUM_LEDS (if (flashPhase / 8) % 2 = 0 then CRGB.Red else CRGB.Blue)
    else List.replicate LAMP_NUM_LEDS CRGB.Black

/-- The frame of the `EffectMode::Police` case of `runEffect`: the pattern, each
pixel scaled by `nscale8(scaleChannel(255, brightness))`; FastLED's `nscale8`
is not part of the repository. -/
def policeFrame (nscale8 : CRGB → Nat → CRGB) : EffectFrame := fun s _ =>
  (policePattern s.m_effectTick).map fun c => nscale8 c (scaleChannel 255 s.m_brightness)

end LampController

/-! ## The colour-temperature command of the MQTT task (`mqtt_task.cpp`) -/

/-- `DEST_MQTT` of `gui_task.hpp`. -/
def DEST_MQTT : Nat := 2

/-- `handle_cct(msg)` of `mqtt_task.cpp`, from the integer `atoi` reads off the
payload: the lamp after the command and the flag `g_state_changed`. -/
def handle_cct (s : LampController) (now : Nat) (val : Int) (g_state_changed : Bool) :
    LampController × Bool :=
  let val := if val > 0 ∧ val < 1000 then Int.tdiv 1000000 val else val
  if val ≥ 2700 ∧ val ≤ 6500 then
    let s := s.setCCT now val.toNat 500 DEST_MQTT
    let s := s.send_ui_event UI_EVENT_CCT val DEST_MQTT
    (s, true)
  else (s, g_state_changed)

/-! ## Clock readings of a run of the task -/

/-- The clock readings of `n` consecutive iterations of the task, `STEP_MS`
apart, the first one `STEP_MS` after `t0`. -/
def tickTimes (t0 n : Nat) : List Nat :=
  (List.range n).map fun k => t0 + STEP_MS * (k + 1)

/-! ## Proof devices: a controller with one group of fields blanked

Each phase of the task writes one group of fields; two controllers that agree
after blanking a group agree on every field outside it. -/

namespace LampController

/-- Blank what the brightness fade writes. -/
def eraseBrightness (s : LampController) : LampController :=
  { s with m_brightness := 0, m_fadeActive := false, m_leds := [], shown := [] }

/-- Blank what the colour fade writes. -/
def eraseColor (s : LampController) : LampController :=
  { s with m_cct := 0, m_rgbColor := CRGB.Black, m_useCCT := false, m_fadingToCCT := false,
           m_colorFadeActive := false, m_leds := [], shown := [] }

/-- Blank what a flush writes. -/
def erasePersist (s : LampController) : LampController :=
  { s with m_dirty_on := false, m_dirty_br := false, m_dirty_cct := false,
           m_dirty_rgb := false, m_dirty_mode := false, m_dirty_auto_br := false,
           m_lastChangeMs := 0 }

/-- Blank what an effect frame writes. -/
def eraseEffect (s : LampController) : LampController :=
  { s with m_effectTick := 0, m_leds := [], shown := [] }

/-- The fields the brightness fade reads and writes. -/
def brightnessView (s : LampController) : Nat × Bool × Nat × Nat :=
  (s.m_brightness, s.m_fadeActive, s.m_targetBrightness, s.m_fadeDurationMs)

/-- The fields the colour fade reads and writes. -/
def colorView (s : LampController) : Bool × Nat × Bool × Bool × Nat × Nat × CRGB × CRGB :=
  (s.m_colorFadeActive, s.m_colorFadeDurationMs, s.m_useCCT, s.m_fadingToCCT, s.m_cct,
    s.m_targetCCT, s.m_targetRGB, s.m_rgbColor)

/-- The dirty flags and the change timestamp. -/
def persistView (s : LampController) : Bool × Bool × Bool × Bool × Bool × Bool × Nat :=
  (s.m_dirty_on, s.m_dirty_br, s.m_dirty_cct, s.m_dirty_rgb, s.m_dirty_mode,
    s.m_dirty_auto_br, s.m_lastChangeMs)

/-- The fields no phase of the task writes. -/
def staticView (s : LampController) :
    Bool × Nat × EffectMode × String × Bool × FadeCurve × List UIEvent :=
  (s.m_on, s.m_savedOnBrightness, s.m_effect, s.m_scene, s.m_autoBrightness, s.m_curve,
    s.events)

end LampController

/-- A brightness fade toward `tgt` has landed, or is running with its target
already seen by the task and at most `k` more steps to go. -/
def BrightnessSettling (tgt k : Nat) (c : Sys) : Prop :=
  (c.lamp.m_fadeActive = false ∧ c.lamp.m_brightness = tgt)
    ∨ (c.lamp.m_fadeActive = true ∧ c.lamp.m_targetBrightness = tgt ∧ c.loc.lastTarget = tgt
      ∧ c.lamp.m_fadeDurationMs ≤ 65535 ∧ c.loc.elapsed < c.lamp.m_fadeDurationMs
      ∧ c.lamp.m_fadeDurationMs ≤ c.loc.elapsed + STEP_MS * k)

/-- A colour fade ending in CCT mode at `tgt` has landed, or is running with
its target already seen by the task and at most `k` more steps to go. -/
def CctSettling (tgt k : Nat) (c : Sys) : Prop :=
  (c.lamp.m_colorFadeActive = false ∧ c.lamp.m_useCCT = true ∧ c.lamp.m_cct = tgt)
    ∨ (c.lamp.m_colorFadeActive = true ∧ c.lamp.m_targetCCT = tgt
      ∧ (c.lamp.m_fadingToCCT = true ∨ c.lamp.m_useCCT = true)
      ∧ LampController.colorChanged c.lamp c.loc = false
      ∧ c.lamp.m_colorFadeDurationMs ≤ 65535
      ∧ c.loc.elapsedColor < c.lamp.m_colorFadeDurationMs
      ∧ c.lamp.m_colorFadeDurationMs ≤ c.loc.elapsedColor + STEP_MS * k)

/-- An active colour fade has a non-zero duration. -/
def ColorFadeOk (s : LampController) : Prop :=
  s.m_colorFadeActive = true → s.m_colorFadeDurationMs ≠ 0

/-! ## Proof devices for the photometric mapping, fades in flight and call sequences -/

namespace LampController

/-- The duty cycle `target_pwm` that `scaleChannel` computes for a non-zero
brightness, before the channel value is applied. -/
def targetPwm (brightness : Nat) : Nat :=
  if brightness ≤ 10 then
    let range := kMaxPwmOutput - kMinPwmOutput
    let low_end := kMinPwmOutput
    let high_end := kMinPwmOutput + range / 10
    u32 (map brightness 1 10 low_end high_end)
  else
    let range := kMaxPwmOutput - kMinPwmOutput
    let low_end := kMinPwmOutput + range / 10
    let b_norm := brightness - 10
    let b_sq := b_norm * b_norm
    let pwm_range := kMaxPwmOutput - low_end
    (low_end + (b_sq * pwm_range) % 4294967296 / 7921) % 4294967296

end LampController

/-- The start value the brightness section works from on its next iteration:
the task's `start`, or the live brightness when the target is new to the task. -/
def nextStart (c : Sys) : Nat :=
  if c.lamp.m_targetBrightness = c.loc.lastTarget then c.loc.start else c.lamp.m_brightness

/-- The clock the brightness section works from on its next iteration: the
task's `elapsed`, or zero when the target is new to the task. -/
def nextElapsed (c : Sys) : Nat :=
  if c.lamp.m_targetBrightness = c.loc.lastTarget then c.loc.elapsed else 0

/-- A brightness fade from `b0` to `g` has landed, or is running on the
interpolation line from `b0` with at most `k` more steps to go. -/
def FadeTrack (b0 g k : Nat) (c : Sys) : Prop :=
  (c.lamp.m_fadeActive = false ∧ c.lamp.m_brightness = g)
    ∨ (c.lamp.m_fadeActive = true ∧ c.lamp.m_targetBrightness = g ∧ nextStart c = b0
      ∧ c.lamp.m_fadeDurationMs ≤ 65535 ∧ nextElapsed c ≤ c.lamp.m_fadeDurationMs
      ∧ c.lamp.m_fadeDurationMs ≤ nextElapsed c + STEP_MS * k
      ∧ c.lamp.m_brightness
          = LampController.fadeValue g b0
              (LampController.fadeProgress c.lamp (nextElapsed c) c.lamp.m_fadeDurationMs))

/-- The curves whose easing is non-decreasing in the raw progress. -/
def PlainCurve (s : LampController) : Prop :=
  s.m_curve = FadeCurve.Linear ∨ s.m_curve = FadeCurve.EaseIn ∨ s.m_curve = FadeCurve.EaseOut

/-! ## A power-on requested twice -/

/-- A store whose only entry is the power flag, cleared. -/
def storedOff : Preferences := Preferences.empty.put AppConfig.K_ON (PrefVal.uchar 0)

/-- The controller after `init()` on `storedOff` and a `setPower(true, 200)`,
with the task entered right after `init()`: a fade from 0 up to 55 over
110 ms is armed. -/
def poweringOn : Sys :=
  ⟨(LampController.init storedOff).setPower 0 true 200 0,
    TaskLocals.entry (LampController.init storedOff), storedOff⟩

/-- The same power-on requested again on `c`, with a nominal duration of one
minute. -/
def powerOnAgain (c : Sys) : Sys :=
  ⟨c.lamp.setPower 55 true 60000 0, c.loc, c.prefs⟩

/-! ## Call sequences -/

/-- A call on the control surface, or one iteration of the task (`tick`);
`setHSV` carries FastLED's HSV conversion, which is not part of the repository. -/
inductive Call where
  | setPower (onFlag : Bool) (fade_ms excludeMask : Nat)
  | setBrightness (percent fade_ms excludeMask : Nat)
  | setSavedBrightness (percent : Nat)
  | setCCT (cct fade_ms excludeMask : Nat)
  | setColor (r g b fade_ms excludeMask : Nat)
  | setScene (scene : String) (excludeMask : Nat)
  | setFadeCurve (curve : FadeCurve)
  | fadeToBrightness (targetPercent duration_ms : Nat)
  | cancelFade
  | setHSV (hsv2rgb : Nat → Nat → Nat → CRGB) (h sat v fade_ms excludeMask : Nat)
  | tick

/-- The effect of one call made at clock `now`; `none` when a task iteration
divides by zero. -/
def Call.run (fx : EffectFrame) (now : Nat) (c : Sys) : Call → Option Sys
  | Call.setPower onFlag fade_ms excludeMask =>
    some ⟨c.lamp.setPower now onFlag fade_ms excludeMask, c.loc, c.prefs⟩
  | Call.setBrightness percent fade_ms excludeMask =>
    some ⟨c.lamp.setBrightness percent fade_ms excludeMask, c.loc, c.prefs⟩
  | Call.setSavedBrightness percent =>
    some ⟨c.lamp.setSavedBrightness now percent, c.loc, c.prefs⟩
  | Call.setCCT cct fade_ms excludeMask =>
    some ⟨c.lamp.setCCT now cct fade_ms excludeMask, c.loc, c.prefs⟩
  | Call.setColor r g b fade_ms excludeMask =>
    some ⟨c.lamp.setColor now r g b fade_ms excludeMask, c.loc, c.prefs⟩
  | Call.setScene scene excludeMask =>
    some ⟨c.lamp.setScene now scene excludeMask, c.loc, c.prefs⟩
  | Call.setFadeCurve curve => some ⟨c.lamp.setFadeCurve curve, c.loc, c.prefs⟩
  | Call.fadeToBrightness targetPercent duration_ms =>
    some ⟨c.lamp.fadeToBrightness targetPercent duration_ms, c.loc, c.prefs⟩
  | Call.cancelFade => some ⟨c.lamp.cancelFade, c.loc, c.prefs⟩
  | Call.setHSV hsv2rgb h sat v fade_ms excludeMask =>
    some ⟨LampController.setHSV hsv2rgb c.lamp now h sat v fade_ms excludeMask, c.loc, c.prefs⟩
  | Call.tick => taskLoop fx now c

/-- A sequence of calls, each with the clock reading it is made at. -/
def runCalls (fx : EffectFrame) : List (Nat × Call) → Sys → Option Sys
  | [], c => some c
  | x :: rest, c =>
    match x.2.run fx x.1 c with
    | none => none
    | some c1 => runCalls fx rest c1

namespace LampController

/-- The fields the CCT value depends on. -/
def cctView (s : LampController) : Nat × Bool × Bool × Bool × Nat × Nat × Nat :=
  (s.m_cct, s.m_fadingToCCT, s.m_colorFadeActive, s.m_useCCT, s.m_startCCT, s.m_targetCCT,
    s.m_colorFadeDurationMs)

end LampController

/-- The CCT field, and every CCT value a colour fade can still write into it,
is within the supported range, and an active colour fade has a non-zero
duration. -/
def CctSafe (s : LampController) : Prop :=
  (LAMP_CCT_MIN ≤ s.m_cct ∧ s.m_cct ≤ LAMP_CCT_MAX)
    ∧ (s.m_fadingToCCT = true → LAMP_CCT_MIN ≤ s.m_targetCCT ∧ s.m_targetCCT ≤ LAMP_CCT_MAX)
    ∧ (s.m_colorFadeActive = true → s.m_useCCT = true →
        (LAMP_CCT_MIN ≤ s.m_startCCT ∧ s.m_startCCT ≤ LAMP_CCT_MAX)
          ∧ (LAMP_CCT_MIN ≤ s.m_targetCCT ∧ s.m_targetCCT ≤ LAMP_CCT_MAX))
    ∧ (s.m_colorFadeActive = true → s.m_colorFadeDurationMs ≠ 0)

/-- The saved on-brightness is a percentage in `1..100`. -/
def SavedOk (s : LampController) : Prop :=
  1 ≤ s.m_savedOnBrightness ∧ s.m_savedOnBrightness ≤ 100

/-! ## Fades requested while the task tracks an earlier one -/

/-- The controller after `init()` on an empty store (the lamp on), with the
task entered right after. -/
def afterInit : Sys :=
  ⟨LampController.init Preferences.empty, TaskLocals.entry (LampController.init Preferences.empty),
    Preferences.empty⟩

/-- Some `n` consecutive iterations of the task as calls, `STEP_MS` apart, the
first one `STEP_MS` after `t0`. -/
def tickCalls (t0 n : Nat) : List (Nat × Call) :=
  (tickTimes t0 n).map fun t => (t, Call.tick)

/-- A fade from 20 up to 80 requested again halfway: the brightness is set to
20 (`setBrightness(10, 0)`), the task runs once, `fadeToBrightness(80, 1000)`
arms a fade over 600 ms, the task runs 30 times, and `fadeToBrightness(80,
60000)` asks for the same target over a longer time. -/
def fadeUpRestarted : List (Nat × Call) :=
  [(1, Call.setBrightness 10 0 0), (10, Call.tick), (11, Call.fadeToBrightness 80 1000)]
    ++ tickCalls 10 30 ++ [(315, Call.fadeToBrightness 80 60000)]

/-- A fade from 20 up to 80 requested while the task tracks a fade down to 80:
the brightness is set to 100, the task runs once, `fadeToBrightness(80, 1000)`
arms a fade down over 200 ms, the task runs 5 times, and then, between two
iterations, `setBrightness(10, 0)` sets the brightness to 20 and
`fadeToBrightness(80, 1000)` arms the fade up. -/
def fadeUpAfterSnap : List (Nat × Call) :=
  [(1, Call.setBrightness 100 0 0), (10, Call.tick), (11, Call.fadeToBrightness 80 1000)]
    ++ tickCalls 10 5 ++ [(61, Call.setBrightness 10 0 0), (62, Call.fadeToBrightness 80 1000)]

/-- A fade toward the mapped value of 80 requested while the task tracks a fade
toward the mapped value of 30: the brightness is set to 100, the task runs
once, `setBrightness(30, 1000)` arms a fade down to 37 over 630 ms, the task
runs 40 times, and `setBrightness(80, 500)` arms a fade toward 82. -/
def fadeTowardEighty : List (Nat × Call) :=
  [(1, Call.setBrightness 100 0 0), (10, Call.tick), (11, Call.setBrightness 30 1000 0)]
    ++ tickCalls 10 40 ++ [(411, Call.setBrightness 80 500 0)]

/-! ## Percentages -/

/-- The live brightness and the fade target are percentages. -/
def PercentOk (s : LampController) : Prop :=
  s.m_brightness ≤ 100 ∧ s.m_targetBrightness ≤ 100

/-- The live brightness, the fade target and the start value the task holds
are all percentages. -/
def BrightOk (c : Sys) : Prop :=
  c.lamp.m_brightness ≤ 100 ∧ c.lamp.m_targetBrightness ≤ 100 ∧ c.loc.start ≤ 100

/-! # Lemmas -/

namespace LampController

/-! ## `update` only redraws the pixels -/

@[simp] theorem update_m_scene (s : LampController) : (update s).m_scene = s.m_scene := by
  unfold update; split <;> rfl

@[simp] theorem update_m_brightness (s : LampController) :
    (update s).m_brightness = s.m_brightness := by
  unfold update; split <;> rfl

@[simp] theorem update_m_cct (s : LampController) : (update s).m_cct = s.m_cct := by
  unfold update; split <;> rfl

@[simp] theorem update_m_rgbColor (s : LampController) : (update s).m_rgbColor = s.m_rgbColor := by
  unfold update; split <;> rfl

@[simp] theorem update_m_useCCT (s : LampController) : (update s).m_useCCT = s.m_useCCT := by
  unfold update; split <;> rfl

@[simp] theorem update_m_fadeActive (s : LampController) :
    (update s).m_fadeActive = s.m_fadeActive := by
  unfold update; split <;> rfl

@[simp] theorem update_m_targetBrightness (s : LampController) :
    (update s).m_targetBrightness = s.m_targetBrightness := by
  unfold update; split <;> rfl

@[simp] theorem update_m_fadeDurationMs (s : LampController) :
    (update s).m_fadeDurationMs = s.m_fadeDurationMs := by
  unfold update; split <;> rfl

@[simp] theorem update_m_curve (s : LampController) : (update s).m_curve = s.m_curve := by
  unfold update; split <;> rfl

@[simp] theorem update_m_colorFadeActive (s : LampController) :
    (update s).m_colorFadeActive = s.m_colorFadeActive := by
  unfold update; split <;> rfl

@[simp] theorem update_m_colorFadeDurationMs (s : LampController) :
    (update s).m_colorFadeDurationMs = s.m_colorFadeDurationMs := by
  unfold update; split <;> rfl

@[simp] theorem update_m_startCCT (s : LampController) : (update s).m_startCCT = s.m_startCCT := by
  unfold update; split <;> rfl

@[simp] theorem update_m_targetCCT (s : LampController) :
    (update s).m_targetCCT = s.m_targetCCT := by
  unfold update; split <;> rfl

@[simp] theorem update_m_startRGB (s : LampController) : (update s).m_startRGB = s.m_startRGB := by
  unfold update; split <;> rfl

@[simp] theorem update_m_targetRGB (s : LampController) :
    (update s).m_targetRGB = s.m_targetRGB := by
  unfold update; split <;> rfl

@[simp] theorem update_m_fadingToCCT (s : LampController) :
    (update s).m_fadingToCCT = s.m_fadingToCCT := by
  unfold update; split <;> rfl

@[simp] theorem update_m_effect (s : LampController) : (update s).m_effect = s.m_effect := by
  unfold update; split <;> rfl

@[simp] theorem update_m_effectTick (s : LampController) :
    (update s).m_effectTick = s.m_effectTick := by
  unfold update; split <;> rfl

@[simp] theorem update_m_on (s : LampController) : (update s).m_on = s.m_on := by
  unfold update; split <;> rfl

@[simp] theorem update_m_savedOnBrightness (s : LampController) :
    (update s).m_savedOnBrightness = s.m_savedOnBrightness := by
  unfold update; split <;> rfl

@[simp] theorem update_m_dirty_on (s : LampController) : (update s).m_dirty_on = s.m_dirty_on := by
  unfold update; split <;> rfl

@[simp] theorem update_m_dirty_br (s : LampController) : (update s).m_dirty_br = s.m_dirty_br := by
  unfold update; split <;> rfl

@[simp] theorem update_m_dirty_cct (s : LampController) :
    (update s).m_dirty_cct = s.m_dirty_cct := by
  unfold update; split <;> rfl

@[simp] theorem update_m_dirty_rgb (s : LampController) :
    (update s).m_dirty_rgb = s.m_dirty_rgb := by
  unfold update; split <;> rfl

@[simp] theorem update_m_dirty_mode (s : LampController) :
    (update s).m_dirty_mode = s.m_dirty_mode := by
  unfold update; split <;> rfl

@[simp] theorem update_m_dirty_auto_br (s : LampController) :
    (update s).m_dirty_auto_br = s.m_dirty_auto_br := by
  unfold update; split <;> rfl

@[simp] theorem update_m_lastChangeMs (s : LampController) :
    (update s).m_lastChangeMs = s.m_lastChangeMs := by
  unfold update; split <;> rfl

@[simp] theorem update_m_autoBrightness (s : LampController) :
    (update s).m_autoBrightness = s.m_autoBrightness := by
  unfold update; split <;> rfl

@[simp] theorem update_events (s : LampController) : (update s).events = s.events := by
  unfold update; split <;> rfl

end LampController

namespace LampController

/-! ## What agreement after blanking gives -/

theorem colorView_of_eraseBrightness {a b : LampController}
    (h : eraseBrightness a = eraseBrightness b) : colorView a = colorView b := by
  have h1 := congrArg colorView h
  exact h1

theorem persistView_of_eraseBrightness {a b : LampController}
    (h : eraseBrightness a = eraseBrightness b) : persistView a = persistView b := by
  have h1 := congrArg persistView h
  exact h1

theorem staticView_of_eraseBrightness {a b : LampController}
    (h : eraseBrightness a = eraseBrightness b) : staticView a = staticView b := by
  have h1 := congrArg staticView h
  exact h1

theorem target_of_eraseBrightness {a b : LampController}
    (h : eraseBrightness a = eraseBrightness b) :
    a.m_targetBrightness = b.m_targetBrightness ∧ a.m_fadeDurationMs = b.m_fadeDurationMs := by
  have h1 := congrArg (fun x : LampController => x.m_targetBrightness) h
  have h2 := congrArg (fun x : LampController => x.m_fadeDurationMs) h
  exact ⟨h1, h2⟩

theorem brightnessView_of_eraseColor {a b : LampController}
    (h : eraseColor a = eraseColor b) : brightnessView a = brightnessView b := by
  have h1 := congrArg brightnessView h
  exact h1

theorem persistView_of_eraseColor {a b : LampController}
    (h : eraseColor a = eraseColor b) : persistView a = persistView b := by
  have h1 := congrArg persistView h
  exact h1

theorem staticView_of_eraseColor {a b : LampController}
    (h : eraseColor a = eraseColor b) : staticView a = staticView b := by
  have h1 := congrArg staticView h
  exact h1

theorem target_of_eraseColor {a b : LampController}
    (h : eraseColor a = eraseColor b) :
    a.m_colorFadeDurationMs = b.m_colorFadeDurationMs ∧ a.m_targetCCT = b.m_targetCCT
      ∧ a.m_targetRGB = b.m_targetRGB := by
  have h1 := congrArg (fun x : LampController => x.m_colorFadeDurationMs) h
  have h2 := congrArg (fun x : LampController => x.m_targetCCT) h
  have h3 := congrArg (fun x : LampController => x.m_targetRGB) h
  exact ⟨h1, h2, h3⟩

theorem brightnessView_of_erasePersist {a b : LampController}
    (h : erasePersist a = erasePersist b) : brightnessView a = brightnessView b := by
  have h1 := congrArg brightnessView h
  exact h1

theorem colorView_of_erasePersist {a b : LampController}
    (h : erasePersist a = erasePersist b) : colorView a = colorView b := by
  have h1 := congrArg colorView h
  exact h1

theorem staticView_of_erasePersist {a b : LampController}
    (h : erasePersist a = erasePersist b) : staticView a = staticView b := by
  have h1 := congrArg staticView h
  exact h1

theorem brightnessView_of_eraseEffect {a b : LampController}
    (h : eraseEffect a = eraseEffect b) : brightnessView a = brightnessView b := by
  have h1 := congrArg brightnessView h
  exact h1

theorem colorView_of_eraseEffect {a b : LampController}
    (h : eraseEffect a = eraseEffect b) : colorView a = colorView b := by
  have h1 := congrArg colorView h
  exact h1

theorem persistView_of_eraseEffect {a b : LampController}
    (h : eraseEffect a = eraseEffect b) : persistView a = persistView b := by
  have h1 := congrArg persistView h
  exact h1

theorem staticView_of_eraseEffect {a b : LampController}
    (h : eraseEffect a = eraseEffect b) : staticView a = staticView b := by
  have h1 := congrArg staticView h
  exact h1

/-! ## Frame lemmas for the brightness fade -/

theorem eraseBrightness_update (s : LampController) :
    eraseBrightness (update s) = eraseBrightness s := by
  unfold update; split <;> rfl

theorem eraseBrightness_renderBrightness (s : LampController) (v : Nat) :
    eraseBrightness (renderBrightness s v) = eraseBrightness s := by
  unfold renderBrightness; rw [eraseBrightness_update]; rfl

theorem eraseBrightness_cancelFade (s : LampController) :
    eraseBrightness (cancelFade s) = eraseBrightness s := rfl

theorem renderBrightness_m_brightness (s : LampController) (v : Nat) :
    (renderBrightness s v).m_brightness = v := by
  unfold renderBrightness; rw [update_m_brightness]

theorem renderBrightness_m_fadeActive (s : LampController) (v : Nat) :
    (renderBrightness s v).m_fadeActive = s.m_fadeActive := by
  unfold renderBrightness; rw [update_m_fadeActive]

theorem eraseBrightness_advanceFade (s : LampController) (e st : Nat) :
    eraseBrightness (advanceFade s e st).1 = eraseBrightness s := by
  unfold advanceFade
  split
  · simp only [eraseBrightness_cancelFade, eraseBrightness_renderBrightness]
  · dsimp only
    split <;> split <;> (try split) <;>
      simp only [eraseBrightness_cancelFade, eraseBrightness_renderBrightness]

theorem stepElapsed_lt (e d : Nat) (h : ¬ stepElapsed e d ≥ d) :
    stepElapsed e d = (e + STEP_MS) % 4294967296 ∧ stepElapsed e d < d := by
  unfold stepElapsed at h ⊢
  dsimp only at h ⊢
  split at h
  · exact absurd (le_refl d) h
  · rename_i h1
    rw [if_neg h1]
    exact ⟨rfl, Nat.lt_of_not_ge h1⟩

/-- The outcome of one `advanceFade`: it either lands on the target and stops,
or keeps running with the clock advanced by one step, short of the duration. -/
theorem advanceFade_outcome (s : LampController) (e st : Nat) :
    ((advanceFade s e st).1.m_fadeActive = false
        ∧ (advanceFade s e st).1.m_brightness = s.m_targetBrightness)
      ∨ ((advanceFade s e st).1.m_fadeActive = s.m_fadeActive
        ∧ (advanceFade s e st).2.1 = (e + STEP_MS) % 4294967296
        ∧ (advanceFade s e st).2.1 < s.m_fadeDurationMs
        ∧ (advanceFade s e st).2.2.1 = st) := by
  unfold advanceFade
  split
  · left
    exact ⟨rfl, by simp only [cancelFade, renderBrightness_m_brightness]⟩
  · dsimp only
    split
    · rename_i hc
      obtain ⟨ht, hd⟩ := target_of_eraseBrightness (eraseBrightness_renderBrightness s
        (fadeValue s.m_targetBrightness st
          (fadeProgress s (stepElapsed e s.m_fadeDurationMs) s.m_fadeDurationMs)))
      rw [hd, ht]
      split
      · left
        refine ⟨rfl, ?_⟩
        split
        · simp only [cancelFade, renderBrightness_m_brightness]
        · rename_i h2
          simpa [cancelFade] using h2
      · rename_i h2
        right
        obtain ⟨h3, h4⟩ := stepElapsed_lt _ _ h2
        exact ⟨renderBrightness_m_fadeActive _ _, h3, h4, rfl⟩
    · split
      · left
        refine ⟨rfl, ?_⟩
        split
        · simp only [cancelFade, renderBrightness_m_brightness]
        · rename_i h2
          simpa [cancelFade] using h2
      · rename_i h2
        right
        obtain ⟨h3, h4⟩ := stepElapsed_lt _ _ h2
        exact ⟨rfl, h3, h4, rfl⟩

end LampController

namespace LampController

/-! ## The brightness section of the task -/

theorem tickBrightness_frame (s : LampController) (l : TaskLocals) :
    eraseBrightness (tickBrightness s l).1 = eraseBrightness s := by
  unfold tickBrightness
  dsimp only
  split
  · exact eraseBrightness_advanceFade _ _ _
  · rfl

theorem tickBrightness_locals (s : LampController) (l : TaskLocals) :
    (tickBrightness s l).2.elapsedColor = l.elapsedColor
      ∧ (tickBrightness s l).2.lastTargetCCT = l.lastTargetCCT
      ∧ (tickBrightness s l).2.lastTargetRGB = l.lastTargetRGB
      ∧ (tickBrightness s l).2.lastUseCCT = l.lastUseCCT := by
  unfold tickBrightness
  dsimp only
  split <;> split <;> exact ⟨rfl, rfl, rfl, rfl⟩

theorem tickBrightness_idle (s : LampController) (l : TaskLocals)
    (h : s.m_fadeActive = false) : (tickBrightness s l).1 = s := by
  unfold tickBrightness
  simp [h]

/-- One brightness section with the fade active: the brightness is on the
target with the fade stopped, or the fade goes on, its target recorded as seen
and the clock one step further (from zero when the target is new). -/
theorem tickBrightness_active (s : LampController) (l : TaskLocals)
    (h : s.m_fadeActive = true) :
    ((tickBrightness s l).1.m_fadeActive = false
        ∧ (tickBrightness s l).1.m_brightness = s.m_targetBrightness)
      ∨ ((tickBrightness s l).1.m_fadeActive = true
        ∧ (tickBrightness s l).2.lastTarget = s.m_targetBrightness
        ∧ (tickBrightness s l).2.elapsed < s.m_fadeDurationMs
        ∧ (tickBrightness s l).2.elapsed
            = ((if s.m_targetBrightness = l.lastTarget then l.elapsed else 0) + STEP_MS)
                % 4294967296) := by
  unfold tickBrightness
  by_cases hc : s.m_targetBrightness = l.lastTarget
  · have hn : ¬ (s.m_fadeActive = true ∧ s.m_targetBrightness ≠ l.lastTarget) :=
      fun h2 => h2.2 hc
    simp only [if_neg hn, if_pos h, if_pos hc]
    rcases advanceFade_outcome s l.elapsed l.start with h1 | ⟨h1, h2, h3, _⟩
    · exact Or.inl h1
    · exact Or.inr ⟨h1.trans h, hc.symm, h3, h2⟩
  · have hn : s.m_fadeActive = true ∧ s.m_targetBrightness ≠ l.lastTarget := ⟨h, hc⟩
    simp only [if_pos hn, if_pos h, if_neg hc]
    rcases advanceFade_outcome s 0 s.m_brightness with h1 | ⟨h1, h2, h3, _⟩
    · exact Or.inl h1
    · exact Or.inr ⟨h1.trans h, trivial, h3, h2⟩

end LampController

namespace LampController

/-! ## Frame lemmas for the colour fade -/

theorem eraseColor_update (s : LampController) : eraseColor (update s) = eraseColor s := by
  unfold update; split <;> rfl

theorem eraseColor_colorFadeMix (s : LampController) (t : Nat) :
    eraseColor (colorFadeMix s t) = eraseColor s := by
  unfold colorFadeMix; split <;> rfl

theorem eraseColor_colorFadeSnap (s : LampController) :
    eraseColor (colorFadeSnap s) = eraseColor s := by
  unfold colorFadeSnap; split <;> (try split) <;> rfl

theorem eraseColor_colorFadeStop (s : LampController) :
    eraseColor (colorFadeStop s) = eraseColor s := rfl

theorem update_colorView (s : LampController) : colorView (update s) = colorView s := by
  unfold update; split <;> rfl

theorem colorFadeMix_flags (s : LampController) (t : Nat) :
    (colorFadeMix s t).m_colorFadeActive = s.m_colorFadeActive
      ∧ (colorFadeMix s t).m_useCCT = s.m_useCCT
      ∧ (colorFadeMix s t).m_fadingToCCT = s.m_fadingToCCT := by
  unfold colorFadeMix; split <;> exact ⟨rfl, rfl, rfl⟩

/-- The completion block lands on the CCT target in CCT mode when the fade is
a CCT fade or crosses back to CCT, on the RGB target in RGB mode otherwise. -/
theorem colorFadeSnap_result (s : LampController) :
    (s.m_fadingToCCT = true ∨ s.m_useCCT = true →
        (colorFadeSnap s).m_useCCT = true ∧ (colorFadeSnap s).m_cct = s.m_targetCCT)
      ∧ (s.m_fadingToCCT = false ∧ s.m_useCCT = false →
        (colorFadeSnap s).m_useCCT = false ∧ (colorFadeSnap s).m_rgbColor = s.m_targetRGB) := by
  unfold colorFadeSnap
  split
  · rename_i h
    exact ⟨fun _ => ⟨rfl, rfl⟩, fun h2 => by simp [h] at h2⟩
  · rename_i h
    split
    · rename_i h1
      exact ⟨fun _ => ⟨h1, rfl⟩, fun h2 => by simp [h1] at h2⟩
    · rename_i h1
      refine ⟨fun h2 => ?_, fun _ => ⟨by simpa using h1, rfl⟩⟩
      rcases h2 with h2 | h2
      · exact absurd h2 h
      · exact absurd h2 h1

/-- The outcome of one `advanceColorFade` with a non-zero duration. -/
theorem advanceColorFade_outcome (s : LampController) (e : Nat)
    (hd : s.m_colorFadeDurationMs ≠ 0) :
    ∃ r, advanceColorFade s e = some r ∧ eraseColor r.1 = eraseColor s
      ∧ ((r.1.m_colorFadeActive = false
          ∧ (s.m_fadingToCCT = true ∨ s.m_useCCT = true →
              r.1.m_useCCT = true ∧ r.1.m_cct = s.m_targetCCT)
          ∧ (s.m_fadingToCCT = false ∧ s.m_useCCT = false →
              r.1.m_useCCT = false ∧ r.1.m_rgbColor = s.m_targetRGB))
        ∨ (r.1.m_colorFadeActive = s.m_colorFadeActive
          ∧ r.1.m_useCCT = s.m_useCCT ∧ r.1.m_fadingToCCT = s.m_fadingToCCT
          ∧ r.2.1 = (e + STEP_MS) % 4294967296
          ∧ r.2.1 < s.m_colorFadeDurationMs)) := by
  unfold advanceColorFade
  simp only [if_neg hd]
  have hm := eraseColor_colorFadeMix s
    (fadeProgress s (stepElapsed e s.m_colorFadeDurationMs) s.m_colorFadeDurationMs)
  have hflags := colorFadeMix_flags s
    (fadeProgress s (stepElapsed e s.m_colorFadeDurationMs) s.m_colorFadeDurationMs)
  generalize colorFadeMix s
    (fadeProgress s (stepElapsed e s.m_colorFadeDurationMs) s.m_colorFadeDurationMs) = m
    at hm hflags ⊢
  have hum : eraseColor (update m) = eraseColor s := (eraseColor_update m).trans hm
  obtain ⟨hdur, htc, -⟩ := target_of_eraseColor hum
  have hcv := update_colorView m
  simp only [colorView, Prod.mk.injEq] at hcv
  obtain ⟨hca, -, hcu, hcf, -, -, -, -⟩ := hcv
  obtain ⟨hfa, hfu, hff⟩ := hflags
  rw [hdur]
  by_cases hfin : stepElapsed e s.m_colorFadeDurationMs ≥ s.m_colorFadeDurationMs
  · rw [if_pos hfin]
    refine ⟨_, rfl, ?_, Or.inl ⟨rfl, ?_, ?_⟩⟩
    · show eraseColor (colorFadeStop (update (colorFadeSnap (update m)))) = _
      rw [eraseColor_colorFadeStop, eraseColor_update, eraseColor_colorFadeSnap]
      exact hum
    · intro h
      have hs := (colorFadeSnap_result (update m)).1 (by rw [hcf, hcu, hff, hfu]; exact h)
      have hv := update_colorView (colorFadeSnap (update m))
      simp only [colorView, Prod.mk.injEq] at hv
      obtain ⟨-, -, hvu, -, hvc, -, -, -⟩ := hv
      show (update (colorFadeSnap (update m))).m_useCCT = true
        ∧ (update (colorFadeSnap (update m))).m_cct = s.m_targetCCT
      rw [hvu, hvc, ← htc]
      exact hs
    · intro h
      have hs := (colorFadeSnap_result (update m)).2 (by rw [hcf, hcu, hff, hfu]; exact h)
      have hv := update_colorView (colorFadeSnap (update m))
      simp only [colorView, Prod.mk.injEq] at hv
      obtain ⟨-, -, hvu, -, -, -, -, hvr⟩ := hv
      obtain ⟨-, -, htr⟩ := target_of_eraseColor hum
      show (update (colorFadeSnap (update m))).m_useCCT = false
        ∧ (update (colorFadeSnap (update m))).m_rgbColor = s.m_targetRGB
      rw [hvu, hvr, ← htr]
      exact hs
  · rw [if_neg hfin]
    obtain ⟨h3, h4⟩ := stepElapsed_lt _ _ hfin
    exact ⟨_, rfl, hum, Or.inr ⟨hca.trans hfa, hcu.trans hfu, hcf.trans hff, h3, h4⟩⟩

end LampController

namespace LampController

/-! ## The colour section of the task -/

theorem colorChanged_congr {s r : LampController} (l : TaskLocals)
    (hu : r.m_useCCT = s.m_useCCT) (hc : r.m_targetCCT = s.m_targetCCT)
    (hr : r.m_targetRGB = s.m_targetRGB) : colorChanged r l = colorChanged s l := by
  unfold colorChanged
  rw [hu, hc, hr]

theorem colorChanged_seen (s : LampController) (l : TaskLocals) (e : Nat) :
    colorChanged s
      (TaskLocals.mk l.elapsed e l.start l.lastTarget s.m_targetCCT s.m_targetRGB s.m_useCCT)
      = false := by
  unfold colorChanged
  simp

theorem tickColor_idle (s : LampController) (l : TaskLocals)
    (h : s.m_colorFadeActive = false) :
    ∃ l1, tickColor s l = some (s, l1) ∧ l1.elapsed = l.elapsed ∧ l1.start = l.start
      ∧ l1.lastTarget = l.lastTarget := by
  unfold tickColor
  simp [h]

/-- One colour section with the fade active and a non-zero duration. -/
theorem tickColor_active (s : LampController) (l : TaskLocals)
    (h : s.m_colorFadeActive = true) (hd : s.m_colorFadeDurationMs ≠ 0) :
    ∃ r, tickColor s l = some r ∧ eraseColor r.1 = eraseColor s
      ∧ r.2.elapsed = l.elapsed ∧ r.2.start = l.start ∧ r.2.lastTarget = l.lastTarget
      ∧ ((r.1.m_colorFadeActive = false
          ∧ (s.m_fadingToCCT = true ∨ s.m_useCCT = true →
              r.1.m_useCCT = true ∧ r.1.m_cct = s.m_targetCCT)
          ∧ (s.m_fadingToCCT = false ∧ s.m_useCCT = false →
              r.1.m_useCCT = false ∧ r.1.m_rgbColor = s.m_targetRGB))
        ∨ (r.1.m_colorFadeActive = true
          ∧ r.1.m_useCCT = s.m_useCCT ∧ r.1.m_fadingToCCT = s.m_fadingToCCT
          ∧ colorChanged r.1 r.2 = false
          ∧ r.2.elapsedColor < s.m_colorFadeDurationMs
          ∧ r.2.elapsedColor
              = ((if colorChanged s l = true then 0 else l.elapsedColor) + STEP_MS)
                  % 4294967296)) := by
  unfold tickColor
  by_cases hc : colorChanged s l = true
  · have hn : s.m_colorFadeActive = true ∧ colorChanged s l = true := ⟨h, hc⟩
    simp only [if_pos hn, if_pos h, if_pos hc]
    obtain ⟨r, hr, hfr, hout⟩ := advanceColorFade_outcome s 0 hd
    rw [hr]
    refine ⟨_, rfl, hfr, rfl, rfl, rfl, ?_⟩
    rcases hout with h1 | ⟨h1, h2, h3, h4, h5⟩
    · exact Or.inl h1
    · refine Or.inr ⟨h1.trans h, h2, h3, ?_, h5, h4⟩
      obtain ⟨-, htc, htr⟩ := target_of_eraseColor hfr
      rw [colorChanged_congr _ h2 htc htr]
      exact colorChanged_seen s l _
  · have hn : ¬ (s.m_colorFadeActive = true ∧ colorChanged s l = true) := fun h2 => hc h2.2
    simp only [if_neg hn, if_pos h, if_neg hc]
    obtain ⟨r, hr, hfr, hout⟩ := advanceColorFade_outcome s l.elapsedColor hd
    rw [hr]
    refine ⟨_, rfl, hfr, rfl, rfl, rfl, ?_⟩
    rcases hout with h1 | ⟨h1, h2, h3, h4, h5⟩
    · exact Or.inl h1
    · refine Or.inr ⟨h1.trans h, h2, h3, ?_, h5, h4⟩
      obtain ⟨-, htc, htr⟩ := target_of_eraseColor hfr
      rw [colorChanged_congr _ h2 htc htr]
      show colorChanged s l = false
      simpa using hc

/-- The colour section is defined whenever an active colour fade has a
non-zero duration, and then it leaves everything but the colour alone. -/
theorem tickColor_defined (s : LampController) (l : TaskLocals)
    (hd : s.m_colorFadeActive = true → s.m_colorFadeDurationMs ≠ 0) :
    ∃ r, tickColor s l = some r ∧ eraseColor r.1 = eraseColor s
      ∧ r.2.elapsed = l.elapsed ∧ r.2.start = l.start ∧ r.2.lastTarget = l.lastTarget
      ∧ (r.1.m_colorFadeActive = true → r.1.m_colorFadeDurationMs ≠ 0) := by
  by_cases h : s.m_colorFadeActive = true
  · obtain ⟨r, hr, hfr, h1, h2, h3, -⟩ := tickColor_active s l h (hd h)
    refine ⟨r, hr, hfr, h1, h2, h3, fun _ => ?_⟩
    rw [(target_of_eraseColor hfr).1]
    exact hd h
  · have h0 : s.m_colorFadeActive = false := by simpa using h
    obtain ⟨l1, hr, h1, h2, h3⟩ := tickColor_idle s l h0
    exact ⟨_, hr, rfl, h1, h2, h3, fun h4 => absurd h4 h⟩

/-! ## Flush and effect sections -/

theorem erasePersist_flushOn (s : LampController) (p : Preferences) :
    erasePersist (flushOn s p).1 = erasePersist s := by
  unfold flushOn; split <;> rfl

theorem erasePersist_flushBr (s : LampController) (p : Preferences) :
    erasePersist (flushBr s p).1 = erasePersist s := by
  unfold flushBr; split <;> rfl

theorem erasePersist_flushCCT (s : LampController) (p : Preferences) :
    erasePersist (flushCCT s p).1 = erasePersist s := by
  unfold flushCCT; split <;> rfl

theorem erasePersist_flushRGB (s : LampController) (p : Preferences) :
    erasePersist (flushRGB s p).1 = erasePersist s := by
  unfold flushRGB; split <;> rfl

theorem erasePersist_flushMode (s : LampController) (p : Preferences) :
    erasePersist (flushMode s p).1 = erasePersist s := by
  unfold flushMode; split <;> rfl

theorem erasePersist_flushAutoBr (s : LampController) (p : Preferences) :
    erasePersist (flushAutoBr s p).1 = erasePersist s := by
  unfold flushAutoBr; split <;> rfl

theorem erasePersist_flushNow (s : LampController) (p : Preferences) :
    erasePersist (flushNow s p).1 = erasePersist s := by
  unfold flushNow
  show erasePersist (clearChangeStamp _) = _
  have h : ∀ x, erasePersist (clearChangeStamp x) = erasePersist x := fun _ => rfl
  rw [h, erasePersist_flushAutoBr, erasePersist_flushMode, erasePersist_flushRGB,
    erasePersist_flushCCT, erasePersist_flushBr, erasePersist_flushOn]

theorem erasePersist_flushIfIdle (s : LampController) (p : Preferences) (now : Nat) :
    erasePersist (flushIfIdle s p now).1 = erasePersist s := by
  unfold flushIfIdle
  split
  · rfl
  · split
    · rfl
    · split
      · exact erasePersist_flushNow s p
      · rfl

/-- With the change timestamp at zero the periodic flush does nothing. -/
theorem flushIfIdle_of_unmarked (s : LampController) (p : Preferences) (now : Nat)
    (h : s.m_lastChangeMs = 0) : flushIfIdle s p now = (s, p) := by
  unfold flushIfIdle
  split
  · rfl
  · simp [h]

theorem eraseEffect_tickEffect (fx : EffectFrame) (s : LampController) (now : Nat) :
    eraseEffect (tickEffect fx s now) = eraseEffect s := by
  unfold tickEffect runEffect
  split
  · split
    · rfl
    · rfl
  · rfl

end LampController

/-! ## One iteration of the task -/

open LampController in
/-- What one iteration does, section by section: it is defined whenever an
active colour fade has a non-zero duration; brightness fields come from the
brightness section, colour fields from the colour section, dirty flags and the
store from the flush, and the remaining fields are untouched. -/
theorem taskLoop_step (fx : EffectFrame) (now : Nat) (c : Sys) (hd : ColorFadeOk c.lamp) :
    ∃ c1 k, taskLoop fx now c = some c1
      ∧ tickColor (tickBrightness c.lamp c.loc).1 (tickBrightness c.lamp c.loc).2 = some k
      ∧ brightnessView c1.lamp = brightnessView (tickBrightness c.lamp c.loc).1
      ∧ c1.loc.elapsed = (tickBrightness c.lamp c.loc).2.elapsed
      ∧ c1.loc.lastTarget = (tickBrightness c.lamp c.loc).2.lastTarget
      ∧ colorView c1.lamp = colorView k.1 ∧ c1.loc = k.2
      ∧ staticView c1.lamp = staticView c.lamp
      ∧ persistView c1.lamp = persistView (flushIfIdle k.1 c.prefs now).1
      ∧ c1.prefs = (flushIfIdle k.1 c.prefs now).2
      ∧ persistView k.1 = persistView c.lamp
      ∧ ColorFadeOk c1.lamp := by
  have hb := tickBrightness_frame c.lamp c.loc
  have hbc := colorView_of_eraseBrightness hb
  have hd1 : ColorFadeOk (tickBrightness c.lamp c.loc).1 := by
    simp only [colorView, Prod.mk.injEq] at hbc
    intro h
    rw [hbc.2.1]
    exact hd (hbc.1 ▸ h)
  obtain ⟨k, hk, hkf, hk1, -, hk3, hkok⟩ :=
    tickColor_defined (tickBrightness c.lamp c.loc).1 (tickBrightness c.lamp c.loc).2 hd1
  have hf := erasePersist_flushIfIdle k.1 c.prefs now
  have he := eraseEffect_tickEffect fx (flushIfIdle k.1 c.prefs now).1 now
  refine ⟨⟨tickEffect fx (flushIfIdle k.1 c.prefs now).1 now, k.2,
    (flushIfIdle k.1 c.prefs now).2⟩, k, ?_, hk, ?_, hk1, hk3, ?_, rfl, ?_, ?_, rfl, ?_, ?_⟩
  · unfold taskLoop
    simp only [hk]
  · exact (brightnessView_of_eraseEffect he).trans
      ((brightnessView_of_erasePersist hf).trans (brightnessView_of_eraseColor hkf))
  · exact (colorView_of_eraseEffect he).trans (colorView_of_erasePersist hf)
  · exact (staticView_of_eraseEffect he).trans ((staticView_of_erasePersist hf).trans
      ((staticView_of_eraseColor hkf).trans (staticView_of_eraseBrightness hb)))
  · exact persistView_of_eraseEffect he
  · exact (persistView_of_eraseColor hkf).trans (persistView_of_eraseBrightness hb)
  · have hcv := (colorView_of_eraseEffect he).trans (colorView_of_erasePersist hf)
    simp only [colorView, Prod.mk.injEq] at hcv
    intro h
    show (tickEffect fx (flushIfIdle k.1 c.prefs now).1 now).m_colorFadeDurationMs ≠ 0
    rw [hcv.2.1]
    exact hkok (hcv.1 ▸ h)

/-! ## Fades settle within a bounded number of iterations -/

theorem brightnessSettling_mono {tgt k k1 : Nat} {c : Sys} (h : BrightnessSettling tgt k c)
    (hk : k ≤ k1) : BrightnessSettling tgt k1 c := by
  rcases h with h | ⟨h1, h2, h3, h4, h5, h6⟩
  · exact Or.inl h
  · refine Or.inr ⟨h1, h2, h3, h4, h5, ?_⟩
    have : STEP_MS * k ≤ STEP_MS * k1 := Nat.mul_le_mul_left _ hk
    omega

theorem brightnessSettling_done {tgt : Nat} {c : Sys} (h : BrightnessSettling tgt 0 c) :
    c.lamp.m_fadeActive = false ∧ c.lamp.m_brightness = tgt := by
  rcases h with h | ⟨_, _, _, _, h5, h6⟩
  · exact h
  · omega

theorem cctSettling_mono {tgt k k1 : Nat} {c : Sys} (h : CctSettling tgt k c)
    (hk : k ≤ k1) : CctSettling tgt k1 c := by
  rcases h with h | ⟨h1, h2, h3, h4, h5, h6, h7⟩
  · exact Or.inl h
  · refine Or.inr ⟨h1, h2, h3, h4, h5, h6, ?_⟩
    have : STEP_MS * k ≤ STEP_MS * k1 := Nat.mul_le_mul_left _ hk
    omega

theorem cctSettling_done {tgt : Nat} {c : Sys} (h : CctSettling tgt 0 c) :
    c.lamp.m_colorFadeActive = false ∧ c.lamp.m_useCCT = true ∧ c.lamp.m_cct = tgt := by
  rcases h with h | ⟨_, _, _, _, _, h6, h7⟩
  · exact h
  · omega

theorem cctSettling_ok {tgt k : Nat} {c : Sys} (h : CctSettling tgt k c) :
    ColorFadeOk c.lamp := by
  intro ha
  rcases h with h | ⟨_, _, _, _, _, h6, _⟩
  · rw [h.1] at ha; cases ha
  · omega

open LampController in
/-- The first iteration after a brightness fade is armed. -/
theorem brightness_first (fx : EffectFrame) (now tgt : Nat) (c c1 : Sys)
    (hd : ColorFadeOk c.lamp) (h : taskLoop fx now c = some c1)
    (ha : c.lamp.m_fadeActive = true) (ht : c.lamp.m_targetBrightness = tgt)
    (hle : c.lamp.m_fadeDurationMs ≤ 65535) :
    BrightnessSettling tgt (c.lamp.m_fadeDurationMs / STEP_MS + 1) c1 := by
  obtain ⟨c2, k, h2, -, hbv, hel, hlt, -⟩ := taskLoop_step fx now c hd
  rw [h] at h2
  cases h2
  obtain ⟨htg, hdur⟩ := target_of_eraseBrightness (tickBrightness_frame c.lamp c.loc)
  simp only [brightnessView, Prod.mk.injEq] at hbv
  obtain ⟨hb1, hb2, hb3, hb4⟩ := hbv
  rcases tickBrightness_active c.lamp c.loc ha with ⟨h5, h6⟩ | ⟨h5, h6, h7, -⟩
  · exact Or.inl ⟨hb2.trans h5, hb1.trans (h6.trans ht)⟩
  · refine Or.inr ⟨hb2.trans h5, hb3.trans (htg.trans ht), hlt.trans (h6.trans ht), ?_, ?_, ?_⟩
    · rw [hb4, hdur]; exact hle
    · rw [hb4, hdur, hel]; exact h7
    · rw [hb4, hdur, hel]
      simp only [STEP_MS]
      omega

open LampController in
/-- Every later iteration brings a running brightness fade one step closer. -/
theorem brightness_next (fx : EffectFrame) (now tgt k : Nat) (c c1 : Sys)
    (hd : ColorFadeOk c.lamp) (h : taskLoop fx now c = some c1)
    (hs : BrightnessSettling tgt (k + 1) c) : BrightnessSettling tgt k c1 := by
  obtain ⟨c2, k2, h2, -, hbv, hel, hlt, -⟩ := taskLoop_step fx now c hd
  rw [h] at h2
  cases h2
  obtain ⟨htg, hdur⟩ := target_of_eraseBrightness (tickBrightness_frame c.lamp c.loc)
  simp only [brightnessView, Prod.mk.injEq] at hbv
  obtain ⟨hb1, hb2, hb3, hb4⟩ := hbv
  rcases hs with ⟨hs1, hs2⟩ | ⟨ha, ht, hl, hle, hlo, hhi⟩
  · rw [tickBrightness_idle c.lamp c.loc hs1] at hb1 hb2
    exact Or.inl ⟨hb2.trans hs1, hb1.trans hs2⟩
  · rcases tickBrightness_active c.lamp c.loc ha with ⟨h5, h6⟩ | ⟨h5, h6, h7, h8⟩
    · exact Or.inl ⟨hb2.trans h5, hb1.trans (h6.trans ht)⟩
    · rw [if_pos (ht.trans hl.symm)] at h8
      simp only [STEP_MS] at h8 hhi
      refine Or.inr ⟨hb2.trans h5, hb3.trans (htg.trans ht), hlt.trans (h6.trans ht), ?_, ?_, ?_⟩
      · rw [hb4, hdur]; exact hle
      · rw [hb4, hdur, hel]; exact h7
      · rw [hb4, hdur, hel, h8]
        simp only [STEP_MS]
        omega

open LampController in
theorem colorChanged_after_brightness (s : LampController) (l : TaskLocals) :
    colorChanged (tickBrightness s l).1 (tickBrightness s l).2 = colorChanged s l := by
  have hcv := colorView_of_eraseBrightness (tickBrightness_frame s l)
  simp only [colorView, Prod.mk.injEq] at hcv
  obtain ⟨-, -, hu, -, -, hc, hr, -⟩ := hcv
  obtain ⟨-, h2, h3, h4⟩ := tickBrightness_locals s l
  unfold colorChanged
  rw [hu, hc, hr, h2, h3, h4]

open LampController in
/-- The first iteration after a colour fade ending in CCT mode is armed. -/
theorem cct_first (fx : EffectFrame) (now tgt : Nat) (c : Sys)
    (ha : c.lamp.m_colorFadeActive = true) (ht : c.lamp.m_targetCCT = tgt)
    (hm : c.lamp.m_fadingToCCT = true ∨ c.lamp.m_useCCT = true)
    (hpos : c.lamp.m_colorFadeDurationMs ≠ 0) (hle : c.lamp.m_colorFadeDurationMs ≤ 65535) :
    ∃ c1, taskLoop fx now c = some c1
      ∧ CctSettling tgt (c.lamp.m_colorFadeDurationMs / STEP_MS + 1) c1 := by
  obtain ⟨c1, k, h1, hk, -, -, -, hcv, hloc, -⟩ := taskLoop_step fx now c (fun _ => hpos)
  refine ⟨c1, h1, ?_⟩
  have hbc := colorView_of_eraseBrightness (tickBrightness_frame c.lamp c.loc)
  simp only [colorView, Prod.mk.injEq] at hbc hcv
  obtain ⟨b1, b2, b3, b4, -, b6, -, -⟩ := hbc
  obtain ⟨v1, v2, v3, v4, v5, v6, v7, -⟩ := hcv
  obtain ⟨r, hr, hfr, -, -, -, hout⟩ := tickColor_active (tickBrightness c.lamp c.loc).1
    (tickBrightness c.lamp c.loc).2 (b1.trans ha) (by rw [b2]; exact hpos)
  rw [hk] at hr
  cases hr
  obtain ⟨hdur, htc, -⟩ := target_of_eraseColor hfr
  rw [b4, b3, b6, b2] at hout
  rcases hout with ⟨h5, h6, -⟩ | ⟨h5, h6, h7, h8, h9, -⟩
  · obtain ⟨h10, h11⟩ := h6 hm
    exact Or.inl ⟨v1.trans h5, v3.trans h10, v5.trans (h11.trans ht)⟩
  · refine Or.inr ⟨v1.trans h5, v6.trans (htc.trans (b6.trans ht)), ?_, ?_, ?_, ?_, ?_⟩
    · rw [v4, v3, h7, h6]; exact hm
    · rw [hloc, ← h8]
      exact colorChanged_congr _ v3 v6 v7
    · rw [v2, hdur, b2]; exact hle
    · rw [v2, hdur, b2, hloc]; exact h9
    · rw [v2, hdur, b2, hloc]
      simp only [STEP_MS]
      omega

open LampController in
/-- Every later iteration brings a running colour fade one step closer. -/
theorem cct_next (fx : EffectFrame) (now tgt k : Nat) (c : Sys)
    (hs : CctSettling tgt (k + 1) c) :
    ∃ c1, taskLoop fx now c = some c1 ∧ CctSettling tgt k c1 := by
  obtain ⟨c1, r, h1, hk, -, -, -, hcv, hloc, -⟩ := taskLoop_step fx now c (cctSettling_ok hs)
  refine ⟨c1, h1, ?_⟩
  have hbc := colorView_of_eraseBrightness (tickBrightness_frame c.lamp c.loc)
  have hch := colorChanged_after_brightness c.lamp c.loc
  obtain ⟨hl1, -, -, -⟩ := tickBrightness_locals c.lamp c.loc
  simp only [colorView, Prod.mk.injEq] at hbc hcv
  obtain ⟨b1, b2, b3, b4, b5, b6, -, -⟩ := hbc
  obtain ⟨v1, v2, v3, v4, v5, v6, v7, -⟩ := hcv
  rcases hs with ⟨hs1, hs2, hs3⟩ | ⟨ha, ht, hm, hseen, hle, hlo, hhi⟩
  · obtain ⟨l1, hr, -⟩ := tickColor_idle (tickBrightness c.lamp c.loc).1
      (tickBrightness c.lamp c.loc).2 (b1.trans hs1)
    rw [hk] at hr
    cases hr
    exact Or.inl ⟨v1.trans (b1.trans hs1), v3.trans (b3.trans hs2), v5.trans (b5.trans hs3)⟩
  · have hpos : c.lamp.m_colorFadeDurationMs ≠ 0 := by omega
    obtain ⟨r1, hr, hfr, -, -, -, hout⟩ := tickColor_active (tickBrightness c.lamp c.loc).1
      (tickBrightness c.lamp c.loc).2 (b1.trans ha) (by rw [b2]; exact hpos)
    rw [hk] at hr
    cases hr
    obtain ⟨hdur, htc, -⟩ := target_of_eraseColor hfr
    rw [b4, b3, b6, b2, hch, hseen, hl1] at hout
    rcases hout with ⟨h5, h6, -⟩ | ⟨h5, h6, h7, h8, h9, h10⟩
    · obtain ⟨h11, h12⟩ := h6 hm
      exact Or.inl ⟨v1.trans h5, v3.trans h11, v5.trans (h12.trans ht)⟩
    · simp only [STEP_MS, Bool.false_eq_true, if_false] at h10 hhi
      refine Or.inr ⟨v1.trans h5, v6.trans (htc.trans (b6.trans ht)), ?_, ?_, ?_, ?_, ?_⟩
      · rw [v4, v3, h7, h6]; exact hm
      · rw [hloc, ← h8]
        exact colorChanged_congr _ v3 v6 v7
      · rw [v2, hdur, b2]; exact hle
      · rw [v2, hdur, b2, hloc]; exact h9
      · rw [v2, hdur, b2, hloc, h10]
        simp only [STEP_MS]
        omega

/-! ## Runs of the task -/

/-- A run is defined as long as active colour fades have non-zero durations,
and it leaves the fields no section writes alone. -/
theorem runTicks_static (fx : EffectFrame) (times : List Nat) :
    ∀ c : Sys, ColorFadeOk c.lamp →
      ∃ c1, runTicks fx times c = some c1
        ∧ LampController.staticView c1.lamp = LampController.staticView c.lamp
        ∧ ColorFadeOk c1.lamp := by
  induction times with
  | nil => intro c hd; exact ⟨c, rfl, rfl, hd⟩
  | cons now rest ih =>
    intro c hd
    obtain ⟨c1, -, h1, -, -, -, -, -, -, hst, -, -, -, hok⟩ := taskLoop_step fx now c hd
    obtain ⟨c2, h2, hst2, hok2⟩ := ih c1 hok
    refine ⟨c2, ?_, hst2.trans hst, hok2⟩
    simp only [runTicks, h1, h2]

/-- A colour fade ending in CCT mode with at most `k` steps to go has landed
after any run of at least `k` iterations. -/
theorem runTicks_cct (fx : EffectFrame) (tgt : Nat) (times : List Nat) :
    ∀ (k : Nat) (c : Sys), CctSettling tgt k c → k ≤ times.length →
      ∃ c1, runTicks fx times c = some c1 ∧ c1.lamp.m_colorFadeActive = false
        ∧ c1.lamp.m_useCCT = true ∧ c1.lamp.m_cct = tgt := by
  induction times with
  | nil =>
    intro k c hs hk
    have hk0 : k = 0 := by simpa using hk
    subst hk0
    exact ⟨c, rfl, cctSettling_done hs⟩
  | cons now rest ih =>
    intro k c hs hk
    obtain ⟨c1, h1, hs1⟩ := cct_next fx now tgt (k - 1) c (cctSettling_mono hs (by omega))
    obtain ⟨c2, h2, hres⟩ := ih (k - 1) c1 hs1 (by simp only [List.length_cons] at hk; omega)
    refine ⟨c2, ?_, hres⟩
    simp only [runTicks, h1, h2]

/-- A brightness fade with at most `k` steps to go has landed after any run of
at least `k` iterations. -/
theorem runTicks_brightness (fx : EffectFrame) (tgt : Nat) (times : List Nat) :
    ∀ (k : Nat) (c c1 : Sys), ColorFadeOk c.lamp → BrightnessSettling tgt k c →
      k ≤ times.length → runTicks fx times c = some c1 →
        c1.lamp.m_fadeActive = false ∧ c1.lamp.m_brightness = tgt := by
  induction times with
  | nil =>
    intro k c c1 _ hs hk h
    have hk0 : k = 0 := by simpa using hk
    subst hk0
    simp only [runTicks] at h
    cases h
    exact brightnessSettling_done hs
  | cons now rest ih =>
    intro k c c1 hd hs hk h
    obtain ⟨c2, -, h2, -, -, -, -, -, -, -, -, -, -, hok⟩ := taskLoop_step fx now c hd
    simp only [runTicks, h2] at h
    exact ih (k - 1) c2 c1 hok
      (brightness_next fx now tgt (k - 1) c c2 hd h2
        (brightnessSettling_mono hs (by omega)))
      (by simp only [List.length_cons] at hk; omega) h

namespace LampController

/-! ## What the setters write -/

/-- `fadeToBrightness` arms a fade and touches nothing but the fade session. -/
theorem fadeToBrightness_fields (s : LampController) (tgt d : Nat) :
    (fadeToBrightness s tgt d).m_fadeActive = true
      ∧ (fadeToBrightness s tgt d).m_targetBrightness = (if tgt > 100 then 100 else tgt)
      ∧ (d = 0 → (fadeToBrightness s tgt d).m_fadeDurationMs = 0)
      ∧ (fadeToBrightness s tgt d).m_brightness = s.m_brightness
      ∧ colorView (fadeToBrightness s tgt d) = colorView s
      ∧ staticView (fadeToBrightness s tgt d) = staticView s
      ∧ persistView (fadeToBrightness s tgt d) = persistView s := by
  refine ⟨rfl, rfl, ?_, rfl, rfl, rfl, rfl⟩
  intro h
  subst h
  simp only [fadeToBrightness, if_true]
  decide

/-- `setPower` sets the power flag, arms a brightness fade, marks the power
field dirty and stamps the change; brightness, saved brightness, colour, effect
and scene are as before. -/
theorem setPower_fields (s : LampController) (now : Nat) (onFlag : Bool)
    (fade_ms excludeMask : Nat) :
    (s.setPower now onFlag fade_ms excludeMask).m_on = onFlag
      ∧ (s.setPower now onFlag fade_ms excludeMask).m_fadeActive = true
      ∧ (onFlag = false → (s.setPower now onFlag fade_ms excludeMask).m_targetBrightness = 0)
      ∧ (fade_ms = 0 → (s.setPower now onFlag fade_ms excludeMask).m_fadeDurationMs = 0)
      ∧ (s.setPower now onFlag fade_ms excludeMask).m_brightness = s.m_brightness
      ∧ (s.setPower now onFlag fade_ms excludeMask).m_savedOnBrightness = s.m_savedOnBrightness
      ∧ (s.setPower now onFlag fade_ms excludeMask).m_effect = s.m_effect
      ∧ (s.setPower now onFlag fade_ms excludeMask).m_scene = s.m_scene
      ∧ colorView (s.setPower now onFlag fade_ms excludeMask) = colorView s
      ∧ (s.setPower now onFlag fade_ms excludeMask).m_dirty_on = true
      ∧ (s.setPower now onFlag fade_ms excludeMask).m_lastChangeMs = now := by
  cases onFlag
  · have hz : fade_ms = 0 →
        (s.setPower now false fade_ms excludeMask).m_fadeDurationMs = 0 := by
      intro h
      subst h
      unfold setPower
      simp only [Bool.false_eq_true, if_false, ite_self]
      exact (fadeToBrightness_fields _ 0 0).2.2.1 rfl
    refine ⟨?_, ?_, ?_, hz, ?_, ?_, ?_, ?_, ?_, ?_, ?_⟩
    all_goals first
      | (unfold setPower; simp only [Bool.false_eq_true, if_false]; split <;> rfl)
      | (intro _; unfold setPower; simp only [Bool.false_eq_true, if_false]; split <;> rfl)
  · refine ⟨rfl, rfl, fun h => Bool.noConfusion h, ?_, rfl, rfl, rfl, rfl, rfl, rfl, rfl⟩
    intro h
    subst h
    unfold setPower
    simp only [if_true]
    exact (fadeToBrightness_fields _ _ 0).2.2.1 rfl

/-- `setBrightness` on a lamp that is on, with a percent in `1..100` and no
fade: the brightness is the mapped value, the fade is stopped, the saved
brightness is the percent with its dirty flag set; power, colour, effect,
scene and the change timestamp are as before. -/
theorem setBrightness_snap_fields (s : LampController) (b excludeMask : Nat)
    (hlo : 1 ≤ b) (hhi : b ≤ 100) (hon : s.m_on = true) :
    (s.setBrightness b 0 excludeMask).m_brightness
        = u8 (map b 1 100 kMinVisibleBrightness 100)
      ∧ (s.setBrightness b 0 excludeMask).m_fadeActive = false
      ∧ (s.setBrightness b 0 excludeMask).m_savedOnBrightness = b
      ∧ (s.setBrightness b 0 excludeMask).m_dirty_br = true
      ∧ (s.setBrightness b 0 excludeMask).m_lastChangeMs = s.m_lastChangeMs
      ∧ (s.setBrightness b 0 excludeMask).m_on = true
      ∧ (s.setBrightness b 0 excludeMask).m_effect = s.m_effect
      ∧ (s.setBrightness b 0 excludeMask).m_scene = s.m_scene
      ∧ colorView (s.setBrightness b 0 excludeMask) = colorView s := by
  have h0 : b ≠ 0 := by omega
  have h1 : ¬ b > 100 := by omega
  have h2 : 0 < b := by omega
  simp [setBrightness, hon, h0, h1, h2, send_ui_event, cancelFade, colorView]

/-- `setBrightness` on a lamp that is on, with a percent in `1..100` and a
fade time: a fade toward the mapped value is armed, the saved brightness is
the percent with its dirty flag set; the rest is as before. -/
theorem setBrightness_fade_fields (s : LampController) (b fade_ms excludeMask : Nat)
    (hlo : 1 ≤ b) (hhi : b ≤ 100) (hf : 0 < fade_ms) (hon : s.m_on = true) :
    (s.setBrightness b fade_ms excludeMask).m_fadeActive = true
      ∧ (s.setBrightness b fade_ms excludeMask).m_targetBrightness
          = (if u8 (map b 1 100 kMinVisibleBrightness 100) > 100 then 100
              else u8 (map b 1 100 kMinVisibleBrightness 100))
      ∧ (s.setBrightness b fade_ms excludeMask).m_fadeDurationMs
          = (fadeToBrightness s (u8 (map b 1 100 kMinVisibleBrightness 100))
              fade_ms).m_fadeDurationMs
      ∧ (s.setBrightness b fade_ms excludeMask).m_brightness = s.m_brightness
      ∧ (s.setBrightness b fade_ms excludeMask).m_savedOnBrightness = b
      ∧ (s.setBrightness b fade_ms excludeMask).m_dirty_br = true
      ∧ (s.setBrightness b fade_ms excludeMask).m_on = true
      ∧ (s.setBrightness b fade_ms excludeMask).m_effect = s.m_effect
      ∧ (s.setBrightness b fade_ms excludeMask).m_scene = s.m_scene
      ∧ colorView (s.setBrightness b fade_ms excludeMask) = colorView s := by
  have h0 : b ≠ 0 := by omega
  have h1 : ¬ b > 100 := by omega
  have h2 : 0 < b := by omega
  simp [setBrightness, hon, h0, h1, h2, hf, send_ui_event, colorView, fadeToBrightness]

end LampController

namespace LampController

theorem u8_le (x : Int) : u8 x ≤ 255 := by
  unfold u8; omega

theorem u16_le (x : Int) : u16 x ≤ 65535 := by
  unfold u16; omega

theorem u16_natCast_le (n : Nat) : u16 (n : Int) ≤ n := by
  unfold u16; omega

/-- The duration formula of `fadeToBrightness` stays below `d * 255 / 100`
(or the 50 ms floor). -/
theorem fadeDuration_le (d diff : Nat) (hdiff : diff ≤ 255) :
    u16 ((if d = 0 then 0
        else if (d * diff) % 4294967296 / 100 < 50 ∧ diff > 0 ∧ d > 0 then 50
        else (d * diff) % 4294967296 / 100 : Nat) : Int) ≤ max 50 (d * 255 / 100) := by
  refine le_trans (u16_natCast_le _) ?_
  have h1 : d * diff ≤ d * 255 := Nat.mul_le_mul_left _ hdiff
  have h2 : (d * diff) % 4294967296 / 100 ≤ d * 255 / 100 :=
    Nat.div_le_div_right (le_trans (Nat.mod_le _ _) h1)
  split
  · omega
  · split
    · exact le_max_left _ _
    · exact le_trans h2 (le_max_right _ _)

/-- The stored fade duration is a `uint16_t`, and at most `d * 255 / 100`
(or the 50 ms floor) for a nominal duration `d`. -/
theorem fadeToBrightness_duration_le (s : LampController) (tgt d : Nat) :
    (fadeToBrightness s tgt d).m_fadeDurationMs ≤ 65535
      ∧ (fadeToBrightness s tgt d).m_fadeDurationMs ≤ max 50 (d * 255 / 100) := by
  unfold fadeToBrightness
  simp only []
  refine ⟨u16_le _, ?_⟩
  have hdiff : (if (if tgt > 100 then 100 else tgt) > s.m_brightness
      then u8 (((if tgt > 100 then 100 else tgt : Nat) : Int) - s.m_brightness)
      else u8 ((s.m_brightness : Int) - ((if tgt > 100 then 100 else tgt : Nat) : Int))) ≤ 255 := by
    generalize (if tgt > 100 then 100 else tgt) = t
    split <;> exact u8_le _
  have h := fadeDuration_le d _ hdiff
  refine le_trans (le_of_eq ?_) h
  by_cases hd0 : d = 0
  · simp only [hd0, if_true]
  · simp only [hd0, if_false]

/-- `setCCT`: with a fade time a colour fade toward the clamped value is
armed, ending in CCT mode (directly, or by crossing back from RGB); without
one the mode and value are set at once.  Brightness, power, effect and scene
are as before; the CCT and mode fields are marked dirty and the change stamped. -/
theorem setCCT_fields (s : LampController) (now cct fade_ms excludeMask : Nat) :
    (0 < fade_ms →
        (s.setCCT now cct fade_ms excludeMask).m_colorFadeActive = true
        ∧ (s.setCCT now cct fade_ms excludeMask).m_colorFadeDurationMs = fade_ms
        ∧ (s.setCCT now cct fade_ms excludeMask).m_targetCCT
            = min (max cct LAMP_CCT_MIN) LAMP_CCT_MAX
        ∧ (s.setCCT now cct fade_ms excludeMask).m_useCCT = s.m_useCCT
        ∧ ((s.setCCT now cct fade_ms excludeMask).m_fadingToCCT = true
            ∨ (s.setCCT now cct fade_ms excludeMask).m_useCCT = true))
      ∧ (fade_ms = 0 →
        (s.setCCT now cct fade_ms excludeMask).m_colorFadeActive = false
        ∧ (s.setCCT now cct fade_ms excludeMask).m_useCCT = true
        ∧ (s.setCCT now cct fade_ms excludeMask).m_cct
            = min (max cct LAMP_CCT_MIN) LAMP_CCT_MAX)
      ∧ brightnessView (s.setCCT now cct fade_ms excludeMask) = brightnessView s
      ∧ (s.setCCT now cct fade_ms excludeMask).m_on = s.m_on
      ∧ (s.setCCT now cct fade_ms excludeMask).m_savedOnBrightness = s.m_savedOnBrightness
      ∧ (s.setCCT now cct fade_ms excludeMask).m_effect = s.m_effect
      ∧ (s.setCCT now cct fade_ms excludeMask).m_scene = s.m_scene
      ∧ (s.setCCT now cct fade_ms excludeMask).m_dirty_cct = true
      ∧ (s.setCCT now cct fade_ms excludeMask).m_dirty_mode = true
      ∧ (s.setCCT now cct fade_ms excludeMask).m_lastChangeMs = now := by
  have hclamp : (if (if cct < LAMP_CCT_MIN then LAMP_CCT_MIN else cct) > LAMP_CCT_MAX
      then LAMP_CCT_MAX else (if cct < LAMP_CCT_MIN then LAMP_CCT_MIN else cct))
      = min (max cct LAMP_CCT_MIN) LAMP_CCT_MAX := by
    simp only [LAMP_CCT_MIN, LAMP_CCT_MAX]
    split <;> split <;> omega
  unfold setCCT
  simp only [hclamp]
  by_cases hf : 0 < fade_ms
  · have hz : fade_ms ≠ 0 := by omega
    by_cases hu : s.m_useCCT = true
    · simp [hf, hu, hz, markChanged, send_ui_event, brightnessView]
    · simp [hf, hu, hz, markChanged, send_ui_event, brightnessView]
  · have hz : fade_ms = 0 := by omega
    subst hz
    simp [markChanged, send_ui_event, brightnessView]

/-- `setEffect(None)` clears the effect and redraws; nothing else changes. -/
theorem setEffect_none_fields (s : LampController) :
    (s.setEffect EffectMode.None).m_effect = EffectMode.None
      ∧ (s.setEffect EffectMode.None).m_effectTick = 0
      ∧ (s.setEffect EffectMode.None).m_scene = s.m_scene
      ∧ (s.setEffect EffectMode.None).m_on = s.m_on
      ∧ (s.setEffect EffectMode.None).m_savedOnBrightness = s.m_savedOnBrightness
      ∧ brightnessView (s.setEffect EffectMode.None) = brightnessView s
      ∧ colorView (s.setEffect EffectMode.None) = colorView s
      ∧ persistView (s.setEffect EffectMode.None) = persistView s := by
  simp [setEffect, brightnessView, colorView, persistView]

end LampController

/-! # Properties of the specification -/

namespace LampController

/-- C1: while the lamp is on, `setBrightness(b, 0)` with `1 <= b <= 100`
leaves `getBrightness()` at `map(b, 1, 100, kMinVisibleBrightness, 100)`,
where `kMinVisibleBrightness = 12` (so 12 for `b = 1`, 100 for `b = 100`),
and leaves no brightness fade active. -/
theorem setBrightness_snap_maps (s : LampController) (b excludeMask : Nat)
    (hlo : 1 ≤ b) (hhi : b ≤ 100) (hon : s.isOn = true) :
    (s.setBrightness b 0 excludeMask).getBrightness
        = u8 (map b 1 100 kMinVisibleBrightness 100)
      ∧ kMinVisibleBrightness = 12
      ∧ u8 (map 1 1 100 kMinVisibleBrightness 100) = 12
      ∧ u8 (map 100 1 100 kMinVisibleBrightness 100) = 100
      ∧ (s.setBrightness b 0 excludeMask).isFading = false := by
  have h0 : b ≠ 0 := by omega
  have h1 : ¬ b > 100 := by omega
  have h2 : 0 < b := by omega
  simp only [isOn] at hon
  refine ⟨?_, by decide, by decide, by decide, ?_⟩
  · simp [setBrightness, hon, h0, h1, h2, getBrightness, send_ui_event, cancelFade,
      update_m_brightness]
  · simp [setBrightness, hon, h0, h1, h2, isFading, send_ui_event, cancelFade,
      update_m_fadeActive]

/-- Witness of C1: a lamp that is on, set to 1 percent. -/
theorem setBrightness_snap_maps_witness :
    (1 ≤ 1 ∧ 1 ≤ 100 ∧ ({ m_on := true } : LampController).isOn = true)
      ∧ (({ m_on := true } : LampController).setBrightness 1 0 0).getBrightness
          = u8 (map (1 : Nat) 1 100 kMinVisibleBrightness 100)
      ∧ kMinVisibleBrightness = 12
      ∧ u8 (map 1 1 100 kMinVisibleBrightness 100) = 12
      ∧ u8 (map 100 1 100 kMinVisibleBrightness 100) = 100
      ∧ (({ m_on := true } : LampController).setBrightness 1 0 0).isFading = false :=
  ⟨by decide, setBrightness_snap_maps { m_on := true } 1 0 (by decide) (by decide) (by decide)⟩

/-- C4: `isCCTMode()` is false as soon as `setColor(r, g, b, fade_ms)`
returns, for every state, colour and fade time. -/
theorem setColor_leaves_rgb_mode (s : LampController) (now r g b fade_ms excludeMask : Nat) :
    (s.setColor now r g b fade_ms excludeMask).isCCTMode = false := by
  unfold setColor isCCTMode
  by_cases h1 : (¬ s.m_useCCT = true) ∧ fade_ms > 0
  · simp only [if_pos h1, markChanged, send_ui_event]
    simpa using h1.1
  · by_cases h2 : s.m_useCCT = true ∧ fade_ms > 0
    · simp only [if_neg h1, if_pos h2, markChanged, send_ui_event]
    · simp only [if_neg h1, if_neg h2, markChanged, send_ui_event]
      rw [update_m_useCCT]

/-- C5, as stated, fails: switched off with saved brightness 50,
`setBrightness(80, 0)` leaves the saved brightness at 50 and its dirty flag clear. -/
theorem setBrightness_off_keeps_saved :
    ¬ ((({ m_on := false, m_savedOnBrightness := 50 } : LampController).setBrightness 80 0
          0).m_savedOnBrightness = 80
        ∧ (({ m_on := false, m_savedOnBrightness := 50 } : LampController).setBrightness 80 0
          0).m_dirty_br = true) := by
  decide

/-- C5 amended: while the lamp is logically off, `setBrightness(p, fade_ms)`
changes nothing at all, the saved brightness and its dirty flag included. -/
theorem setBrightness_off_noop (s : LampController) (p fade_ms excludeMask : Nat)
    (hoff : s.isOn = false) : s.setBrightness p fade_ms excludeMask = s := by
  simp only [isOn] at hoff
  simp [setBrightness, hoff]

/-- Witness of C5 amended. -/
theorem setBrightness_off_noop_witness :
    ({ m_on := false } : LampController).isOn = false
      ∧ ({ m_on := false } : LampController).setBrightness 80 500 0 = { m_on := false } :=
  ⟨by decide, setBrightness_off_noop { m_on := false } 80 500 0 (by decide)⟩

end LampController

open LampController in
/-- An armed brightness fade of duration zero lands on its target in one
iteration of the task. -/
theorem brightness_zero_duration (fx : EffectFrame) (now : Nat) (c c1 : Sys)
    (hd : ColorFadeOk c.lamp) (h : taskLoop fx now c = some c1)
    (ha : c.lamp.m_fadeActive = true) (hz : c.lamp.m_fadeDurationMs = 0) :
    c1.lamp.m_fadeActive = false ∧ c1.lamp.m_brightness = c.lamp.m_targetBrightness := by
  obtain ⟨c2, k, h2, -, hbv, -⟩ := taskLoop_step fx now c hd
  rw [h] at h2
  cases h2
  simp only [brightnessView, Prod.mk.injEq] at hbv
  obtain ⟨hb1, hb2, -, -⟩ := hbv
  rcases tickBrightness_active c.lamp c.loc ha with ⟨h5, h6⟩ | ⟨-, -, h7, -⟩
  · exact ⟨hb2.trans h5, hb1.trans h6⟩
  · omega

namespace LampController

/-- C2, as stated, fails: right after `setPower(true, 0)`, `setBrightness(1, 0)`,
`setPower(false, 0)` on a default controller `getBrightness()` is still 12. -/
theorem power_cycle_brightness_not_yet_zero :
    ¬ ((((({} : LampController).setPower 0 true 0 0).setBrightness 1 0 0).setPower 0 false 0
          0).isOn = false
        ∧ (((({} : LampController).setPower 0 true 0 0).setBrightness 1 0 0).setPower 0 false 0
          0).getBrightness = 0
        ∧ (((({} : LampController).setPower 0 true 0 0).setBrightness 1 0 0).setPower 0 false 0
          0).getSavedBrightness = 1) := by
  decide

/-- C2 amended: once `setPower(true, 0)`, `setBrightness(1, 0)`,
`setPower(false, 0)` have returned, `isOn()` is false, `getSavedBrightness()`
is 1 and a zero-duration fade to 0 is armed while `getBrightness()` still
reads 12; after the next iteration of the periodic task `getBrightness()` is 0
with the fade stopped, `isOn()` still false and the saved brightness still 1. -/
theorem power_cycle_lands_after_tick (s : LampController) (t1 t3 m1 m2 m3 : Nat)
    (fx : EffectFrame) (now : Nat) (l : TaskLocals) (p : Preferences) (hd : ColorFadeOk s) :
    (((s.setPower t1 true 0 m1).setBrightness 1 0 m2).setPower t3 false 0 m3).isOn = false
      ∧ (((s.setPower t1 true 0 m1).setBrightness 1 0 m2).setPower t3 false 0
          m3).getSavedBrightness = 1
      ∧ (((s.setPower t1 true 0 m1).setBrightness 1 0 m2).setPower t3 false 0
          m3).getBrightness = 12
      ∧ (((s.setPower t1 true 0 m1).setBrightness 1 0 m2).setPower t3 false 0 m3).isFading = true
      ∧ ∃ c1, taskLoop fx now
            ⟨((s.setPower t1 true 0 m1).setBrightness 1 0 m2).setPower t3 false 0 m3, l, p⟩
            = some c1
          ∧ c1.lamp.isOn = false ∧ c1.lamp.getBrightness = 0
          ∧ c1.lamp.getSavedBrightness = 1 ∧ c1.lamp.isFading = false := by
  obtain ⟨a1, -, -, -, -, -, -, -, a9, -, -⟩ := setPower_fields s t1 true 0 m1
  obtain ⟨b1, -, b3, -, -, -, -, -, b9⟩ :=
    setBrightness_snap_fields (s.setPower t1 true 0 m1) 1 m2 (le_refl 1) (by decide) a1
  obtain ⟨c1, c2, c3, c4, c5, c6, -, -, c9, -, -⟩ :=
    setPower_fields ((s.setPower t1 true 0 m1).setBrightness 1 0 m2) t3 false 0 m3
  generalize ((s.setPower t1 true 0 m1).setBrightness 1 0 m2).setPower t3 false 0 m3 = s3
    at c1 c2 c3 c4 c5 c6 c9 ⊢
  have hbr : s3.m_brightness = 12 := by rw [c5, b1]; decide
  have hsv : s3.m_savedOnBrightness = 1 := c6.trans b3
  have hok : ColorFadeOk s3 := by
    have hcv := c9.trans (b9.trans a9)
    simp only [colorView, Prod.mk.injEq] at hcv
    intro h
    rw [hcv.2.1]
    exact hd (hcv.1 ▸ h)
  refine ⟨c1, by simp [getSavedBrightness, hsv], hbr, c2, ?_⟩
  obtain ⟨k1, -, h1, -, -, -, -, -, -, hst, -⟩ := taskLoop_step fx now ⟨s3, l, p⟩ hok
  obtain ⟨h2, h3⟩ := brightness_zero_duration fx now ⟨s3, l, p⟩ k1 hok h1 c2 (c4 rfl)
  simp only [staticView, Prod.mk.injEq] at hst
  refine ⟨k1, h1, hst.1.trans c1, h3.trans (c3 rfl), ?_, h2⟩
  simp [getSavedBrightness, hst.2.1, hsv]

/-- Witness of C2 amended: the default controller, ticked once at 10 ms. -/
theorem power_cycle_lands_after_tick_witness :
    ColorFadeOk ({} : LampController)
      ∧ (((({} : LampController).setPower 0 true 0 0).setBrightness 1 0 0).setPower 0 false 0
          0).getBrightness = 12
      ∧ ∃ c1, taskLoop (fun _ _ => []) 10
            ⟨((({} : LampController).setPower 0 true 0 0).setBrightness 1 0 0).setPower 0 false
              0 0, TaskLocals.entry {}, Preferences.empty⟩ = some c1
          ∧ c1.lamp.isOn = false ∧ c1.lamp.getBrightness = 0
          ∧ c1.lamp.getSavedBrightness = 1 ∧ c1.lamp.isFading = false :=
  ⟨fun h => Bool.noConfusion h,
    (power_cycle_lands_after_tick {} 0 0 0 0 0 (fun _ _ => []) 10 (TaskLocals.entry {})
      Preferences.empty (fun h => Bool.noConfusion h)).2.2.1,
    (power_cycle_lands_after_tick {} 0 0 0 0 0 (fun _ _ => []) 10 (TaskLocals.entry {})
      Preferences.empty (fun h => Bool.noConfusion h)).2.2.2.2⟩

end LampController

namespace LampController

/-- C3, as stated, fails: in RGB mode `setCCT(4000, 500)` returns with
`isCCTMode()` still false. -/
theorem setCCT_fading_from_rgb_stays_rgb :
    ¬ ((({ m_useCCT := false } : LampController).setCCT 0 4000 500 0).isCCTMode = true) := by
  decide

/-- C3 amended: `isCCTMode()` is true as soon as `setCCT(cct, fade_ms)`
returns when the controller was in CCT mode or `fade_ms` is 0; called in RGB
mode with `fade_ms > 0` it returns with `isCCTMode()` still false, and
`isCCTMode()` is true, with the CCT at the clamped value, once the periodic
task has run the colour fade to its end (`fade_ms / STEP_MS + 2` iterations
are enough). -/
theorem setCCT_mode (s : LampController) (now cct fade_ms excludeMask : Nat)
    (hf : fade_ms ≤ 65535) :
    (s.isCCTMode = true ∨ fade_ms = 0 →
        (s.setCCT now cct fade_ms excludeMask).isCCTMode = true)
      ∧ (s.isCCTMode = false → 0 < fade_ms →
        (s.setCCT now cct fade_ms excludeMask).isCCTMode = false
        ∧ ∀ (fx : EffectFrame) (times : List Nat) (l : TaskLocals) (p : Preferences),
            fade_ms / STEP_MS + 2 ≤ times.length →
            ∃ c1, runTicks fx times ⟨s.setCCT now cct fade_ms excludeMask, l, p⟩ = some c1
              ∧ c1.lamp.isCCTMode = true
              ∧ c1.lamp.getCCT = min (max cct LAMP_CCT_MIN) LAMP_CCT_MAX) := by
  obtain ⟨h1, h2, -⟩ := setCCT_fields s now cct fade_ms excludeMask
  simp only [isCCTMode]
  refine ⟨?_, ?_⟩
  · rintro (hu | hz)
    · by_cases hp : 0 < fade_ms
      · exact (h1 hp).2.2.2.1.trans hu
      · exact (h2 (by omega)).2.1
    · exact (h2 hz).2.1
  · intro hu hp
    obtain ⟨a1, a2, a3, a4, a5⟩ := h1 hp
    refine ⟨a4.trans hu, ?_⟩
    intro fx times l p hlen
    cases times with
    | nil => simp at hlen
    | cons t rest =>
      obtain ⟨c0, hc0, hs0⟩ := cct_first fx t (min (max cct LAMP_CCT_MIN) LAMP_CCT_MAX)
        ⟨s.setCCT now cct fade_ms excludeMask, l, p⟩ a1 a3 a5 (by rw [a2]; omega)
        (by rw [a2]; exact hf)
      have hs1 : CctSettling (min (max cct LAMP_CCT_MIN) LAMP_CCT_MAX)
          (fade_ms / STEP_MS + 1) c0 := by
        have h := hs0
        simp only [a2] at h
        exact h
      obtain ⟨c1, hc1, h5, h6, h7⟩ := runTicks_cct fx _ rest _ c0 hs1
        (by simp only [List.length_cons] at hlen; omega)
      refine ⟨c1, ?_, h6, ?_⟩
      · simp only [runTicks, hc0, hc1]
      · simp [getCCT, h5, h7]

/-- Witness of C3 amended: RGB mode, a 20 ms fade to 4000 K, four iterations. -/
theorem setCCT_mode_witness :
    (20 ≤ 65535 ∧ ({ m_useCCT := false } : LampController).isCCTMode = false ∧ 0 < 20
        ∧ 20 / STEP_MS + 2 ≤ [10, 20, 30, 40].length)
      ∧ (({ m_useCCT := false } : LampController).setCCT 0 4000 20 0).isCCTMode = false
      ∧ ∃ c1, runTicks (fun _ _ => []) [10, 20, 30, 40]
            ⟨({ m_useCCT := false } : LampController).setCCT 0 4000 20 0,
              TaskLocals.entry {}, Preferences.empty⟩ = some c1
          ∧ c1.lamp.isCCTMode = true
          ∧ c1.lamp.getCCT = min (max 4000 LAMP_CCT_MIN) LAMP_CCT_MAX :=
  ⟨by decide,
    ((setCCT_mode { m_useCCT := false } 0 4000 20 0 (by decide)).2 (by decide) (by decide)).1,
    ((setCCT_mode { m_useCCT := false } 0 4000 20 0 (by decide)).2 (by decide) (by decide)).2
      (fun _ _ => []) [10, 20, 30, 40] (TaskLocals.entry {}) Preferences.empty (by decide)⟩

/-- C6, as stated, fails: with scene "Reading" and the rainbow effect running,
`setScene("party")` leaves the label "Reading" and clears the effect. -/
theorem setScene_unknown_keeps_label_clears_effect :
    ¬ ((({ m_scene := "Reading", m_effect := EffectMode.Rainbow } : LampController).setScene 0
          "party" 0).getScene = "None"
        ∧ (({ m_scene := "Reading", m_effect := EffectMode.Rainbow } : LampController).setScene 0
          "party" 0).getEffect = EffectMode.Rainbow) := by
  decide

/-- C6 amended: for a scene name that is not, ignoring case, "reading",
"night", "cozy", "bright" or "none", `setScene(name)` is `setEffect(None)`:
the scene label is left as it was, the effect becomes None with its tick
counter reset and the static output redrawn, and every other field (power,
brightness, CCT, colour mode, fade sessions, dirty flags, timestamp, events)
is the same as before the call. -/
theorem setScene_unknown (s : LampController) (now : Nat) (name : String) (excludeMask : Nat)
    (h : toLowerCase name ∉ ["reading", "night", "cozy", "bright", "none"]) :
    s.setScene now name excludeMask = s.setEffect EffectMode.None
      ∧ (s.setScene now name excludeMask).getScene = s.getScene
      ∧ (s.setScene now name excludeMask).getEffect = EffectMode.None
      ∧ (s.setScene now name excludeMask).m_effectTick = 0
      ∧ { s.setScene now name excludeMask with
            m_effect := s.m_effect, m_effectTick := s.m_effectTick,
            m_leds := s.m_leds, shown := s.shown } = s := by
  simp only [List.mem_cons, List.mem_singleton, List.not_mem_nil, or_false, not_or] at h
  obtain ⟨h1, h2, h3, h4, h5⟩ := h
  have he : s.setScene now name excludeMask = s.setEffect EffectMode.None := by
    unfold setScene
    simp only [if_neg h1, if_neg h2, if_neg h3, if_neg h4, if_neg h5, ne_eq, h5,
      not_false_eq_true, if_true, if_false]
  rw [he]
  refine ⟨rfl, ?_, ?_, ?_, ?_⟩
  · simp [getScene, setEffect]
  · simp [getEffect, setEffect]
  · simp [setEffect]
  · cases s
    simp [setEffect, update]

/-- Witness of C6 amended: the name "party". -/
theorem setScene_unknown_witness :
    toLowerCase "party" ∉ ["reading", "night", "cozy", "bright", "none"]
      ∧ (({ m_scene := "Reading", m_effect := EffectMode.Rainbow } : LampController).setScene 0
          "party" 0).getScene = "Reading"
      ∧ (({ m_scene := "Reading", m_effect := EffectMode.Rainbow } : LampController).setScene 0
          "party" 0).getEffect = EffectMode.None :=
  ⟨by decide,
    (setScene_unknown { m_scene := "Reading", m_effect := EffectMode.Rainbow } 0 "party" 0
      (by decide)).2.1,
    (setScene_unknown { m_scene := "Reading", m_effect := EffectMode.Rainbow } 0 "party" 0
      (by decide)).2.2.1⟩

end LampController

namespace LampController

/-- C7: with the lamp on, `setEffect("rainbow")` then `setScene("night")`
leaves the effect None, the scene "Night", the saved brightness 5 and a
brightness fade armed toward `map(5, 1, 100, 12, 100)` (which is 15); after any
129 or more iterations of the periodic task, enough for both fades to end,
`getCCT()` is 2700 in CCT mode and `getBrightness()` is that mapped target. -/
theorem rainbow_then_night (s : LampController) (now excludeMask : Nat)
    (hon : s.isOn = true) :
    ((s.setEffectName "rainbow").setScene now "night" excludeMask).getEffect = EffectMode.None
      ∧ ((s.setEffectName "rainbow").setScene now "night" excludeMask).getScene = "Night"
      ∧ ((s.setEffectName "rainbow").setScene now "night" excludeMask).getSavedBrightness = 5
      ∧ ((s.setEffectName "rainbow").setScene now "night" excludeMask).isFading = true
      ∧ ((s.setEffectName "rainbow").setScene now "night" excludeMask).m_targetBrightness
          = u8 (map 5 1 100 12 100)
      ∧ u8 (map 5 1 100 12 100) = 15
      ∧ ∀ (fx : EffectFrame) (times : List Nat) (l : TaskLocals) (p : Preferences),
          129 ≤ times.length →
          ∃ c1, runTicks fx times
                ⟨(s.setEffectName "rainbow").setScene now "night" excludeMask, l, p⟩ = some c1
            ∧ c1.lamp.getCCT = 2700 ∧ c1.lamp.isCCTMode = true
            ∧ c1.lamp.getBrightness = u8 (map 5 1 100 12 100)
            ∧ c1.lamp.getEffect = EffectMode.None ∧ c1.lamp.getScene = "Night" := by
  simp only [isOn] at hon
  have hr : toLowerCase "rainbow" = "rainbow" := by decide
  have e1 : s.setEffectName "rainbow" = s.setEffect EffectMode.Rainbow := by
    unfold setEffectName
    simp only [hr, if_true]
  have hon1 : (s.setEffect EffectMode.Rainbow).m_on = true := by
    simpa [setEffect] using hon
  rw [e1]
  generalize s.setEffect EffectMode.Rainbow = s1 at hon1 ⊢
  have hn : toLowerCase "night" = "night" := by decide
  have e2 : s1.setScene now "night" excludeMask
      = setEffect { setBrightness (setCCT s1 now 2700 500 excludeMask) 5 500 excludeMask with
          m_scene := "Night" } EffectMode.None := by
    unfold setScene
    have d1 : ¬ ("night" = "reading") := by decide
    have d2 : ¬ ("night" = "none") := by decide
    simp only [hn, if_neg d1, if_true, ne_eq, d2, not_false_eq_true]
  obtain ⟨a1, -, -, a4, -, -, -, -, -, -⟩ := setCCT_fields s1 now 2700 500 excludeMask
  obtain ⟨a11, a12, a13, -, a15⟩ := a1 (by decide)
  obtain ⟨b1, b2, b3, -, b5, -, -, -, -, b10⟩ :=
    setBrightness_fade_fields (setCCT s1 now 2700 500 excludeMask) 5 500 excludeMask
      (by decide) (by decide) (by decide) (a4.trans hon1)
  obtain ⟨-, hdur⟩ :=
    fadeToBrightness_duration_le (setCCT s1 now 2700 500 excludeMask)
      (u8 (map (5 : Nat) 1 100 kMinVisibleBrightness 100)) 500
  rw [← b3] at hdur
  simp only [colorView, Prod.mk.injEq] at b10
  obtain ⟨v1, v2, v3, v4, -, v6, -, -⟩ := b10
  rw [← v1] at a11
  rw [← v2] at a12
  rw [← v6] at a13
  rw [← v3, ← v4] at a15
  generalize setBrightness (setCCT s1 now 2700 500 excludeMask) 5 500 excludeMask = s2
    at e2 b1 b2 b5 hdur a11 a12 a13 a15
  obtain ⟨f1, -, f3, -, f5, f6, f7, -⟩ :=
    setEffect_none_fields { s2 with m_scene := "Night" }
  rw [← e2] at f1 f3 f5 f6 f7
  simp only [brightnessView, colorView, Prod.mk.injEq] at f6 f7
  obtain ⟨-, g2, g3, g4⟩ := f6
  obtain ⟨k1, k2, k3, k4, -, k6, -, -⟩ := f7
  generalize s1.setScene now "night" excludeMask = s3
    at f1 f3 f5 g2 g3 g4 k1 k2 k3 k4 k6
  have htgt : s3.m_targetBrightness = u8 (map 5 1 100 12 100) := by
    rw [g3, b2]; decide
  refine ⟨f1, f3, ?_, g2.trans b1, htgt, by decide, ?_⟩
  · simp [getSavedBrightness, f5, b5]
  · intro fx times l p hlen
    cases times with
    | nil => simp at hlen
    | cons t rest =>
      simp only [List.length_cons] at hlen
      have hact : s3.m_colorFadeActive = true := k1.trans a11
      have hcd : s3.m_colorFadeDurationMs = 500 := k2.trans a12
      obtain ⟨c0, hc0, hs0⟩ := cct_first fx t 2700 ⟨s3, l, p⟩ hact
        (by rw [k6, a13]; decide) (by rw [k4, k3]; exact a15)
        (by rw [hcd]; decide) (by rw [hcd]; decide)
      have hb0 := brightness_first fx t (u8 (map 5 1 100 12 100)) ⟨s3, l, p⟩ c0
        (fun _ => by rw [hcd]; decide) hc0 (g2.trans b1) htgt
        (by rw [g4]; exact le_trans hdur (by decide))
      have hs1 : CctSettling 2700 51 c0 := by
        have h := hs0
        simp only [hcd, STEP_MS] at h
        exact h
      have hb1 : BrightnessSettling (u8 (map 5 1 100 12 100)) 128 c0 := by
        refine brightnessSettling_mono hb0 ?_
        have h : s3.m_fadeDurationMs ≤ 1275 := by
          rw [g4]; exact le_trans hdur (by decide)
        show s3.m_fadeDurationMs / STEP_MS + 1 ≤ 128
        simp only [STEP_MS]
        omega
      obtain ⟨c1, hc1, h5, h6, h7⟩ := runTicks_cct fx 2700 rest 51 c0 hs1 (by omega)
      obtain ⟨-, h9⟩ := runTicks_brightness fx _ rest 128 c0 c1 (cctSettling_ok hs1) hb1
        (by omega) hc1
      obtain ⟨c2, hc2, hst2, -⟩ := runTicks_static fx rest c0 (cctSettling_ok hs1)
      rw [hc1] at hc2
      cases hc2
      obtain ⟨c3, -, hc3, -, -, -, -, -, -, hst0, -⟩ :=
        taskLoop_step fx t ⟨s3, l, p⟩ (fun _ => by rw [hcd]; decide)
      rw [hc0] at hc3
      cases hc3
      have hst := hst2.trans hst0
      simp only [staticView, Prod.mk.injEq] at hst
      obtain ⟨-, -, hse, hsc, -⟩ := hst
      refine ⟨c1, ?_, ?_, h6, h9, hse.trans f1, hsc.trans f3⟩
      · simp only [runTicks, hc0, hc1]
      · simp [getCCT, h5, h7]

/-- Witness of C7: the default controller switched on. -/
theorem rainbow_then_night_witness :
    ({ m_on := true } : LampController).isOn = true
      ∧ ((({ m_on := true } : LampController).setEffectName "rainbow").setScene 0 "night"
          0).getScene = "Night"
      ∧ ((({ m_on := true } : LampController).setEffectName "rainbow").setScene 0 "night"
          0).getSavedBrightness = 5 :=
  ⟨by decide, (rainbow_then_night { m_on := true } 0 0 (by decide)).2.1,
    (rainbow_then_night { m_on := true } 0 0 (by decide)).2.2.1⟩

end LampController

/-- With the change timestamp at zero a run of the task never flushes: the
dirty flags, the timestamp and the store stay as they are. -/
theorem runTicks_unmarked (fx : EffectFrame) (times : List Nat) :
    ∀ c : Sys, ColorFadeOk c.lamp → c.lamp.m_lastChangeMs = 0 →
      ∃ c1, runTicks fx times c = some c1
        ∧ LampController.persistView c1.lamp = LampController.persistView c.lamp
        ∧ c1.prefs = c.prefs := by
  induction times with
  | nil => intro c _ _; exact ⟨c, rfl, rfl, rfl⟩
  | cons now rest ih =>
    intro c hd hz
    obtain ⟨c1, k, h1, -, -, -, -, -, -, -, hp, hpr, hk, hok⟩ := taskLoop_step fx now c hd
    have hkz : k.1.m_lastChangeMs = 0 := by
      have h := hk
      simp only [LampController.persistView, Prod.mk.injEq] at h
      exact h.2.2.2.2.2.2.trans hz
    rw [LampController.flushIfIdle_of_unmarked k.1 c.prefs now hkz] at hp hpr
    have hz1 : c1.lamp.m_lastChangeMs = 0 := by
      have h := hp
      simp only [LampController.persistView, Prod.mk.injEq] at h
      exact h.2.2.2.2.2.2.trans hkz
    obtain ⟨c2, h2, hp2, hpr2⟩ := ih c1 hok hz1
    refine ⟨c2, ?_, hp2.trans (hp.trans hk), hpr2.trans hpr⟩
    simp only [runTicks, h1, h2]

namespace LampController

/-- C8, the code at the failing input: on a lamp that is on with the change
timestamp at 0, `setBrightness(b, 0)` sets the saved-brightness dirty flag but
leaves the timestamp at 0, and then no run of the periodic task, however long,
clears the flag or writes the store. -/
theorem setBrightness_change_never_flushed (s : LampController) (b excludeMask : Nat)
    (hlo : 1 ≤ b) (hhi : b ≤ 100) (hon : s.isOn = true) (hstamp : s.m_lastChangeMs = 0)
    (hok : ColorFadeOk s) :
    (s.setBrightness b 0 excludeMask).m_dirty_br = true
      ∧ (s.setBrightness b 0 excludeMask).m_savedOnBrightness = b
      ∧ (s.setBrightness b 0 excludeMask).m_lastChangeMs = 0
      ∧ ∀ (fx : EffectFrame) (times : List Nat) (l : TaskLocals) (p : Preferences),
          ∃ c1, runTicks fx times ⟨s.setBrightness b 0 excludeMask, l, p⟩ = some c1
            ∧ c1.lamp.m_dirty_br = true ∧ c1.prefs = p := by
  simp only [isOn] at hon
  obtain ⟨-, -, b3, b4, b5, -, -, -, b9⟩ := setBrightness_snap_fields s b excludeMask hlo hhi hon
  have hok1 : ColorFadeOk (s.setBrightness b 0 excludeMask) := by
    have h := b9
    simp only [colorView, Prod.mk.injEq] at h
    intro ha
    rw [h.2.1]
    exact hok (h.1 ▸ ha)
  refine ⟨b4, b3, b5.trans hstamp, ?_⟩
  intro fx times l p
  obtain ⟨c1, h1, hp, hpr⟩ := runTicks_unmarked fx times ⟨s.setBrightness b 0 excludeMask, l, p⟩
    hok1 (b5.trans hstamp)
  simp only [persistView, Prod.mk.injEq] at hp
  exact ⟨c1, h1, hp.2.1.trans b4, hpr⟩

/-- Witness of C8: the controller as `init()` leaves it on an empty store. -/
theorem setBrightness_change_never_flushed_witness :
    (1 ≤ 50 ∧ 50 ≤ 100 ∧ (init Preferences.empty).isOn = true
        ∧ (init Preferences.empty).m_lastChangeMs = 0
        ∧ (init Preferences.empty).m_colorFadeActive = false)
      ∧ ((init Preferences.empty).setBrightness 50 0 0).m_dirty_br = true
      ∧ ∀ (fx : EffectFrame) (times : List Nat) (l : TaskLocals) (p : Preferences),
          ∃ c1, runTicks fx times ⟨(init Preferences.empty).setBrightness 50 0 0, l, p⟩ = some c1
            ∧ c1.lamp.m_dirty_br = true ∧ c1.prefs = p :=
  ⟨by decide,
    (setBrightness_change_never_flushed (init Preferences.empty) 50 0 (by decide) (by decide)
      (by decide) (by decide) (fun h => absurd h (by decide))).1,
    (setBrightness_change_never_flushed (init Preferences.empty) 50 0 (by decide) (by decide)
      (by decide) (by decide) (fun h => absurd h (by decide))).2.2.2⟩

end LampController

/-! ## The settings store -/

/-- The packed word of `saveRGB` is `0x00RRGGBB` for byte-sized components. -/
theorem packRGB_eq (r g b : Nat) (hr : r ≤ 255) (hg : g ≤ 255) (hb : b ≤ 255) :
    ((r <<< 16) % 4294967296) ||| ((g <<< 8) % 4294967296) ||| b
      = r * 65536 + g * 256 + b := by
  have e1 : (r <<< 16) % 4294967296 = 2 ^ 16 * r := by
    rw [Nat.shiftLeft_eq]; omega
  have e2 : (g <<< 8) % 4294967296 = 2 ^ 8 * g := by
    rw [Nat.shiftLeft_eq]; omega
  have hb8 : b < 2 ^ 8 := by omega
  have hgb : 2 ^ 8 * g + b < 2 ^ 16 := by omega
  rw [e1, e2, Nat.or_assoc, ← Nat.mul_add_lt_is_or hb8 g, ← Nat.mul_add_lt_is_or hgb r]
  omega

/-- Unpacking `0x00RRGGBB` as `loadRGB` does gives the three components back. -/
theorem unpackRGB_eq (r g b : Nat) (hr : r ≤ 255) (hg : g ≤ 255) (hb : b ≤ 255) :
    ((r * 65536 + g * 256 + b) >>> 16) &&& 0xFF = r
      ∧ ((r * 65536 + g * 256 + b) >>> 8) &&& 0xFF = g
      ∧ (r * 65536 + g * 256 + b) &&& 0xFF = b := by
  have h255 : (0xFF : Nat) = 2 ^ 8 - 1 := by decide
  rw [h255]
  simp only [Nat.and_pow_two_sub_one_eq_mod, Nat.shiftRight_eq_div_pow]
  refine ⟨?_, ?_, ?_⟩ <;> omega

namespace LampController

/-- What `flushNow` leaves under a key: the value of the dirty field stored
under that key, else what was there. -/
theorem flushNow_store (s : LampController) (p : Preferences) (k : String) :
    (flushNow s p).2 k =
      if s.m_dirty_auto_br = true ∧ k = AppConfig.K_AUTO_BR then
        some (PrefVal.int (if s.m_autoBrightness then 1 else 0))
      else if s.m_dirty_mode = true ∧ k = AppConfig.K_MODE then some (PrefVal.bool s.m_useCCT)
      else if s.m_dirty_rgb = true ∧ k = AppConfig.K_RGB then
        some (PrefVal.uint (((s.m_rgbColor.r <<< 16) % 4294967296)
          ||| ((s.m_rgbColor.g <<< 8) % 4294967296) ||| s.m_rgbColor.b))
      else if s.m_dirty_cct = true ∧ k = AppConfig.K_CCT then some (PrefVal.ushort s.m_cct)
      else if s.m_dirty_br = true ∧ k = AppConfig.K_BR then
        some (PrefVal.uchar (if s.m_savedOnBrightness > 0 then s.m_savedOnBrightness else 50))
      else if s.m_dirty_on = true ∧ k = AppConfig.K_ON then
        some (PrefVal.uchar (if s.m_on then 1 else 0))
      else p k := by
  unfold flushNow flushAutoBr flushMode flushRGB flushCCT flushBr flushOn
  simp only []
  by_cases h1 : s.m_dirty_on = true <;> by_cases h2 : s.m_dirty_br = true <;>
    by_cases h3 : s.m_dirty_cct = true <;> by_cases h4 : s.m_dirty_rgb = true <;>
    by_cases h5 : s.m_dirty_mode = true <;> by_cases h6 : s.m_dirty_auto_br = true <;>
    simp [h1, h2, h3, h4, h5, h6, saveOnToNVS, saveSavedBrightnessToNVS, saveCCTToNVS,
      saveRGBToNVS, saveModeToNVS, saveAutoBrightnessToNVS, AppConfig.saveOn,
      AppConfig.saveSavedBrightness, AppConfig.saveCCT, AppConfig.saveRGB, AppConfig.saveMode,
      AppConfig.saveAutoBrightness, Preferences.put]

theorem flushOn_state (s : LampController) (p : Preferences) :
    (flushOn s p).1 = { s with m_dirty_on := false } := by
  unfold flushOn
  split
  · rfl
  · rename_i h; cases s; simp only [Bool.not_eq_true] at h; subst h; rfl

theorem flushBr_state (s : LampController) (p : Preferences) :
    (flushBr s p).1 = { s with m_dirty_br := false } := by
  unfold flushBr
  split
  · rfl
  · rename_i h; cases s; simp only [Bool.not_eq_true] at h; subst h; rfl

theorem flushCCT_state (s : LampController) (p : Preferences) :
    (flushCCT s p).1 = { s with m_dirty_cct := false } := by
  unfold flushCCT
  split
  · rfl
  · rename_i h; cases s; simp only [Bool.not_eq_true] at h; subst h; rfl

theorem flushRGB_state (s : LampController) (p : Preferences) :
    (flushRGB s p).1 = { s with m_dirty_rgb := false } := by
  unfold flushRGB
  split
  · rfl
  · rename_i h; cases s; simp only [Bool.not_eq_true] at h; subst h; rfl

theorem flushMode_state (s : LampController) (p : Preferences) :
    (flushMode s p).1 = { s with m_dirty_mode := false } := by
  unfold flushMode
  split
  · rfl
  · rename_i h; cases s; simp only [Bool.not_eq_true] at h; subst h; rfl

theorem flushAutoBr_state (s : LampController) (p : Preferences) :
    (flushAutoBr s p).1 = { s with m_dirty_auto_br := false } := by
  unfold flushAutoBr
  split
  · rfl
  · rename_i h; cases s; simp only [Bool.not_eq_true] at h; subst h; rfl

theorem flushOn_persist (s : LampController) (p : Preferences) :
    persistView (flushOn s p).1 = (false, (persistView s).2) := by
  rw [flushOn_state]; rfl

theorem flushBr_persist (s : LampController) (p : Preferences) :
    persistView (flushBr s p).1 = ((persistView s).1, false, (persistView s).2.2) := by
  rw [flushBr_state]; rfl

theorem flushCCT_persist (s : LampController) (p : Preferences) :
    persistView (flushCCT s p).1
      = ((persistView s).1, (persistView s).2.1, false, (persistView s).2.2.2) := by
  rw [flushCCT_state]; rfl

theorem flushRGB_persist (s : LampController) (p : Preferences) :
    persistView (flushRGB s p).1
      = ((persistView s).1, (persistView s).2.1, (persistView s).2.2.1, false,
          (persistView s).2.2.2.2) := by
  rw [flushRGB_state]; rfl

theorem flushMode_persist (s : LampController) (p : Preferences) :
    persistView (flushMode s p).1
      = ((persistView s).1, (persistView s).2.1, (persistView s).2.2.1,
          (persistView s).2.2.2.1, false, (persistView s).2.2.2.2.2) := by
  rw [flushMode_state]; rfl

theorem flushAutoBr_persist (s : LampController) (p : Preferences) :
    persistView (flushAutoBr s p).1
      = ((persistView s).1, (persistView s).2.1, (persistView s).2.2.1,
          (persistView s).2.2.2.1, (persistView s).2.2.2.2.1, false,
          (persistView s).2.2.2.2.2.2) := by
  rw [flushAutoBr_state]; rfl

theorem clearChangeStamp_persist (s : LampController) :
    persistView (clearChangeStamp s)
      = ((persistView s).1, (persistView s).2.1, (persistView s).2.2.1,
          (persistView s).2.2.2.1, (persistView s).2.2.2.2.1, (persistView s).2.2.2.2.2.1,
          0) := rfl

/-- After `flushNow` the six dirty flags are false and the timestamp is zero. -/
theorem flushNow_persist (s : LampController) (p : Preferences) :
    persistView (flushNow s p).1 = (false, false, false, false, false, false, 0) := by
  unfold flushNow
  show persistView (clearChangeStamp _) = _
  rw [clearChangeStamp_persist, flushAutoBr_persist, flushMode_persist, flushRGB_persist,
    flushCCT_persist, flushBr_persist, flushOn_persist]

/-- C9: `flushNow()` writes to the store exactly the fields whose dirty flag
was set (power as 0/1, saved brightness, CCT, the RGB triplet packed as
`0x00RRGGBB`, mode, auto-brightness as 0/1), each with its current in-memory
value, leaves every other key as it was, and leaves the controller with all
six dirty flags false, the change timestamp 0 and every other field unchanged.
The saved brightness is non-zero and the colour components are bytes, as the
data model has them. -/
theorem flushNow_writes_dirty_fields (s : LampController) (p : Preferences)
    (hsaved : 0 < s.m_savedOnBrightness) (hr : s.m_rgbColor.r ≤ 255)
    (hg : s.m_rgbColor.g ≤ 255) (hb : s.m_rgbColor.b ≤ 255) :
    (flushNow s p).2 AppConfig.K_ON
        = (if s.m_dirty_on then some (PrefVal.uchar (if s.m_on then 1 else 0))
            else p AppConfig.K_ON)
      ∧ (flushNow s p).2 AppConfig.K_BR
        = (if s.m_dirty_br then some (PrefVal.uchar s.m_savedOnBrightness)
            else p AppConfig.K_BR)
      ∧ (flushNow s p).2 AppConfig.K_CCT
        = (if s.m_dirty_cct then some (PrefVal.ushort s.m_cct) else p AppConfig.K_CCT)
      ∧ (flushNow s p).2 AppConfig.K_RGB
        = (if s.m_dirty_rgb then
              some (PrefVal.uint (s.m_rgbColor.r * 65536 + s.m_rgbColor.g * 256 + s.m_rgbColor.b))
            else p AppConfig.K_RGB)
      ∧ (flushNow s p).2 AppConfig.K_MODE
        = (if s.m_dirty_mode then some (PrefVal.bool s.m_useCCT) else p AppConfig.K_MODE)
      ∧ (flushNow s p).2 AppConfig.K_AUTO_BR
        = (if s.m_dirty_auto_br then some (PrefVal.int (if s.m_autoBrightness then 1 else 0))
            else p AppConfig.K_AUTO_BR)
      ∧ (∀ k : String, k ∉ [AppConfig.K_ON, AppConfig.K_BR, AppConfig.K_CCT, AppConfig.K_RGB,
            AppConfig.K_MODE, AppConfig.K_AUTO_BR] → (flushNow s p).2 k = p k)
      ∧ (flushNow s p).1.m_dirty_on = false ∧ (flushNow s p).1.m_dirty_br = false
      ∧ (flushNow s p).1.m_dirty_cct = false ∧ (flushNow s p).1.m_dirty_rgb = false
      ∧ (flushNow s p).1.m_dirty_mode = false ∧ (flushNow s p).1.m_dirty_auto_br = false
      ∧ (flushNow s p).1.m_lastChangeMs = 0
      ∧ erasePersist (flushNow s p).1 = erasePersist s := by
  have hpack := packRGB_eq _ _ _ hr hg hb
  have hsv : (if s.m_savedOnBrightness > 0 then s.m_savedOnBrightness else 50)
      = s.m_savedOnBrightness := if_pos hsaved
  refine ⟨?_, ?_, ?_, ?_, ?_, ?_, ?_, ?_⟩
  · rw [flushNow_store]
    simp [AppConfig.K_ON, AppConfig.K_BR, AppConfig.K_CCT, AppConfig.K_RGB, AppConfig.K_MODE,
      AppConfig.K_AUTO_BR]
  · rw [flushNow_store, hsv]
    simp [AppConfig.K_ON, AppConfig.K_BR, AppConfig.K_CCT, AppConfig.K_RGB, AppConfig.K_MODE,
      AppConfig.K_AUTO_BR]
  · rw [flushNow_store]
    simp [AppConfig.K_ON, AppConfig.K_BR, AppConfig.K_CCT, AppConfig.K_RGB, AppConfig.K_MODE,
      AppConfig.K_AUTO_BR]
  · rw [flushNow_store, hpack]
    simp [AppConfig.K_ON, AppConfig.K_BR, AppConfig.K_CCT, AppConfig.K_RGB, AppConfig.K_MODE,
      AppConfig.K_AUTO_BR]
  · rw [flushNow_store]
    simp [AppConfig.K_ON, AppConfig.K_BR, AppConfig.K_CCT, AppConfig.K_RGB, AppConfig.K_MODE,
      AppConfig.K_AUTO_BR]
  · rw [flushNow_store]
    simp [AppConfig.K_ON, AppConfig.K_BR, AppConfig.K_CCT, AppConfig.K_RGB, AppConfig.K_MODE,
      AppConfig.K_AUTO_BR]
  · intro k hk
    simp only [List.mem_cons, List.mem_singleton, List.not_mem_nil, or_false, not_or] at hk
    obtain ⟨k1, k2, k3, k4, k5, k6⟩ := hk
    rw [flushNow_store]
    simp only [k1, k2, k3, k4, k5, k6, and_false, if_false]
  · have h := flushNow_persist s p
    simp only [persistView, Prod.mk.injEq] at h
    obtain ⟨h1, h2, h3, h4, h5, h6, h7⟩ := h
    exact ⟨h1, h2, h3, h4, h5, h6, h7, erasePersist_flushNow s p⟩

/-- Witness of C9: power and colour dirty on an empty store. -/
theorem flushNow_writes_dirty_fields_witness :
    (0 < ({ m_dirty_on := true, m_dirty_rgb := true, m_lastChangeMs := 7 }
          : LampController).m_savedOnBrightness
        ∧ (255 : Nat) ≤ 255)
      ∧ (flushNow { m_dirty_on := true, m_dirty_rgb := true, m_lastChangeMs := 7 }
          Preferences.empty).2 AppConfig.K_RGB = some (PrefVal.uint 16777215)
      ∧ (flushNow { m_dirty_on := true, m_dirty_rgb := true, m_lastChangeMs := 7 }
          Preferences.empty).2 AppConfig.K_CCT = none :=
  ⟨by decide,
    (flushNow_writes_dirty_fields { m_dirty_on := true, m_dirty_rgb := true, m_lastChangeMs := 7 }
      Preferences.empty (by decide) (by decide) (by decide) (by decide)).2.2.2.1,
    (flushNow_writes_dirty_fields { m_dirty_on := true, m_dirty_rgb := true, m_lastChangeMs := 7 }
      Preferences.empty (by decide) (by decide) (by decide) (by decide)).2.2.1⟩

/-- C10, as stated, fails: a controller in RGB mode saves its colour to an
empty store; the fresh controller that loads it is in CCT mode. -/
theorem saveRGB_does_not_save_mode :
    ¬ ((loadStateFromNVS {}
          (saveRGBToNVS { m_useCCT := false, m_rgbColor := ⟨1, 2, 3⟩ } Preferences.empty)).m_rgbColor
          = (⟨1, 2, 3⟩ : CRGB)
        ∧ (loadStateFromNVS {}
          (saveRGBToNVS { m_useCCT := false, m_rgbColor := ⟨1, 2, 3⟩ } Preferences.empty)).m_useCCT
          = false) := by
  decide

/-- C10 amended: for byte-sized colour components and any prior store,
`saveRGBToNVS()` followed by `loadStateFromNVS()` on another controller gives
back the RGB triplet, the loaded mode flag being the one the store held (CCT
when absent); when `saveModeToNVS()` is run as well before the load, in either
order, the triplet and the saving controller's mode flag both come back. -/
theorem saveRGB_load_roundtrip (s t : LampController) (p : Preferences)
    (hr : s.m_rgbColor.r ≤ 255) (hg : s.m_rgbColor.g ≤ 255) (hb : s.m_rgbColor.b ≤ 255) :
    (loadStateFromNVS t (saveRGBToNVS s p)).m_rgbColor = s.m_rgbColor
      ∧ (loadStateFromNVS t (saveRGBToNVS s p)).m_useCCT = AppConfig.loadMode p
      ∧ (loadStateFromNVS t (saveModeToNVS s (saveRGBToNVS s p))).m_rgbColor = s.m_rgbColor
      ∧ (loadStateFromNVS t (saveModeToNVS s (saveRGBToNVS s p))).m_useCCT = s.m_useCCT
      ∧ (loadStateFromNVS t (saveRGBToNVS s (saveModeToNVS s p))).m_rgbColor = s.m_rgbColor
      ∧ (loadStateFromNVS t (saveRGBToNVS s (saveModeToNVS s p))).m_useCCT = s.m_useCCT := by
  have hpack := packRGB_eq _ _ _ hr hg hb
  obtain ⟨u1, u2, u3⟩ := unpackRGB_eq _ _ _ hr hg hb
  have d1 : ¬ (AppConfig.K_RGB = AppConfig.K_MODE) := by decide
  have d2 : ¬ (AppConfig.K_MODE = AppConfig.K_RGB) := by decide
  have hrgb : ∀ q : Preferences, AppConfig.loadRGB (saveRGBToNVS s q) = s.m_rgbColor := by
    intro q
    simp only [AppConfig.loadRGB, saveRGBToNVS, AppConfig.saveRGB, Preferences.getUInt,
      Preferences.put, if_true, hpack, u1, u2, u3]
  have hrgb2 : ∀ q : Preferences,
      AppConfig.loadRGB (saveModeToNVS s q) = AppConfig.loadRGB q := by
    intro q
    simp only [AppConfig.loadRGB, saveModeToNVS, AppConfig.saveMode, Preferences.getUInt,
      Preferences.put, d1, if_false]
  have hmode : ∀ q : Preferences, AppConfig.loadMode (saveModeToNVS s q) = s.m_useCCT := by
    intro q
    simp only [AppConfig.loadMode, saveModeToNVS, AppConfig.saveMode, Preferences.getBool,
      Preferences.put, if_true]
  have hmode2 : ∀ q : Preferences,
      AppConfig.loadMode (saveRGBToNVS s q) = AppConfig.loadMode q := by
    intro q
    simp only [AppConfig.loadMode, saveRGBToNVS, AppConfig.saveRGB, Preferences.getBool,
      Preferences.put, d2, if_false]
  refine ⟨?_, ?_, ?_, ?_, ?_, ?_⟩
  · exact hrgb p
  · exact hmode2 p
  · exact (hrgb2 (saveRGBToNVS s p)).trans (hrgb p)
  · exact hmode (saveRGBToNVS s p)
  · exact hrgb (saveModeToNVS s p)
  · exact (hmode2 (saveModeToNVS s p)).trans (hmode p)

/-- Witness of C10 amended. -/
theorem saveRGB_load_roundtrip_witness :
    ((1 : Nat) ≤ 255 ∧ (2 : Nat) ≤ 255 ∧ (3 : Nat) ≤ 255)
      ∧ (loadStateFromNVS {}
          (saveModeToNVS { m_useCCT := false, m_rgbColor := ⟨1, 2, 3⟩ }
            (saveRGBToNVS { m_useCCT := false, m_rgbColor := ⟨1, 2, 3⟩ }
              Preferences.empty))).m_useCCT = false :=
  ⟨by decide,
    (saveRGB_load_roundtrip { m_useCCT := false, m_rgbColor := ⟨1, 2, 3⟩ } {} Preferences.empty
      (by decide) (by decide) (by decide)).2.2.2.1⟩

end LampController

/-! # Photometric mapping, easing and fades in flight -/

/-! ## The duty cycle -/

namespace LampController

theorem scaleChannel_eq (v b : Nat) :
    scaleChannel v b
      = if b = 0 then 0 else if v = 0 then 0
        else u8 (((v * targetPwm b) % 4294967296 / 255 : Nat) : Int) := rfl

theorem u8_natCast (n : Nat) (h : n ≤ 255) : u8 (n : Int) = n := by
  unfold u8; omega

theorem targetPwm_le : ∀ b, b < 100 → targetPwm b ≤ 80 := by decide

theorem targetPwm_ge : ∀ b, b < 101 → 1 ≤ b → 10 ≤ targetPwm b ∧ targetPwm b ≤ 81 := by decide

/-- A function on an initial segment that never steps down is non-decreasing. -/
theorem nondecreasing_of_step (f : Nat → Nat) (n : Nat)
    (h : ∀ x, x < n → f x ≤ f (x + 1)) (x y : Nat) (hxy : x ≤ y) (hy : y ≤ n) :
    f x ≤ f y := by
  induction y with
  | zero =>
    have : x = 0 := Nat.le_zero.mp hxy
    rw [this]
  | succ k ih =>
    rcases Nat.lt_or_ge x (k + 1) with h1 | h1
    · exact le_trans (ih (Nat.lt_succ_iff.mp h1) (by omega)) (h k (by omega))
    · have : x = k + 1 := le_antisymm hxy h1
      rw [this]

/-- Below full brightness the duty-cycle limits hold for every channel value. -/
theorem scaleChannel_within_limits (v b : Nat) (hb1 : 1 ≤ b) (hb : b ≤ 99) (hv : v ≤ 255) :
    scaleChannel v b ≤ LAMP_PWM_HARD_MAX ∧ LAMP_PWM_HARD_MIN ≤ scaleChannel 255 b := by
  have hT := targetPwm_le b (by omega)
  have hT2 := (targetPwm_ge b (by omega) hb1).1
  have hm : v * targetPwm b ≤ 255 * 80 := Nat.mul_le_mul hv hT
  rw [scaleChannel_eq, scaleChannel_eq]
  have hb0 : b ≠ 0 := by omega
  simp only [if_neg hb0, LAMP_PWM_HARD_MAX, LAMP_PWM_HARD_MIN]
  constructor
  · split
    · omega
    · rw [u8_natCast _ (by omega)]
      omega
  · rw [if_neg (by decide), Nat.mod_eq_of_lt (by omega), Nat.mul_div_cancel_left _ (by decide)]
    rw [u8_natCast _ (by omega)]
    exact hT2

/-- C11: at full brightness a saturated channel is driven to duty cycle 81,
above the physical ceiling `LAMP_PWM_HARD_MAX` of 80: the squared segment's
top end `b = 100` normalises to 90, not to the 89 its divisor 7921 assumes. -/
theorem scaleChannel_full_exceeds_hard_max :
    scaleChannel 255 100 = 81 ∧ LAMP_PWM_HARD_MAX = 80
      ∧ ¬ scaleChannel 255 100 ≤ LAMP_PWM_HARD_MAX
      ∧ scaleChannel 255 99 = LAMP_PWM_HARD_MAX := by decide

theorem scaleChannel_step : ∀ x, x < 100 → scaleChannel 255 x ≤ scaleChannel 255 (x + 1) := by
  decide

theorem mapped_step : ∀ b, b < 100 →
    u8 (map (b : Nat) 1 100 kMinVisibleBrightness 100)
      ≤ u8 (map ((b + 1 : Nat) : Int) 1 100 kMinVisibleBrightness 100) := by
  decide

theorem mapped_le : ∀ b, b < 101 → u8 (map (b : Nat) 1 100 kMinVisibleBrightness 100) ≤ 100 := by
  decide

/-- C12: the output for a saturated channel is non-decreasing in the brightness
over 0..100, the boundary between the linear and the squared segment included,
and so it is in the percentage through the mapping `map(b, 1, 100,
kMinVisibleBrightness, 100)`, which is the brightness a zero-duration
`setBrightness` leaves on a lamp that is on. -/
theorem scaleChannel_nondecreasing (x y : Nat) (hxy : x ≤ y) (hy : y ≤ 100) :
    scaleChannel 255 x ≤ scaleChannel 255 y
      ∧ scaleChannel 255 (u8 (map x 1 100 kMinVisibleBrightness 100))
          ≤ scaleChannel 255 (u8 (map y 1 100 kMinVisibleBrightness 100))
      ∧ ∀ (s : LampController) (e : Nat), s.isOn = true → 1 ≤ x →
          (s.setBrightness x 0 e).getBrightness = u8 (map x 1 100 kMinVisibleBrightness 100)
            ∧ scaleChannel 255 (s.setBrightness x 0 e).getBrightness
                ≤ scaleChannel 255 (s.setBrightness y 0 e).getBrightness := by
  have hm : scaleChannel 255 (u8 (map x 1 100 kMinVisibleBrightness 100))
      ≤ scaleChannel 255 (u8 (map y 1 100 kMinVisibleBrightness 100)) := by
    refine nondecreasing_of_step _ 100 scaleChannel_step _ _ ?_ (mapped_le y (by omega))
    exact nondecreasing_of_step (fun b => u8 (map (b : Nat) 1 100 kMinVisibleBrightness 100))
      100 mapped_step x y hxy hy
  refine ⟨nondecreasing_of_step _ 100 scaleChannel_step x y hxy hy, hm, ?_⟩
  intro s e hon hx
  have h1 := (setBrightness_snap_fields s x e hx (by omega) hon).1
  have h2 := (setBrightness_snap_fields s y e (by omega) hy hon).1
  unfold getBrightness
  rw [h1, h2]
  exact ⟨rfl, hm⟩

theorem scaleChannel_nondecreasing_witness :
    scaleChannel 255 10 ≤ scaleChannel 255 11
      ∧ scaleChannel 255 (u8 (map (10 : Nat) 1 100 kMinVisibleBrightness 100))
          ≤ scaleChannel 255 (u8 (map (11 : Nat) 1 100 kMinVisibleBrightness 100)) :=
  ⟨(scaleChannel_nondecreasing 10 11 (by decide) (by decide)).1,
    (scaleChannel_nondecreasing 10 11 (by decide) (by decide)).2.1⟩

/-- C13: a zero brightness and a zero channel value both give a zero output. -/
theorem scaleChannel_zero (v b : Nat) : scaleChannel v 0 = 0 ∧ scaleChannel 0 b = 0 := by
  constructor
  · rfl
  · unfold scaleChannel
    split
    · rfl
    · rfl

end LampController

/-! ## Easing -/

namespace LampController

theorem u32_natCast (n : Nat) (h : n < 4294967296) : u32 (n : Int) = n := by
  unfold u32; omega

/-- The cubic part of the smoothstep bound, away from the top of the range. -/
theorem smoothstep_cubic (t a b : Int) (ht0 : 0 ≤ t) (ht : t ≤ 65173)
    (h1 : a * 65536 ≤ t * t) (h2 : a * t < 65536 * b + 65536) :
    3 * a ≤ 65536 + 2 * b := by
  by_contra hc
  have hc1 : 65537 + 2 * b ≤ 3 * a := by omega
  -- a * (3 D - 2 t) is large
  have h3 : 65535 * 65536 + 2 ≤ a * (3 * 65536 - 2 * t) := by nlinarith
  -- but t * t * (3 D - 2 t) is small
  have hpos : 0 ≤ 3 * 65536 - 2 * t := by omega
  have h4 : a * 65536 * (3 * 65536 - 2 * t) ≤ t * t * (3 * 65536 - 2 * t) :=
    mul_le_mul_of_nonneg_right h1 hpos
  have he : 0 ≤ 65536 - t - 363 := by omega
  have h5 : t * t * (3 * 65536 - 2 * t)
      = 65536 * 65536 * 65536 - (65536 - t) * (65536 - t) * (65536 + 2 * t) := by ring
  have h6 : 363 * 363 * 65536 ≤ (65536 - t) * (65536 - t) * (65536 + 2 * t) := by
    have h7 : 363 * 363 ≤ (65536 - t) * (65536 - t) := by nlinarith
    have h8 : (65536 : Int) ≤ 65536 + 2 * t := by omega
    calc (363 * 363 * 65536 : Int) ≤ (65536 - t) * (65536 - t) * 65536 :=
          mul_le_mul_of_nonneg_right h7 (by norm_num)
      _ ≤ (65536 - t) * (65536 - t) * (65536 + 2 * t) :=
          mul_le_mul_of_nonneg_left h8 (mul_self_nonneg _)
  nlinarith

set_option maxRecDepth 100000 in
theorem smoothstep_top : ∀ k, k < 364 →
    3 * ((65173 + k) * (65173 + k) / 65536)
      ≤ 65536 + 2 * ((65173 + k) * (65173 + k) / 65536 * (65173 + k) / 65536) := by
  decide

/-- The two terms of the smoothstep branch: `2 * t3 ≤ 3 * t2 ≤ 65536 + 2 * t3`. -/
theorem smoothstep_terms (t : Nat) (ht : t ≤ 65536) :
    2 * (t * t / 65536 * t / 65536) ≤ 3 * (t * t / 65536)
      ∧ 3 * (t * t / 65536) ≤ 65536 + 2 * (t * t / 65536 * t / 65536) := by
  constructor
  · have : t * t / 65536 * t / 65536 ≤ t * t / 65536 :=
      Nat.div_le_of_le_mul (by rw [Nat.mul_comm]; exact Nat.mul_le_mul_right _ ht)
    omega
  · rcases Nat.lt_or_ge t 65173 with h | h
    · have h1 : t * t / 65536 * 65536 ≤ t * t := Nat.div_mul_le_self _ _
      have h2 : t * t / 65536 * t < 65536 * (t * t / 65536 * t / 65536) + 65536 := by
        have := Nat.div_add_mod (t * t / 65536 * t) 65536
        have := Nat.mod_lt (t * t / 65536 * t) (by decide : 65536 > 0)
        omega
      have := smoothstep_cubic (t : Int) ((t * t / 65536 : Nat) : Int)
        ((t * t / 65536 * t / 65536 : Nat) : Int) (by omega) (by omega)
        (by exact_mod_cast h1) (by exact_mod_cast h2)
      exact_mod_cast this
    · obtain ⟨k, rfl⟩ : ∃ k, t = 65173 + k := ⟨t - 65173, by omega⟩
      exact smoothstep_top k (by omega)

theorem applyEasing_zero (s : LampController) : applyEasing s 0 = 0 := rfl

theorem applyEasing_top (s : LampController) (t : Nat) (h : 65535 ≤ t) :
    applyEasing s t = 65535 := by
  unfold applyEasing
  rw [if_neg (by omega), if_pos h]

theorem applyEasing_mid (s : LampController) (t : Nat) (h0 : 0 < t) (h1 : t < 65535) :
    applyEasing s t =
      match s.m_curve with
      | FadeCurve.Linear => t
      | FadeCurve.EaseIn => t * t / 65536
      | FadeCurve.EaseOut => 65535 - (65535 - t) * (65535 - t) / 65536
      | FadeCurve.EaseInOut => 3 * (t * t / 65536) - 2 * (t * t / 65536 * t / 65536)
      | FadeCurve.Smoothstep => 3 * (t * t / 65536) - 2 * (t * t / 65536 * t / 65536) := by
  unfold applyEasing
  rw [if_neg (by omega), if_neg (by omega)]
  have hsq : t * t / 65536 ≤ t :=
    Nat.div_le_of_le_mul (Nat.mul_le_mul_right _ (by omega))
  have hu : (65535 - t) * (65535 - t) / 65536 ≤ 65535 - t :=
    Nat.div_le_of_le_mul (Nat.mul_le_mul_right _ (by omega))
  have hs := smoothstep_terms t (by omega)
  have hu1 : u32 ((65535 : Int) - t) = 65535 - t := by unfold u32; omega
  cases s.m_curve
  · rfl
  · exact u32_natCast _ (by omega)
  · simp only [hu1]
    rw [u32_natCast _ (by omega)]
    unfold u32; omega
  · simp only []
    unfold u32; omega
  · simp only []
    unfold u32; omega

/-- The eased progress never exceeds `65536`. -/
theorem applyEasing_le (s : LampController) (t : Nat) : applyEasing s t ≤ 65536 := by
  rcases Nat.eq_zero_or_pos t with h0 | h0
  · rw [h0, applyEasing_zero]; omega
  · rcases Nat.lt_or_ge t 65535 with h1 | h1
    · rw [applyEasing_mid s t h0 h1]
      have hsq : t * t / 65536 ≤ t :=
        Nat.div_le_of_le_mul (Nat.mul_le_mul_right _ (by omega))
      have hs := smoothstep_terms t (by omega)
      cases s.m_curve <;> simp only [] <;> omega
    · rw [applyEasing_top s t h1]; omega

/-- On the linear, ease-in and ease-out curves the eased progress stays below
`65536`. -/
theorem applyEasing_le_plain (s : LampController) (t : Nat)
    (hc : s.m_curve = FadeCurve.Linear ∨ s.m_curve = FadeCurve.EaseIn
      ∨ s.m_curve = FadeCurve.EaseOut) : applyEasing s t ≤ 65535 := by
  rcases Nat.eq_zero_or_pos t with h0 | h0
  · rw [h0, applyEasing_zero]; omega
  · rcases Nat.lt_or_ge t 65535 with h1 | h1
    · rw [applyEasing_mid s t h0 h1]
      have hsq : t * t / 65536 ≤ t :=
        Nat.div_le_of_le_mul (Nat.mul_le_mul_right _ (by omega))
      rcases hc with hc | hc | hc <;> simp only [hc] <;> omega
    · rw [applyEasing_top s t h1]

/-- On the linear, ease-in and ease-out curves the eased progress is
non-decreasing in the raw progress. -/
theorem applyEasing_mono_plain (s : LampController) (t1 t2 : Nat) (h : t1 ≤ t2)
    (hc : s.m_curve = FadeCurve.Linear ∨ s.m_curve = FadeCurve.EaseIn
      ∨ s.m_curve = FadeCurve.EaseOut) : applyEasing s t1 ≤ applyEasing s t2 := by
  rcases Nat.eq_zero_or_pos t1 with h0 | h0
  · rw [h0, applyEasing_zero]; exact Nat.zero_le _
  · rcases Nat.lt_or_ge t2 65535 with h1 | h1
    · rw [applyEasing_mid s t1 h0 (by omega), applyEasing_mid s t2 (by omega) h1]
      have hsq : t1 * t1 / 65536 ≤ t2 * t2 / 65536 :=
        Nat.div_le_div_right (Nat.mul_le_mul h h)
      have hu : (65535 - t2) * (65535 - t2) / 65536 ≤ (65535 - t1) * (65535 - t1) / 65536 :=
        Nat.div_le_div_right (Nat.mul_le_mul (by omega) (by omega))
      rcases hc with hc | hc | hc <;> simp only [hc] <;> omega
    · rw [applyEasing_top s t2 h1]
      exact applyEasing_le_plain s t1 hc

end LampController

namespace LampController

/-- C14 as stated fails on the smoothstep branch (curves `EaseInOut` and
`Smoothstep`): the eased value drops from 120 at `t = 1638` to 118 at
`t = 1639`, and from 65536 at `t = 65534` to 65535 at `t = 65535`. -/
theorem applyEasing_smoothstep_not_monotone :
    applyEasing (setFadeCurve {} FadeCurve.Smoothstep) 1638 = 120
      ∧ applyEasing (setFadeCurve {} FadeCurve.Smoothstep) 1639 = 118
      ∧ applyEasing (setFadeCurve {} FadeCurve.EaseInOut) 1639
          < applyEasing (setFadeCurve {} FadeCurve.EaseInOut) 1638
      ∧ applyEasing (setFadeCurve {} FadeCurve.Smoothstep) 65535
          < applyEasing (setFadeCurve {} FadeCurve.Smoothstep) 65534 := by
  decide

/-- C14, amended: on the curves `Linear`, `EaseIn` and `EaseOut`, `applyEasing`
is non-decreasing: `t1 ≤ t2` gives `applyEasing(t1) ≤ applyEasing(t2)`, for
all inputs. -/
theorem applyEasing_monotone (s : LampController) (t1 t2 : Nat) (h : t1 ≤ t2)
    (hc : s.getFadeCurve = FadeCurve.Linear ∨ s.getFadeCurve = FadeCurve.EaseIn
      ∨ s.getFadeCurve = FadeCurve.EaseOut) :
    applyEasing s t1 ≤ applyEasing s t2 :=
  applyEasing_mono_plain s t1 t2 h hc

theorem applyEasing_monotone_witness :
    applyEasing (setFadeCurve {} FadeCurve.EaseOut) 1638
      ≤ applyEasing (setFadeCurve {} FadeCurve.EaseOut) 1639 :=
  applyEasing_monotone (setFadeCurve {} FadeCurve.EaseOut) 1638 1639 (by decide)
    (Or.inr (Or.inr rfl))

/-- C15: for every curve and every Q16 input `t ≤ 65536` the eased value is
at most 65536, with `applyEasing(0) = 0` and `applyEasing(65535) = 65535`; in
the smoothstep branch `2 * t3 ≤ 3 * t2 ≤ 65536 + 2 * t3`, so the unsigned
subtraction neither underflows nor exceeds 65536, and the value returned is
that difference. -/
theorem applyEasing_range (s : LampController) (t : Nat) (ht : t ≤ 65536) :
    applyEasing s t ≤ 65536 ∧ applyEasing s 0 = 0 ∧ applyEasing s 65535 = 65535
      ∧ 2 * (t * t / 65536 * t / 65536) ≤ 3 * (t * t / 65536)
      ∧ 3 * (t * t / 65536) - 2 * (t * t / 65536 * t / 65536) ≤ 65536
      ∧ ((s.getFadeCurve = FadeCurve.EaseInOut ∨ s.getFadeCurve = FadeCurve.Smoothstep) →
          0 < t → t < 65535 →
          applyEasing s t = 3 * (t * t / 65536) - 2 * (t * t / 65536 * t / 65536)) := by
  have hs := smoothstep_terms t ht
  refine ⟨applyEasing_le s t, applyEasing_zero s, applyEasing_top s 65535 (le_refl _), hs.1,
    by omega, ?_⟩
  intro hc h0 h1
  rw [applyEasing_mid s t h0 h1]
  unfold getFadeCurve at hc
  rcases hc with hc | hc <;> rw [hc]

theorem applyEasing_range_witness :
    applyEasing (setFadeCurve {} FadeCurve.Smoothstep) 65534 ≤ 65536
      ∧ applyEasing (setFadeCurve {} FadeCurve.Smoothstep) 65534
          = 3 * (65534 * 65534 / 65536) - 2 * (65534 * 65534 / 65536 * 65534 / 65536) :=
  ⟨(applyEasing_range (setFadeCurve {} FadeCurve.Smoothstep) 65534 (by decide)).1,
    (applyEasing_range (setFadeCurve {} FadeCurve.Smoothstep) 65534
      (by decide)).2.2.2.2.2 (Or.inr rfl) (by decide) (by decide)⟩

end LampController

/-! ## The interpolated brightness -/

namespace LampController

theorem i32_id (x : Int) (h1 : -2147483648 ≤ x) (h2 : x < 2147483648) : i32 x = x := by
  unfold i32
  dsimp only
  split <;> omega

/-- The interpolated brightness without the machine wrappers. -/
theorem fadeValue_eq (g b T : Nat) (hb : b ≤ 255) (hg : g ≤ 255) (hT : T ≤ 65536) :
    fadeValue g b T = u8 ((b : Int) + ((g : Int) - b) * T / 65536) := by
  unfold fadeValue
  dsimp only
  have hT1 : i32 (T : Int) = T := i32_id _ (by omega) (by omega)
  have hP1 : -255 * 65536 ≤ ((g : Int) - b) * T := by nlinarith
  have hP2 : ((g : Int) - b) * T ≤ 255 * 65536 := by nlinarith
  rw [hT1, i32_id ((b : Int) * 65536) (by omega) (by omega)]
  generalize ((g : Int) - b) * T = P at hP1 hP2
  rw [i32_id P (by omega) (by omega), i32_id _ (by omega) (by omega)]
  congr 1
  omega

/-- A rising fade: the value stays between start and target and follows the
progress upward. -/
theorem fadeValue_up (g b T1 T2 : Nat) (hbg : b ≤ g) (hg : g ≤ 255) (h12 : T1 ≤ T2)
    (hT : T2 ≤ 65536) :
    b ≤ fadeValue g b T1 ∧ fadeValue g b T1 ≤ fadeValue g b T2 ∧ fadeValue g b T2 ≤ g := by
  rw [fadeValue_eq g b T1 (by omega) hg (by omega), fadeValue_eq g b T2 (by omega) hg hT]
  have hd : (0 : Int) ≤ (g : Int) - b := by omega
  have h0 : 0 ≤ ((g : Int) - b) * T1 := mul_nonneg hd (by omega)
  have h1 : ((g : Int) - b) * T1 ≤ ((g : Int) - b) * T2 :=
    mul_le_mul_of_nonneg_left (by exact_mod_cast h12) hd
  have h2 : ((g : Int) - b) * T2 ≤ ((g : Int) - b) * 65536 :=
    mul_le_mul_of_nonneg_left (by exact_mod_cast hT) hd
  generalize ((g : Int) - b) * T1 = P1 at h0 h1
  generalize ((g : Int) - b) * T2 = P2 at h1 h2
  unfold u8
  omega

/-- A falling fade: the value stays between target and start and follows the
progress downward. -/
theorem fadeValue_down (g b T1 T2 : Nat) (hgb : g ≤ b) (hb : b ≤ 255) (h12 : T1 ≤ T2)
    (hT : T2 ≤ 65536) :
    g ≤ fadeValue g b T2 ∧ fadeValue g b T2 ≤ fadeValue g b T1 ∧ fadeValue g b T1 ≤ b := by
  rw [fadeValue_eq g b T1 hb (by omega) (by omega), fadeValue_eq g b T2 hb (by omega) hT]
  have hd : (g : Int) - b ≤ 0 := by omega
  have h0 : ((g : Int) - b) * T1 ≤ 0 := mul_nonpos_of_nonpos_of_nonneg hd (by omega)
  have h1 : ((g : Int) - b) * T2 ≤ ((g : Int) - b) * T1 :=
    mul_le_mul_of_nonpos_left (by exact_mod_cast h12) hd
  have h2 : ((g : Int) - b) * 65536 ≤ ((g : Int) - b) * T2 :=
    mul_le_mul_of_nonpos_left (by exact_mod_cast hT) hd
  generalize ((g : Int) - b) * T1 = P1 at h0 h1
  generalize ((g : Int) - b) * T2 = P2 at h1 h2
  unfold u8
  omega

theorem fadeValue_zero (g b : Nat) (hb : b ≤ 255) (hg : g ≤ 255) : fadeValue g b 0 = b := by
  rw [fadeValue_eq g b 0 hb hg (by omega)]
  unfold u8
  simp only [Nat.cast_zero, mul_zero, Int.zero_ediv, add_zero]
  omega

/-- The raw progress of a fade whose clock has not passed its duration. -/
theorem fadeProgress_eq (s : LampController) (e D : Nat) (he : e ≤ D) (hD : D ≤ 65535) :
    fadeProgress s e D = applyEasing s (e * 65536 / D) := by
  unfold fadeProgress
  have h1 : e * 65536 < 18446744073709551616 := by omega
  rw [Nat.mod_eq_of_lt h1]
  have h2 : e * 65536 / D ≤ e * 65536 := Nat.div_le_self _ _
  rw [u32_natCast _ (by omega)]

theorem fadeProgress_le (s : LampController) (e D : Nat) : fadeProgress s e D ≤ 65536 :=
  applyEasing_le s _

theorem fadeProgress_mono (s : LampController) (e1 e2 D : Nat) (h : e1 ≤ e2) (he : e2 ≤ D)
    (hD : D ≤ 65535)
    (hc : s.m_curve = FadeCurve.Linear ∨ s.m_curve = FadeCurve.EaseIn
      ∨ s.m_curve = FadeCurve.EaseOut) : fadeProgress s e1 D ≤ fadeProgress s e2 D := by
  rw [fadeProgress_eq s e1 D (by omega) hD, fadeProgress_eq s e2 D he hD]
  exact applyEasing_mono_plain s _ _ (Nat.div_le_div_right (Nat.mul_le_mul_right _ h)) hc

end LampController

namespace LampController

theorem fadeProgress_congr {s r : LampController} (h : r.m_curve = s.m_curve) (e D : Nat) :
    fadeProgress r e D = fadeProgress s e D := by
  unfold fadeProgress applyEasing
  rw [h]

/-- The outcome of one `advanceFade` with the brightness it leaves: on the
target with the fade stopped, or on the interpolation line from `st` with the
clock one step further. -/
theorem advanceFade_trace (s : LampController) (e st : Nat) :
    ((advanceFade s e st).1.m_fadeActive = false
        ∧ (advanceFade s e st).1.m_brightness = s.m_targetBrightness)
      ∨ ((advanceFade s e st).1.m_fadeActive = s.m_fadeActive
        ∧ (advanceFade s e st).2.1 = (e + STEP_MS) % 4294967296
        ∧ (advanceFade s e st).2.1 < s.m_fadeDurationMs
        ∧ (advanceFade s e st).2.2.1 = st
        ∧ (advanceFade s e st).1.m_brightness
            = fadeValue s.m_targetBrightness st
                (fadeProgress s ((e + STEP_MS) % 4294967296) s.m_fadeDurationMs)) := by
  unfold advanceFade
  split
  · left
    exact ⟨rfl, by simp only [cancelFade, renderBrightness_m_brightness]⟩
  · dsimp only
    split
    · rename_i hc
      obtain ⟨ht, hd⟩ := target_of_eraseBrightness (eraseBrightness_renderBrightness s
        (fadeValue s.m_targetBrightness st
          (fadeProgress s (stepElapsed e s.m_fadeDurationMs) s.m_fadeDurationMs)))
      rw [hd, ht]
      split
      · left
        refine ⟨rfl, ?_⟩
        split
        · simp only [cancelFade, renderBrightness_m_brightness]
        · rename_i h2
          simpa [cancelFade] using h2
      · rename_i h2
        right
        obtain ⟨h3, h4⟩ := stepElapsed_lt _ _ h2
        refine ⟨renderBrightness_m_fadeActive _ _, h3, h4, rfl, ?_⟩
        rw [renderBrightness_m_brightness, h3]
    · rename_i hc
      split
      · left
        refine ⟨rfl, ?_⟩
        split
        · simp only [cancelFade, renderBrightness_m_brightness]
        · rename_i h2
          simpa [cancelFade] using h2
      · rename_i h2
        right
        obtain ⟨h3, h4⟩ := stepElapsed_lt _ _ h2
        refine ⟨rfl, h3, h4, rfl, ?_⟩
        rw [← h3]
        exact (not_not.mp hc).symm

/-- One brightness section with the fade active, with the brightness it leaves. -/
theorem tickBrightness_trace (s : LampController) (l : TaskLocals)
    (h : s.m_fadeActive = true) :
    ((tickBrightness s l).1.m_fadeActive = false
        ∧ (tickBrightness s l).1.m_brightness = s.m_targetBrightness)
      ∨ ((tickBrightness s l).1.m_fadeActive = true
        ∧ (tickBrightness s l).2.lastTarget = s.m_targetBrightness
        ∧ (tickBrightness s l).2.elapsed < s.m_fadeDurationMs
        ∧ (tickBrightness s l).2.elapsed = (nextElapsed ⟨s, l, Preferences.empty⟩ + STEP_MS)
            % 4294967296
        ∧ (tickBrightness s l).2.start = nextStart ⟨s, l, Preferences.empty⟩
        ∧ (tickBrightness s l).1.m_brightness
            = fadeValue s.m_targetBrightness (nextStart ⟨s, l, Preferences.empty⟩)
                (fadeProgress s ((nextElapsed ⟨s, l, Preferences.empty⟩ + STEP_MS)
                  % 4294967296) s.m_fadeDurationMs)) := by
  unfold tickBrightness nextElapsed nextStart
  by_cases hc : s.m_targetBrightness = l.lastTarget
  · have hn : ¬ (s.m_fadeActive = true ∧ s.m_targetBrightness ≠ l.lastTarget) :=
      fun h2 => h2.2 hc
    simp only [if_neg hn, if_pos h, if_pos hc]
    rcases advanceFade_trace s l.elapsed l.start with h1 | ⟨h1, h2, h3, h4, h5⟩
    · exact Or.inl h1
    · exact Or.inr ⟨h1.trans h, hc.symm, h3, h2, h4, h5⟩
  · have hn : s.m_fadeActive = true ∧ s.m_targetBrightness ≠ l.lastTarget := ⟨h, hc⟩
    simp only [if_pos hn, if_pos h, if_neg hc]
    rcases advanceFade_trace s 0 s.m_brightness with h1 | ⟨h1, h2, h3, h4, h5⟩
    · exact Or.inl h1
    · exact Or.inr ⟨h1.trans h, trivial, h3, h2, h4, h5⟩

end LampController

/-! ## A brightness fade followed through the task -/

open LampController in
/-- One iteration as the brightness fade sees it. -/
theorem taskLoop_brightness (fx : EffectFrame) (now : Nat) (c : Sys)
    (hd : ColorFadeOk c.lamp) :
    ∃ c1, taskLoop fx now c = some c1
      ∧ brightnessView c1.lamp = brightnessView (tickBrightness c.lamp c.loc).1
      ∧ c1.loc.elapsed = (tickBrightness c.lamp c.loc).2.elapsed
      ∧ c1.loc.lastTarget = (tickBrightness c.lamp c.loc).2.lastTarget
      ∧ c1.loc.start = (tickBrightness c.lamp c.loc).2.start
      ∧ staticView c1.lamp = staticView c.lamp
      ∧ ColorFadeOk c1.lamp := by
  obtain ⟨c1, k, h1, hk, hbv, hel, hlt, -, hloc, hst, -, -, -, hok⟩ := taskLoop_step fx now c hd
  refine ⟨c1, h1, hbv, hel, hlt, ?_, hst, hok⟩
  have hb := tickBrightness_frame c.lamp c.loc
  have hbc := colorView_of_eraseBrightness hb
  have hd1 : (tickBrightness c.lamp c.loc).1.m_colorFadeActive = true →
      (tickBrightness c.lamp c.loc).1.m_colorFadeDurationMs ≠ 0 := by
    simp only [colorView, Prod.mk.injEq] at hbc
    intro h
    rw [hbc.2.1]
    exact hd (hbc.1 ▸ h)
  obtain ⟨r, hr, -, -, hs, -⟩ :=
    tickColor_defined (tickBrightness c.lamp c.loc).1 (tickBrightness c.lamp c.loc).2 hd1
  rw [hk] at hr
  cases hr
  rw [hloc]
  exact hs

theorem fadeTrack_between {b0 g k : Nat} {c : Sys} (h : FadeTrack b0 g k c)
    (hb0 : b0 ≤ 100) (hg : g ≤ 100) :
    (b0 ≤ g → b0 ≤ c.lamp.m_brightness ∧ c.lamp.m_brightness ≤ g)
      ∧ (g ≤ b0 → g ≤ c.lamp.m_brightness ∧ c.lamp.m_brightness ≤ b0) := by
  rcases h with ⟨-, h2⟩ | ⟨-, -, -, -, -, -, h7⟩
  · rw [h2]
    exact ⟨fun h => ⟨h, le_refl _⟩, fun h => ⟨le_refl _, h⟩⟩
  · rw [h7]
    have hT := LampController.fadeProgress_le c.lamp (nextElapsed c) c.lamp.m_fadeDurationMs
    constructor
    · intro hle
      have := LampController.fadeValue_up g b0 _ _ hle (by omega) (le_refl _) hT
      exact ⟨this.1, this.2.2⟩
    · intro hle
      have := LampController.fadeValue_down g b0 _ _ hle (by omega) (le_refl _) hT
      exact ⟨this.1, this.2.2⟩

theorem fadeTrack_mono {b0 g k k1 : Nat} {c : Sys} (h : FadeTrack b0 g k c) (hk : k ≤ k1) :
    FadeTrack b0 g k1 c := by
  rcases h with h | ⟨h1, h2, h3, h4, h5, h6, h7⟩
  · exact Or.inl h
  · refine Or.inr ⟨h1, h2, h3, h4, h5, ?_, h7⟩
    have : STEP_MS * k ≤ STEP_MS * k1 := Nat.mul_le_mul_left _ hk
    omega

open LampController in
/-- One iteration on a tracked brightness fade: it lands, or moves one step
along the interpolation line, toward the target on a curve with monotone
easing. -/
theorem fadeTrack_step (fx : EffectFrame) (now b0 g k : Nat) (c : Sys) (hb0 : b0 ≤ 100)
    (hg : g ≤ 100) (hd : ColorFadeOk c.lamp) (h : FadeTrack b0 g k c) :
    ∃ c1, taskLoop fx now c = some c1 ∧ FadeTrack b0 g (k - 1) c1
      ∧ (c1.lamp.m_fadeActive = true → nextElapsed c1 < c1.lamp.m_fadeDurationMs)
      ∧ ColorFadeOk c1.lamp ∧ staticView c1.lamp = staticView c.lamp
      ∧ (PlainCurve c.lamp →
          (b0 ≤ g → c.lamp.m_brightness ≤ c1.lamp.m_brightness)
            ∧ (g ≤ b0 → c1.lamp.m_brightness ≤ c.lamp.m_brightness)) := by
  obtain ⟨c1, h1, hbv, hel, hlt, hstart, hst, hok⟩ := taskLoop_brightness fx now c hd
  refine ⟨c1, h1, ?_⟩
  obtain ⟨htg, hdur⟩ := target_of_eraseBrightness (tickBrightness_frame c.lamp c.loc)
  simp only [brightnessView, Prod.mk.injEq] at hbv
  obtain ⟨hb1, hb2, hb3, hb4⟩ := hbv
  have hbet := fadeTrack_between h hb0 hg
  have hcurve : c1.lamp.m_curve = c.lamp.m_curve := by
    have := hst
    simp only [staticView, Prod.mk.injEq] at this
    exact this.2.2.2.2.2.1
  rcases h with ⟨hs1, hs2⟩ | ⟨ha, ht, hs, hle, hlo, hhi, hbr⟩
  · rw [tickBrightness_idle c.lamp c.loc hs1] at hb1 hb2
    refine ⟨Or.inl ⟨hb2.trans hs1, hb1.trans hs2⟩, ?_, hok, hst, ?_⟩
    · intro h2
      rw [hb2, hs1] at h2
      cases h2
    · intro _
      rw [hb1]
      exact ⟨fun _ => le_refl _, fun _ => le_refl _⟩
  · rcases tickBrightness_trace c.lamp c.loc ha with ⟨h5, h6⟩ | ⟨h5, h6, h7, h8, h9, h10⟩
    · have hland : c1.lamp.m_brightness = g := hb1.trans (h6.trans ht)
      refine ⟨Or.inl ⟨hb2.trans h5, hland⟩, ?_, hok, hst, ?_⟩
      · intro h2
        rw [hb2, h5] at h2
        cases h2
      · intro _
        rw [hland]
        exact ⟨fun hle => (hbet.1 hle).2, fun hle => (hbet.2 hle).1⟩
    · have hne : nextElapsed ⟨c.lamp, c.loc, Preferences.empty⟩ = nextElapsed c := rfl
      have hns : nextStart ⟨c.lamp, c.loc, Preferences.empty⟩ = nextStart c := rfl
      rw [hne] at h8 h10
      rw [hns] at h9 h10
      have hmod : (nextElapsed c + STEP_MS) % 4294967296 = nextElapsed c + STEP_MS := by
        simp only [STEP_MS]
        omega
      rw [hmod] at h8 h10
      have htgt1 : c1.lamp.m_targetBrightness = g := hb3.trans (htg.trans ht)
      have hseen : c1.lamp.m_targetBrightness = c1.loc.lastTarget := by
        rw [htgt1, hlt, h6, ht]
      have hne1 : nextElapsed c1 = nextElapsed c + STEP_MS := by
        unfold nextElapsed
        rw [if_pos hseen, hel, h8]
        rfl
      have hns1 : nextStart c1 = b0 := by
        unfold nextStart
        rw [if_pos hseen, hstart, h9, hs]
      have hD1 : c1.lamp.m_fadeDurationMs = c.lamp.m_fadeDurationMs := hb4.trans hdur
      have hbr1 : c1.lamp.m_brightness = fadeValue g b0
          (fadeProgress c.lamp (nextElapsed c + STEP_MS) c.lamp.m_fadeDurationMs) := by
        rw [hb1, h10, ht, hs]
      have hlt1 : nextElapsed c + STEP_MS < c.lamp.m_fadeDurationMs := by
        rw [← h8]; exact h7
      refine ⟨Or.inr ⟨hb2.trans h5, htgt1, hns1, ?_, ?_, ?_, ?_⟩, ?_, hok, hst, ?_⟩
      · rw [hD1]; exact hle
      · rw [hD1, hne1]; exact Nat.le_of_lt hlt1
      · rw [hD1, hne1]
        simp only [STEP_MS] at hhi hlt1 ⊢
        omega
      · rw [hbr1, hD1, hne1, fadeProgress_congr hcurve]
      · intro _
        rw [hD1, hne1]
        exact hlt1
      · intro hpc
        rw [hbr1, hbr]
        have hm := fadeProgress_mono c.lamp (nextElapsed c) (nextElapsed c + STEP_MS)
          c.lamp.m_fadeDurationMs (Nat.le_add_right _ _) (Nat.le_of_lt hlt1) hle hpc
        have hT := fadeProgress_le c.lamp (nextElapsed c + STEP_MS) c.lamp.m_fadeDurationMs
        constructor
        · intro hle2
          exact (fadeValue_up g b0 _ _ hle2 (by omega) hm hT).2.1
        · intro hle2
          exact (fadeValue_down g b0 _ _ hle2 (by omega) hm hT).2.1

theorem fadeTrack_done {b0 g : Nat} {c : Sys} (h : FadeTrack b0 g 0 c)
    (hs : c.lamp.m_fadeActive = true → nextElapsed c < c.lamp.m_fadeDurationMs) :
    c.lamp.m_fadeActive = false ∧ c.lamp.m_brightness = g := by
  rcases h with h | ⟨h1, -, -, -, -, h6, -⟩
  · exact h
  · have := hs h1
    omega

theorem fadeTrack_idle {b0 g k : Nat} {c : Sys} (h : FadeTrack b0 g k c)
    (hi : c.lamp.m_fadeActive = false) : c.lamp.m_brightness = g := by
  rcases h with h | ⟨h1, -⟩
  · exact h.2
  · rw [hi] at h1
    cases h1

/-- A run on a tracked brightness fade whose clock is short of the duration. -/
theorem runTicks_fadeTrack (fx : EffectFrame) (b0 g : Nat) (hb0 : b0 ≤ 100) (hg : g ≤ 100)
    (times : List Nat) :
    ∀ (k : Nat) (c : Sys), ColorFadeOk c.lamp → FadeTrack b0 g k c →
      (times = [] → c.lamp.m_fadeActive = true → nextElapsed c < c.lamp.m_fadeDurationMs) →
      ∃ c1, runTicks fx times c = some c1 ∧ FadeTrack b0 g (k - times.length) c1
        ∧ (c1.lamp.m_fadeActive = true → nextElapsed c1 < c1.lamp.m_fadeDurationMs)
        ∧ ColorFadeOk c1.lamp
        ∧ LampController.staticView c1.lamp = LampController.staticView c.lamp := by
  induction times with
  | nil =>
    intro k c hd h hs
    exact ⟨c, rfl, h, hs rfl, hd, rfl⟩
  | cons now rest ih =>
    intro k c hd h _
    obtain ⟨c1, h1, ht1, hs1, hok1, hst1, -⟩ := fadeTrack_step fx now b0 g k c hb0 hg hd h
    obtain ⟨c2, h2, ht2, hs2, hok2, hst2⟩ := ih (k - 1) c1 hok1 ht1 (fun _ => hs1)
    refine ⟨c2, ?_, ?_, hs2, hok2, hst2.trans hst1⟩
    · simp only [runTicks, h1, h2]
    · have : k - 1 - rest.length = k - (now :: rest).length := by
        simp only [List.length_cons]
        omega
      rw [← this]
      exact ht2

/-- Any run followed by one more iteration on a tracked brightness fade: the
brightness stays between the start and the target, moves toward the target on
a curve with monotone easing, is the target whenever the fade is over, and
the fade is over once the budget of steps is used up. -/
theorem fadeTrack_run (fx : EffectFrame) (b0 g k : Nat) (c : Sys) (ts : List Nat) (t : Nat)
    (hb0 : b0 ≤ 100) (hg : g ≤ 100) (hd : ColorFadeOk c.lamp) (h : FadeTrack b0 g k c) :
    ∃ c1 c2, runTicks fx ts c = some c1 ∧ taskLoop fx t c1 = some c2
      ∧ (b0 ≤ g → b0 ≤ c2.lamp.m_brightness ∧ c2.lamp.m_brightness ≤ g)
      ∧ (g ≤ b0 → g ≤ c2.lamp.m_brightness ∧ c2.lamp.m_brightness ≤ b0)
      ∧ (PlainCurve c.lamp →
          (b0 ≤ g → c1.lamp.m_brightness ≤ c2.lamp.m_brightness)
            ∧ (g ≤ b0 → c2.lamp.m_brightness ≤ c1.lamp.m_brightness))
      ∧ (c2.lamp.m_fadeActive = false → c2.lamp.m_brightness = g)
      ∧ (k ≤ ts.length + 1 → c2.lamp.m_fadeActive = false ∧ c2.lamp.m_brightness = g) := by
  have hrun : ∃ c1, runTicks fx ts c = some c1 ∧ FadeTrack b0 g (k - ts.length) c1
      ∧ ColorFadeOk c1.lamp
      ∧ LampController.staticView c1.lamp = LampController.staticView c.lamp := by
    cases ts with
    | nil => exact ⟨c, rfl, h, hd, rfl⟩
    | cons now rest =>
      obtain ⟨c1, h1, h2, -, h4, h5⟩ :=
        runTicks_fadeTrack fx b0 g hb0 hg (now :: rest) k c hd h (fun h => by cases h)
      exact ⟨c1, h1, h2, h4, h5⟩
  obtain ⟨c1, h1, ht1, hok1, hst1⟩ := hrun
  obtain ⟨c2, h2, ht2, hs2, -, -, hmono⟩ :=
    fadeTrack_step fx t b0 g (k - ts.length) c1 hb0 hg hok1 ht1
  have hbet := fadeTrack_between ht2 hb0 hg
  refine ⟨c1, c2, h1, h2, hbet.1, hbet.2, ?_, fadeTrack_idle ht2, ?_⟩
  · intro hpc
    apply hmono
    have hcurve : c1.lamp.m_curve = c.lamp.m_curve := by
      have := hst1
      simp only [LampController.staticView, Prod.mk.injEq] at this
      exact this.2.2.2.2.2.1
    unfold PlainCurve
    rw [hcurve]
    exact hpc
  · intro hk
    have hz : k - ts.length - 1 = 0 := by omega
    rw [hz] at ht2
    exact fadeTrack_done ht2 hs2

theorem fadeProgress_start (s : LampController) (D : Nat) :
    LampController.fadeProgress s 0 D = 0 := by
  unfold LampController.fadeProgress
  simp only [Nat.zero_mul, Nat.zero_mod, Nat.zero_div]
  rfl

/-- A brightness fade the task will work from the live brightness is tracked,
with one step per `STEP_MS` of its duration to go. -/
theorem fadeTrack_armed (c : Sys) (b0 g : Nat) (hact : c.lamp.m_fadeActive = true)
    (htgt : c.lamp.m_targetBrightness = g) (hbr : c.lamp.m_brightness = b0)
    (hfresh : c.lamp.m_targetBrightness ≠ c.loc.lastTarget
      ∨ (c.loc.start = c.lamp.m_brightness ∧ c.loc.elapsed = 0))
    (hb0 : b0 ≤ 100) (hg : g ≤ 100) (hD : c.lamp.m_fadeDurationMs ≤ 65535) :
    FadeTrack b0 g ((c.lamp.m_fadeDurationMs + 9) / 10) c := by
  have hs : nextStart c = b0 := by
    unfold nextStart
    rcases hfresh with h | h
    · rw [if_neg h, hbr]
    · split
      · rw [h.1, hbr]
      · exact hbr
  have he : nextElapsed c = 0 := by
    unfold nextElapsed
    rcases hfresh with h | h
    · rw [if_neg h]
    · split
      · exact h.2
      · rfl
  refine Or.inr ⟨hact, htgt, hs, hD, ?_, ?_, ?_⟩
  · rw [he]; exact Nat.zero_le _
  · rw [he]
    simp only [STEP_MS]
    omega
  · rw [he, fadeProgress_start, LampController.fadeValue_zero g b0 (by omega) (by omega)]
    exact hbr

namespace LampController

theorem setBrightness_curve (s : LampController) (b f e : Nat) :
    (s.setBrightness b f e).m_curve = s.m_curve := by
  have key : ∀ V P : Nat,
      (send_ui_event
        (if P > 0 then
          { (if f > 0 then fadeToBrightness s V f
              else update { cancelFade s with m_brightness := V }) with
            m_savedOnBrightness := P, m_dirty_br := true }
          else (if f > 0 then fadeToBrightness s V f
              else update { cancelFade s with m_brightness := V }))
        UI_EVENT_BRIGHTNESS P e).m_curve = s.m_curve := by
    intro V P
    by_cases hP : P > 0 <;> by_cases hf : f > 0 <;>
      simp [hP, hf, send_ui_event, fadeToBrightness, cancelFade]
  unfold setBrightness
  dsimp only
  split
  · exact key _ _
  · rfl

/-- A brightness fade armed by `fadeToBrightness` from the live brightness up to
a target `g ≤ 100`, on the linear curve, when the task is at rest or new to the
target: after every iteration of the task the brightness is at least what it
was after the previous one and at most `g`, and on the iteration at which the
elapsed time reaches the stored duration, and on every later one, it is
exactly `g` with the fade inactive. -/
theorem linear_fade_rises (fx : EffectFrame) (c : Sys) (g d : Nat) (ts : List Nat) (t : Nat)
    (hfresh : g ≠ c.loc.lastTarget
      ∨ (c.loc.start = c.lamp.m_brightness ∧ c.loc.elapsed = 0))
    (hs : c.lamp.m_brightness ≤ g) (hg : g ≤ 100)
    (hlin : c.lamp.m_curve = FadeCurve.Linear) (hok : ColorFadeOk c.lamp) :
    ∃ c1 c2, runTicks fx ts ⟨c.lamp.fadeToBrightness g d, c.loc, c.prefs⟩ = some c1
      ∧ taskLoop fx t c1 = some c2
      ∧ c.lamp.getBrightness ≤ c2.lamp.getBrightness
      ∧ c1.lamp.getBrightness ≤ c2.lamp.getBrightness
      ∧ c2.lamp.getBrightness ≤ g
      ∧ (c2.lamp.isFading = false → c2.lamp.getBrightness = g)
      ∧ ((c.lamp.fadeToBrightness g d).m_fadeDurationMs ≤ STEP_MS * (ts.length + 1) →
          c2.lamp.getBrightness = g ∧ c2.lamp.isFading = false) := by
  obtain ⟨hf1, hf2, -, hf4, hf5, hf6, -⟩ := fadeToBrightness_fields c.lamp g d
  have hg1 : ¬ g > 100 := by omega
  rw [if_neg hg1] at hf2
  have hD := (fadeToBrightness_duration_le c.lamp g d).1
  have hok1 : ColorFadeOk (c.lamp.fadeToBrightness g d) := by
    simp only [colorView, Prod.mk.injEq] at hf5
    intro h
    rw [hf5.2.1]
    exact hok (hf5.1 ▸ h)
  have hcurve : (c.lamp.fadeToBrightness g d).m_curve = c.lamp.m_curve := rfl
  have htrack := fadeTrack_armed ⟨c.lamp.fadeToBrightness g d, c.loc, c.prefs⟩
    c.lamp.m_brightness g hf1 hf2 hf4
    (by
      rcases hfresh with h | h
      · exact Or.inl (by rw [hf2]; exact h)
      · exact Or.inr ⟨h.1.trans hf4.symm, h.2⟩)
    (by omega) hg hD
  obtain ⟨c1, c2, h1, h2, hup, -, hmono, hidle, hland⟩ :=
    fadeTrack_run fx c.lamp.m_brightness g _
      ⟨c.lamp.fadeToBrightness g d, c.loc, c.prefs⟩ ts t (by omega) hg hok1 htrack
  refine ⟨c1, c2, h1, h2, (hup hs).1, (hmono (Or.inl (hcurve.trans hlin))).1 hs, (hup hs).2,
    hidle, ?_⟩
  intro hle
  have hk : ((c.lamp.fadeToBrightness g d).m_fadeDurationMs + 9) / 10 ≤ ts.length + 1 := by
    simp only [STEP_MS] at hle
    omega
  exact (hland hk).symm

theorem linear_fade_rises_witness :
    (20 : Nat) ≤ 80 ∧ (80 : Nat) ≤ 100
      ∧ ∃ c1 c2, runTicks (fun _ _ => []) [10, 20]
            ⟨({ m_brightness := 20 } : LampController).fadeToBrightness 80 1000,
              TaskLocals.entry { m_brightness := 20 }, Preferences.empty⟩ = some c1
          ∧ taskLoop (fun _ _ => []) 30 c1 = some c2
          ∧ 20 ≤ c2.lamp.getBrightness
          ∧ c1.lamp.getBrightness ≤ c2.lamp.getBrightness
          ∧ c2.lamp.getBrightness ≤ 80
          ∧ (c2.lamp.isFading = false → c2.lamp.getBrightness = 80)
          ∧ ((({ m_brightness := 20 } : LampController).fadeToBrightness 80
                1000).m_fadeDurationMs ≤ STEP_MS * (([10, 20] : List Nat).length + 1) →
              c2.lamp.getBrightness = 80 ∧ c2.lamp.isFading = false) :=
  ⟨by decide, by decide,
    linear_fade_rises (fun _ _ => [])
      ⟨{ m_brightness := 20 }, TaskLocals.entry { m_brightness := 20 }, Preferences.empty⟩
      80 1000 [10, 20] 30 (Or.inr ⟨rfl, rfl⟩) (by decide) (by decide) rfl
      (fun h => Bool.noConfusion h)⟩

end LampController

namespace LampController

/-- With the lamp on and a brightness fade toward the mapped value of 80 (82)
that the task has picked up, or that was requested on a lamp at rest and has
not been run yet, `setBrightness(30, fade_ms)` for any `fade_ms` makes the
brightness after every later iteration lie between the live brightness at the
call and the mapped value of 30 (so never above the live brightness when that
is above the new target), move toward the mapped value on a curve with
monotone easing (linear, the default, ease-in, ease-out), and equal it
whenever the fade is over, which it is once the stored duration has elapsed. -/
theorem retrigger_converges (fx : EffectFrame) (c : Sys) (fade_ms excludeMask : Nat)
    (ts : List Nat) (t : Nat) (hon : c.lamp.isOn = true)
    (htgt : c.lamp.m_targetBrightness = u8 (map 80 1 100 kMinVisibleBrightness 100))
    (hseen : c.loc.lastTarget = c.lamp.m_targetBrightness
      ∨ (c.loc.start = c.lamp.m_brightness ∧ c.loc.elapsed = 0))
    (hb : c.lamp.getBrightness ≤ 100) (hok : ColorFadeOk c.lamp) :
    ∃ c1 c2, runTicks fx ts ⟨c.lamp.setBrightness 30 fade_ms excludeMask, c.loc, c.prefs⟩
          = some c1
      ∧ taskLoop fx t c1 = some c2
      ∧ (c.lamp.getBrightness ≤ u8 (map 30 1 100 kMinVisibleBrightness 100) →
          c.lamp.getBrightness ≤ c2.lamp.getBrightness
            ∧ c2.lamp.getBrightness ≤ u8 (map 30 1 100 kMinVisibleBrightness 100))
      ∧ (u8 (map 30 1 100 kMinVisibleBrightness 100) ≤ c.lamp.getBrightness →
          u8 (map 30 1 100 kMinVisibleBrightness 100) ≤ c2.lamp.getBrightness
            ∧ c2.lamp.getBrightness ≤ c.lamp.getBrightness)
      ∧ (PlainCurve c.lamp →
          (c.lamp.getBrightness ≤ u8 (map 30 1 100 kMinVisibleBrightness 100) →
              c1.lamp.getBrightness ≤ c2.lamp.getBrightness)
            ∧ (u8 (map 30 1 100 kMinVisibleBrightness 100) ≤ c.lamp.getBrightness →
              c2.lamp.getBrightness ≤ c1.lamp.getBrightness))
      ∧ (c2.lamp.isFading = false →
          c2.lamp.getBrightness = u8 (map 30 1 100 kMinVisibleBrightness 100))
      ∧ ((c.lamp.setBrightness 30 fade_ms excludeMask).m_fadeDurationMs
            ≤ STEP_MS * (ts.length + 1) →
          c2.lamp.isFading = false
            ∧ c2.lamp.getBrightness = u8 (map 30 1 100 kMinVisibleBrightness 100)) := by
  have h37 : u8 (map 30 1 100 kMinVisibleBrightness 100) = 37 := by decide
  have h82 : u8 (map 80 1 100 kMinVisibleBrightness 100) = 82 := by decide
  have h37n : u8 (map ((30 : Nat) : Int) 1 100 kMinVisibleBrightness 100) = 37 := by decide
  rw [h82] at htgt
  simp only [h37]
  have hcurve := setBrightness_curve c.lamp 30 fade_ms excludeMask
  have hpc : PlainCurve c.lamp → PlainCurve (c.lamp.setBrightness 30 fade_ms excludeMask) := by
    unfold PlainCurve
    rw [hcurve]
    exact id
  have htrack : ∃ k, FadeTrack c.lamp.m_brightness 37 k
        ⟨c.lamp.setBrightness 30 fade_ms excludeMask, c.loc, c.prefs⟩
      ∧ ColorFadeOk (c.lamp.setBrightness 30 fade_ms excludeMask)
      ∧ ((c.lamp.setBrightness 30 fade_ms excludeMask).m_fadeDurationMs
            ≤ STEP_MS * (ts.length + 1) → k ≤ ts.length + 1) := by
    rcases Nat.eq_zero_or_pos fade_ms with hf | hf
    · subst hf
      obtain ⟨h1, h2, -, -, -, -, -, -, hcv⟩ :=
        setBrightness_snap_fields c.lamp 30 excludeMask (by decide) (by decide) hon
      rw [h37n] at h1
      refine ⟨0, Or.inl ⟨h2, h1⟩, ?_, fun _ => Nat.zero_le _⟩
      simp only [colorView, Prod.mk.injEq] at hcv
      intro h
      rw [hcv.2.1]
      exact hok (hcv.1 ▸ h)
    · obtain ⟨h1, h2, h3, h4, -, -, -, -, -, hcv⟩ :=
        setBrightness_fade_fields c.lamp 30 fade_ms excludeMask (by decide) (by decide) hf hon
      rw [h37n] at h2
      have h2' : (c.lamp.setBrightness 30 fade_ms excludeMask).m_targetBrightness = 37 := by
        rw [h2]; rfl
      have hD : (c.lamp.setBrightness 30 fade_ms excludeMask).m_fadeDurationMs ≤ 65535 := by
        rw [h3]
        exact (fadeToBrightness_duration_le _ _ _).1
      refine ⟨_, fadeTrack_armed ⟨c.lamp.setBrightness 30 fade_ms excludeMask, c.loc, c.prefs⟩
        c.lamp.m_brightness 37 h1 h2' h4 ?_ hb (by decide) hD, ?_, ?_⟩
      · rcases hseen with hs | hs
        · left
          show (c.lamp.setBrightness 30 fade_ms excludeMask).m_targetBrightness
            ≠ c.loc.lastTarget
          rw [h2', hs, htgt]
          decide
        · right
          exact ⟨hs.1.trans h4.symm, hs.2⟩
      · simp only [colorView, Prod.mk.injEq] at hcv
        intro h
        rw [hcv.2.1]
        exact hok (hcv.1 ▸ h)
      · intro hle
        show ((c.lamp.setBrightness 30 fade_ms excludeMask).m_fadeDurationMs + 9) / 10
          ≤ ts.length + 1
        simp only [STEP_MS] at hle
        omega
  obtain ⟨k, hk, hok1, hbudget⟩ := htrack
  obtain ⟨c1, c2, h1, h2, hup, hdown, hmono, hidle, hland⟩ :=
    fadeTrack_run fx c.lamp.m_brightness 37 k
      ⟨c.lamp.setBrightness 30 fade_ms excludeMask, c.loc, c.prefs⟩ ts t hb (by decide) hok1 hk
  exact ⟨c1, c2, h1, h2, hup, hdown, fun h => hmono (hpc h), hidle,
    fun hle => hland (hbudget hle)⟩

theorem retrigger_converges_witness :
    ∃ c1 c2, runTicks (fun _ _ => []) [10, 20]
          ⟨({ m_on := true, m_fadeActive := true, m_targetBrightness := 82,
              m_fadeDurationMs := 500, m_brightness := 60 } : LampController).setBrightness
            30 300 0, ⟨100, 0, 50, 82, 0, CRGB.Black, true⟩, Preferences.empty⟩ = some c1
      ∧ taskLoop (fun _ _ => []) 30 c1 = some c2
      ∧ 37 ≤ c2.lamp.getBrightness ∧ c2.lamp.getBrightness ≤ 60
      ∧ c2.lamp.getBrightness ≤ c1.lamp.getBrightness
      ∧ (c2.lamp.isFading = false → c2.lamp.getBrightness = 37) := by
  obtain ⟨c1, c2, h1, h2, -, h4, h5, h6, -⟩ := retrigger_converges (fun _ _ => [])
    ⟨{ m_on := true, m_fadeActive := true, m_targetBrightness := 82,
        m_fadeDurationMs := 500, m_brightness := 60 },
      ⟨100, 0, 50, 82, 0, CRGB.Black, true⟩, Preferences.empty⟩ 300 0 [10, 20] 30
    rfl (by decide) (Or.inl rfl) (by decide) (fun h => Bool.noConfusion h)
  exact ⟨c1, c2, h1, h2, (h4 (by decide)).1, (h4 (by decide)).2,
    (h5 (Or.inl rfl)).2 (by decide), h6⟩

/-- C18: a power-on fade from 0 toward 55 has reached 24 after five
iterations; the same power-on is then requested again with a longer nominal
duration.  The target is unchanged, so the next iteration keeps the old start
and clock, and the brightness drops from 24 back to 0, outside the span
between the live brightness at the call and the target. -/
theorem same_target_retrigger_snaps_back :
    (runTicks (fun _ _ => []) [10, 20, 30, 40, 50] poweringOn).map
        (fun c => (c.lamp.getBrightness, c.lamp.isFading, c.lamp.m_targetBrightness))
        = some (24, true, 55)
      ∧ ((runTicks (fun _ _ => []) [10, 20, 30, 40, 50] poweringOn).map
          (fun c => ((powerOnAgain c).lamp.getBrightness, (powerOnAgain c).lamp.isFading,
            (powerOnAgain c).lamp.m_targetBrightness))) = some (24, true, 55)
      ∧ ((runTicks (fun _ _ => []) [10, 20, 30, 40, 50] poweringOn).bind
          (fun c => taskLoop (fun _ _ => []) 60 (powerOnAgain c))).map
          (fun c => (c.lamp.getBrightness, c.lamp.isFading)) = some (0, true) := by
  decide

end LampController

/-! ## Ranges kept by every call -/

namespace LampController

theorem cctSafe_of_view {s r : LampController} (h : cctView r = cctView s) (hs : CctSafe s) :
    CctSafe r := by
  simp only [cctView, Prod.mk.injEq] at h
  obtain ⟨h1, h2, h3, h4, h5, h6, h7⟩ := h
  unfold CctSafe at hs ⊢
  rw [h1, h2, h3, h4, h5, h6, h7]
  exact hs

theorem cctSafe_ok {s : LampController} (h : CctSafe s) : ColorFadeOk s := h.2.2.2

theorem cctView_update (s : LampController) : cctView (update s) = cctView s := by
  unfold update; split <;> rfl

theorem cctView_of_eraseBrightness {s r : LampController}
    (h : eraseBrightness r = eraseBrightness s) : cctView r = cctView s := by
  have h1 := congrArg cctView h
  exact h1

theorem cctView_of_erasePersist {s r : LampController}
    (h : erasePersist r = erasePersist s) : cctView r = cctView s := by
  have h1 := congrArg cctView h
  exact h1

theorem cctView_of_eraseEffect {s r : LampController}
    (h : eraseEffect r = eraseEffect s) : cctView r = cctView s := by
  have h1 := congrArg cctView h
  exact h1

theorem i32_mul_progress (d : Int) (T : Nat) (hd1 : -32767 ≤ d) (hd2 : d ≤ 32767)
    (hT : T ≤ 65536) : i32 (d * i32 (T : Int)) = d * T := by
  have hT1 : i32 (T : Int) = T := i32_id _ (by omega) (by omega)
  rw [hT1]
  have h1 : -32767 * 65536 ≤ d * T := by nlinarith
  have h2 : d * T ≤ 32767 * 65536 := by nlinarith
  exact i32_id _ (by omega) (by omega)

/-- The interpolated colour temperature stays between its start and target. -/
theorem colorValue_range (a b T lo hi : Nat) (ha : lo ≤ a ∧ a ≤ hi) (hb : lo ≤ b ∧ b ≤ hi)
    (hhi : hi ≤ 32767) (hT : T ≤ 65536) :
    lo ≤ u16 (colorValue a b T) ∧ u16 (colorValue a b T) ≤ hi := by
  unfold colorValue
  rw [i32_mul_progress _ T (by omega) (by omega) hT]
  rcases Nat.le_total a b with hab | hab
  · have hd : (0 : Int) ≤ (b : Int) - a := by omega
    have h0 : 0 ≤ ((b : Int) - a) * T := mul_nonneg hd (by omega)
    have h2 : ((b : Int) - a) * T ≤ ((b : Int) - a) * 65536 :=
      mul_le_mul_of_nonneg_left (by exact_mod_cast hT) hd
    generalize ((b : Int) - a) * T = P at h0 h2
    unfold u16
    omega
  · have hd : (b : Int) - a ≤ 0 := by omega
    have h0 : ((b : Int) - a) * T ≤ 0 := mul_nonpos_of_nonpos_of_nonneg hd (by omega)
    have h2 : ((b : Int) - a) * 65536 ≤ ((b : Int) - a) * T :=
      mul_le_mul_of_nonpos_left (by exact_mod_cast hT) hd
    generalize ((b : Int) - a) * T = P at h0 h2
    unfold u16
    omega

theorem colorFadeMix_cctSafe (s : LampController) (T : Nat) (hT : T ≤ 65536)
    (ha : s.m_colorFadeActive = true) (h : CctSafe s) : CctSafe (colorFadeMix s T) := by
  unfold colorFadeMix
  split
  · rename_i hu
    obtain ⟨h1, h2, h3, h4⟩ := h
    obtain ⟨h5, h6⟩ := h3 ha hu
    exact ⟨colorValue_range _ _ T _ _ h5 h6 (by decide) hT, h2, h3, h4⟩
  · exact h

theorem colorFadeLand_cctSafe (s : LampController) (ha : s.m_colorFadeActive = true)
    (h : CctSafe s) : CctSafe (colorFadeStop (update (colorFadeSnap s))) := by
  have hv : cctView (colorFadeStop (update (colorFadeSnap s)))
      = cctView (colorFadeStop (colorFadeSnap s)) := by
    have := cctView_update (colorFadeSnap s)
    simp only [cctView, Prod.mk.injEq] at this ⊢
    obtain ⟨h1, h2, -, h4, h5, h6, h7⟩ := this
    exact ⟨h1, h2, rfl, h4, h5, h6, h7⟩
  have hs : CctSafe (colorFadeStop (colorFadeSnap s)) := by
    obtain ⟨h1, h2, h3, h4⟩ := h
    unfold colorFadeSnap
    split
    · rename_i hf
      exact ⟨h2 hf, fun h => Bool.noConfusion h, fun h => Bool.noConfusion h,
        fun h => Bool.noConfusion h⟩
    · split
      · rename_i hu
        exact ⟨(h3 ha hu).2, h2, fun h => Bool.noConfusion h, fun h => Bool.noConfusion h⟩
      · exact ⟨h1, h2, fun h => Bool.noConfusion h, fun h => Bool.noConfusion h⟩
  exact cctSafe_of_view hv hs

theorem advanceColorFade_cctSafe (s : LampController) (e : Nat)
    (ha : s.m_colorFadeActive = true) (h : CctSafe s) :
    ∃ r, advanceColorFade s e = some r ∧ CctSafe r.1 := by
  have hd : s.m_colorFadeDurationMs ≠ 0 := h.2.2.2 ha
  unfold advanceColorFade
  simp only [if_neg hd]
  have hT := fadeProgress_le s (stepElapsed e s.m_colorFadeDurationMs) s.m_colorFadeDurationMs
  have hm := colorFadeMix_cctSafe s _ hT ha h
  have hflags := colorFadeMix_flags s
    (fadeProgress s (stepElapsed e s.m_colorFadeDurationMs) s.m_colorFadeDurationMs)
  generalize colorFadeMix s
    (fadeProgress s (stepElapsed e s.m_colorFadeDurationMs) s.m_colorFadeDurationMs) = m
    at hm hflags ⊢
  have hu : CctSafe (update m) := cctSafe_of_view (cctView_update m) hm
  have hua : (update m).m_colorFadeActive = true := by
    rw [update_m_colorFadeActive, hflags.1, ha]
  split
  · exact ⟨_, rfl, colorFadeLand_cctSafe _ hua hu⟩
  · exact ⟨_, rfl, hu⟩

theorem tickColor_cctSafe (s : LampController) (l : TaskLocals) (h : CctSafe s) :
    ∃ r, tickColor s l = some r ∧ CctSafe r.1 := by
  by_cases ha : s.m_colorFadeActive = true
  · unfold tickColor
    simp only [if_pos ha]
    obtain ⟨r, hr, hs⟩ := advanceColorFade_cctSafe s
      (if s.m_colorFadeActive = true ∧ colorChanged s l = true
        then ({ l with elapsedColor := 0, lastUseCCT := s.m_useCCT,
                       lastTargetCCT := s.m_targetCCT, lastTargetRGB := s.m_targetRGB }
              : TaskLocals)
        else l).elapsedColor ha h
    rw [hr]
    exact ⟨_, rfl, hs⟩
  · have h0 : s.m_colorFadeActive = false := by simpa using ha
    obtain ⟨l1, hr, -⟩ := tickColor_idle s l h0
    exact ⟨_, hr, h⟩

end LampController

open LampController in
/-- One iteration of the task keeps the CCT within range. -/
theorem taskLoop_cctSafe (fx : EffectFrame) (now : Nat) (c : Sys) (h : CctSafe c.lamp) :
    ∃ c1, taskLoop fx now c = some c1 ∧ CctSafe c1.lamp
      ∧ staticView c1.lamp = staticView c.lamp := by
  have hb := tickBrightness_frame c.lamp c.loc
  have h1 : CctSafe (tickBrightness c.lamp c.loc).1 :=
    cctSafe_of_view (cctView_of_eraseBrightness hb) h
  obtain ⟨k, hk, hks⟩ :=
    tickColor_cctSafe (tickBrightness c.lamp c.loc).1 (tickBrightness c.lamp c.loc).2 h1
  obtain ⟨c1, k1, hc1, hk1, -, -, -, -, -, hst, -⟩ := taskLoop_step fx now c (cctSafe_ok h)
  rw [hk] at hk1
  cases hk1
  refine ⟨c1, hc1, ?_, hst⟩
  have hf := erasePersist_flushIfIdle k.1 c.prefs now
  have he := eraseEffect_tickEffect fx (flushIfIdle k.1 c.prefs now).1 now
  have hv : cctView (tickEffect fx (flushIfIdle k.1 c.prefs now).1 now) = cctView k.1 :=
    (cctView_of_eraseEffect he).trans (cctView_of_erasePersist hf)
  unfold taskLoop at hc1
  simp only [hk] at hc1
  cases hc1
  exact cctSafe_of_view hv hks

namespace LampController

/-! ## The colour temperature and the saved brightness under the setters -/

theorem cctView_setPower (s : LampController) (now : Nat) (onFlag : Bool) (f e : Nat) :
    cctView (s.setPower now onFlag f e) = cctView s
      ∧ (s.setPower now onFlag f e).m_savedOnBrightness = s.m_savedOnBrightness := by
  cases onFlag
  · constructor <;>
      (unfold setPower; simp only [Bool.false_eq_true, if_false]; split <;> rfl)
  · exact ⟨rfl, rfl⟩

theorem setBrightness_frame (s : LampController) (b f e : Nat) :
    cctView (s.setBrightness b f e) = cctView s
      ∧ ((s.setBrightness b f e).m_savedOnBrightness = s.m_savedOnBrightness
        ∨ (1 ≤ (s.setBrightness b f e).m_savedOnBrightness
          ∧ (s.setBrightness b f e).m_savedOnBrightness ≤ 100)) := by
  have key : ∀ V P : Nat, (P > 0 → 1 ≤ P ∧ P ≤ 100) →
      cctView (send_ui_event
        (if P > 0 then
          { (if f > 0 then fadeToBrightness s V f
              else update { cancelFade s with m_brightness := V }) with
            m_savedOnBrightness := P, m_dirty_br := true }
          else (if f > 0 then fadeToBrightness s V f
              else update { cancelFade s with m_brightness := V }))
        UI_EVENT_BRIGHTNESS P e) = cctView s
      ∧ ((send_ui_event
        (if P > 0 then
          { (if f > 0 then fadeToBrightness s V f
              else update { cancelFade s with m_brightness := V }) with
            m_savedOnBrightness := P, m_dirty_br := true }
          else (if f > 0 then fadeToBrightness s V f
              else update { cancelFade s with m_brightness := V }))
        UI_EVENT_BRIGHTNESS P e).m_savedOnBrightness = s.m_savedOnBrightness
        ∨ (1 ≤ (send_ui_event
        (if P > 0 then
          { (if f > 0 then fadeToBrightness s V f
              else update { cancelFade s with m_brightness := V }) with
            m_savedOnBrightness := P, m_dirty_br := true }
          else (if f > 0 then fadeToBrightness s V f
              else update { cancelFade s with m_brightness := V }))
        UI_EVENT_BRIGHTNESS P e).m_savedOnBrightness
          ∧ (send_ui_event
        (if P > 0 then
          { (if f > 0 then fadeToBrightness s V f
              else update { cancelFade s with m_brightness := V }) with
            m_savedOnBrightness := P, m_dirty_br := true }
          else (if f > 0 then fadeToBrightness s V f
              else update { cancelFade s with m_brightness := V }))
        UI_EVENT_BRIGHTNESS P e).m_savedOnBrightness ≤ 100)) := by
    intro V P hP
    by_cases hP0 : P > 0 <;> by_cases hf : f > 0
    · simp only [if_pos hP0, if_pos hf]
      exact ⟨rfl, Or.inr (hP hP0)⟩
    · simp only [if_pos hP0, if_neg hf]
      refine ⟨?_, Or.inr (hP hP0)⟩
      have := cctView_update { cancelFade s with m_brightness := V }
      simp only [cctView, Prod.mk.injEq] at this ⊢
      exact this
    · simp only [if_neg hP0, if_pos hf]
      exact ⟨rfl, Or.inl rfl⟩
    · simp only [if_neg hP0, if_neg hf]
      have := cctView_update { cancelFade s with m_brightness := V }
      refine ⟨?_, Or.inl ?_⟩
      · simp only [cctView, Prod.mk.injEq] at this ⊢
        exact this
      · simp only [send_ui_event, update_m_savedOnBrightness]
        rfl
  unfold setBrightness
  dsimp only
  split
  · apply key
    intro _
    split <;> split <;> omega
  · exact ⟨rfl, Or.inl rfl⟩

theorem setSavedBrightness_frame (s : LampController) (now b : Nat) :
    cctView (s.setSavedBrightness now b) = cctView s
      ∧ ((s.setSavedBrightness now b).m_savedOnBrightness = s.m_savedOnBrightness
        ∨ (1 ≤ (s.setSavedBrightness now b).m_savedOnBrightness
          ∧ (s.setSavedBrightness now b).m_savedOnBrightness ≤ 100)) := by
  unfold setSavedBrightness
  dsimp only
  by_cases h100 : b > 100
  · simp only [if_pos h100]
    rw [if_pos (by decide)]
    exact ⟨rfl, Or.inr ⟨by show (1 : Nat) ≤ 100; decide, by show (100 : Nat) ≤ 100; decide⟩⟩
  · simp only [if_neg h100]
    by_cases h0 : b > 0
    · rw [if_pos h0]
      exact ⟨rfl, Or.inr ⟨h0, by show b ≤ 100; omega⟩⟩
    · rw [if_neg h0]
      exact ⟨rfl, Or.inl rfl⟩

theorem cctView_setEffect (s : LampController) (mode : EffectMode) :
    cctView (s.setEffect mode) = cctView s
      ∧ (s.setEffect mode).m_savedOnBrightness = s.m_savedOnBrightness := by
  cases mode
  · simp [setEffect, cctView]
  all_goals exact ⟨rfl, rfl⟩

theorem cctSafe_update {s : LampController} (h : CctSafe s) : CctSafe (update s) :=
  cctSafe_of_view (cctView_update s) h

theorem cctSafe_snapCCT (s : LampController) (k : Nat)
    (hk : LAMP_CCT_MIN ≤ k ∧ k ≤ LAMP_CCT_MAX) :
    CctSafe (update { s with m_cct := k, m_useCCT := true, m_colorFadeActive := false,
                             m_fadingToCCT := false }) :=
  cctSafe_update ⟨hk, fun h => Bool.noConfusion h, fun h => Bool.noConfusion h,
    fun h => Bool.noConfusion h⟩

theorem cctSafe_snapRGB (s : LampController) (c : CRGB) (h : CctSafe s) :
    CctSafe (update { s with m_rgbColor := c, m_useCCT := false, m_colorFadeActive := false,
                             m_fadingToCCT := false }) :=
  cctSafe_update ⟨h.1, fun h => Bool.noConfusion h, fun h => Bool.noConfusion h,
    fun h => Bool.noConfusion h⟩

theorem clampCCT_range (cct : Nat) :
    LAMP_CCT_MIN ≤ (if (if cct < LAMP_CCT_MIN then LAMP_CCT_MIN else cct) > LAMP_CCT_MAX
        then LAMP_CCT_MAX else (if cct < LAMP_CCT_MIN then LAMP_CCT_MIN else cct))
      ∧ (if (if cct < LAMP_CCT_MIN then LAMP_CCT_MIN else cct) > LAMP_CCT_MAX
        then LAMP_CCT_MAX else (if cct < LAMP_CCT_MIN then LAMP_CCT_MIN else cct))
          ≤ LAMP_CCT_MAX := by
  simp only [LAMP_CCT_MIN, LAMP_CCT_MAX]
  constructor <;> split <;> split <;> omega

/-- `setCCT` keeps the CCT within range and leaves the saved brightness alone. -/
theorem setCCT_cctSafe (s : LampController) (now cct f e : Nat) (h : CctSafe s) :
    CctSafe (s.setCCT now cct f e) := by
  have hc := clampCCT_range cct
  obtain ⟨h1, h2, h3, h4⟩ := h
  unfold setCCT
  dsimp only
  generalize (if (if cct < LAMP_CCT_MIN then LAMP_CCT_MIN else cct) > LAMP_CCT_MAX
        then LAMP_CCT_MAX else (if cct < LAMP_CCT_MIN then LAMP_CCT_MIN else cct)) = k at hc ⊢
  by_cases hf : f > 0
  · by_cases hu : s.m_useCCT = true
    · have hc1 : s.m_useCCT = true ∧ f > 0 := ⟨hu, hf⟩
      simp only [if_pos hc1]
      exact ⟨h1, fun h => Bool.noConfusion h, fun _ _ => ⟨h1, hc⟩, fun _ => by
        show f ≠ 0
        omega⟩
    · have hc1 : ¬ (s.m_useCCT = true ∧ f > 0) := fun h => hu h.1
      have hc2 : ¬ s.m_useCCT = true ∧ f > 0 := ⟨hu, hf⟩
      simp only [if_neg hc1, if_pos hc2]
      exact ⟨h1, fun _ => hc, fun _ h => Bool.noConfusion h, fun _ => by
        show f ≠ 0
        omega⟩
  · have hc1 : ¬ (s.m_useCCT = true ∧ f > 0) := fun h => hf h.2
    have hc2 : ¬ (¬ s.m_useCCT = true ∧ f > 0) := fun h => hf h.2
    simp only [if_neg hc1, if_neg hc2]
    unfold CctSafe
    simp only [markChanged, send_ui_event, update_m_cct, update_m_fadingToCCT,
      update_m_colorFadeActive, update_m_useCCT, update_m_startCCT, update_m_targetCCT,
      update_m_colorFadeDurationMs]
    exact ⟨hc, fun h => Bool.noConfusion h, fun h => Bool.noConfusion h,
      fun h => Bool.noConfusion h⟩

/-- `setColor` keeps the CCT within range. -/
theorem setColor_cctSafe (s : LampController) (now r g b f e : Nat) (h : CctSafe s) :
    CctSafe (s.setColor now r g b f e) := by
  obtain ⟨h1, h2, h3, h4⟩ := h
  unfold setColor
  dsimp only
  by_cases hf : f > 0
  · by_cases hu : s.m_useCCT = true
    · have hc1 : ¬ (¬ s.m_useCCT = true ∧ f > 0) := fun h => h.1 hu
      have hc2 : s.m_useCCT = true ∧ f > 0 := ⟨hu, hf⟩
      simp only [if_neg hc1, if_pos hc2]
      exact ⟨h1, fun h => Bool.noConfusion h, fun _ h => Bool.noConfusion h, fun _ => by
        show f ≠ 0
        omega⟩
    · have hc1 : ¬ s.m_useCCT = true ∧ f > 0 := ⟨hu, hf⟩
      simp only [if_pos hc1]
      exact ⟨h1, fun h => Bool.noConfusion h, fun _ h => absurd h hu, fun _ => by
        show f ≠ 0
        omega⟩
  · have hc1 : ¬ (s.m_useCCT = true ∧ f > 0) := fun h => hf h.2
    have hc2 : ¬ (¬ s.m_useCCT = true ∧ f > 0) := fun h => hf h.2
    simp only [if_neg hc1, if_neg hc2]
    unfold CctSafe
    simp only [markChanged, send_ui_event, update_m_cct, update_m_fadingToCCT,
      update_m_colorFadeActive, update_m_useCCT, update_m_startCCT, update_m_targetCCT,
      update_m_colorFadeDurationMs]
    exact ⟨h1, fun h => Bool.noConfusion h, fun h => Bool.noConfusion h,
      fun h => Bool.noConfusion h⟩

theorem setColor_saved (s : LampController) (now r g b f e : Nat) :
    (s.setColor now r g b f e).m_savedOnBrightness = s.m_savedOnBrightness := by
  unfold setColor
  dsimp only
  split
  · rfl
  · split
    · rfl
    · simp only [markChanged, send_ui_event, update_m_savedOnBrightness]

end LampController

namespace LampController

theorem savedOk_of_frame {s r : LampController} (hs : SavedOk s)
    (h : r.m_savedOnBrightness = s.m_savedOnBrightness
      ∨ (1 ≤ r.m_savedOnBrightness ∧ r.m_savedOnBrightness ≤ 100)) : SavedOk r := by
  rcases h with h | h
  · unfold SavedOk
    rw [h]
    exact hs
  · exact h

theorem setCCT_saved (s : LampController) (now cct f e : Nat) :
    (s.setCCT now cct f e).m_savedOnBrightness = s.m_savedOnBrightness :=
  (setCCT_fields s now cct f e).2.2.2.2.1

/-- One preset of `setScene`: a colour temperature, a brightness and a label. -/
theorem scenePreset_inv (s : LampController) (now cct b e : Nat) (label : String) :
    (CctSafe s →
        CctSafe { setBrightness (setCCT s now cct 500 e) b 500 e with m_scene := label })
      ∧ (SavedOk s →
        SavedOk { setBrightness (setCCT s now cct 500 e) b 500 e with m_scene := label }) := by
  obtain ⟨h1, h2⟩ := setBrightness_frame (setCCT s now cct 500 e) b 500 e
  constructor
  · intro h
    exact cctSafe_of_view (h1.trans rfl) (setCCT_cctSafe s now cct 500 e h)
  · intro h
    have hs : SavedOk (setCCT s now cct 500 e) := by
      unfold SavedOk
      rw [setCCT_saved]
      exact h
    exact savedOk_of_frame hs h2

theorem sceneChoice_inv (s : LampController) (now e : Nat) (nm : String) :
    (CctSafe s → CctSafe
        (if nm = "reading" then
          { setBrightness (setCCT s now 4500 500 e) 80 500 e with m_scene := "Reading" }
        else if nm = "night" then
          { setBrightness (setCCT s now 2700 500 e) 5 500 e with m_scene := "Night" }
        else if nm = "cozy" then
          { setBrightness (setCCT s now 3000 500 e) 50 500 e with m_scene := "Cozy" }
        else if nm = "bright" then
          { setBrightness (setCCT s now 6000 500 e) 100 500 e with m_scene := "Bright" }
        else if nm = "none" then { s with m_scene := "None" }
        else s))
      ∧ (SavedOk s → SavedOk
        (if nm = "reading" then
          { setBrightness (setCCT s now 4500 500 e) 80 500 e with m_scene := "Reading" }
        else if nm = "night" then
          { setBrightness (setCCT s now 2700 500 e) 5 500 e with m_scene := "Night" }
        else if nm = "cozy" then
          { setBrightness (setCCT s now 3000 500 e) 50 500 e with m_scene := "Cozy" }
        else if nm = "bright" then
          { setBrightness (setCCT s now 6000 500 e) 100 500 e with m_scene := "Bright" }
        else if nm = "none" then { s with m_scene := "None" }
        else s)) := by
  split
  · exact scenePreset_inv s now 4500 80 e "Reading"
  · split
    · exact scenePreset_inv s now 2700 5 e "Night"
    · split
      · exact scenePreset_inv s now 3000 50 e "Cozy"
      · split
        · exact scenePreset_inv s now 6000 100 e "Bright"
        · split
          · exact ⟨fun h => h, fun h => h⟩
          · exact ⟨fun h => h, fun h => h⟩

/-- `setScene` keeps the CCT within range and the saved brightness a percentage. -/
theorem setScene_inv (s : LampController) (now : Nat) (scene : String) (e : Nat) :
    (CctSafe s → CctSafe (s.setScene now scene e))
      ∧ (SavedOk s → SavedOk (s.setScene now scene e)) := by
  obtain ⟨h1, h2⟩ := sceneChoice_inv s now e (toLowerCase scene)
  unfold setScene
  dsimp only
  by_cases hn : toLowerCase scene ≠ "none"
  · simp only [if_pos hn]
    constructor
    · intro h
      exact cctSafe_of_view (cctView_setEffect _ _).1 (h1 h)
    · intro h
      have := h2 h
      unfold SavedOk at this ⊢
      rw [(cctView_setEffect _ _).2]
      exact this
  · simp only [if_neg hn]
    exact ⟨h1, h2⟩

end LampController

open LampController in
/-- Every call keeps the CCT within range and the saved brightness a
percentage, and is defined. -/
theorem call_inv (fx : EffectFrame) (now : Nat) (call : Call) (c : Sys)
    (h : CctSafe c.lamp) :
    ∃ c1, call.run fx now c = some c1 ∧ CctSafe c1.lamp
      ∧ (SavedOk c.lamp → SavedOk c1.lamp) := by
  cases call with
  | setPower onFlag f e =>
    obtain ⟨h1, h2⟩ := cctView_setPower c.lamp now onFlag f e
    refine ⟨_, rfl, cctSafe_of_view h1 h, fun hs => savedOk_of_frame hs (Or.inl h2)⟩
  | setBrightness b f e =>
    obtain ⟨h1, h2⟩ := setBrightness_frame c.lamp b f e
    exact ⟨_, rfl, cctSafe_of_view h1 h, fun hs => savedOk_of_frame hs h2⟩
  | setSavedBrightness b =>
    obtain ⟨h1, h2⟩ := setSavedBrightness_frame c.lamp now b
    exact ⟨_, rfl, cctSafe_of_view h1 h, fun hs => savedOk_of_frame hs h2⟩
  | setCCT cct f e =>
    exact ⟨_, rfl, setCCT_cctSafe c.lamp now cct f e h,
      fun hs => savedOk_of_frame hs (Or.inl (setCCT_saved c.lamp now cct f e))⟩
  | setColor r g b f e =>
    exact ⟨_, rfl, setColor_cctSafe c.lamp now r g b f e h,
      fun hs => savedOk_of_frame hs (Or.inl (setColor_saved c.lamp now r g b f e))⟩
  | setScene scene e =>
    obtain ⟨h1, h2⟩ := setScene_inv c.lamp now scene e
    exact ⟨_, rfl, h1 h, h2⟩
  | setFadeCurve curve => exact ⟨_, rfl, h, fun hs => hs⟩
  | fadeToBrightness g d => exact ⟨_, rfl, h, fun hs => hs⟩
  | cancelFade => exact ⟨_, rfl, h, fun hs => hs⟩
  | setHSV hsv hh sat v f e =>
    exact ⟨_, rfl, setColor_cctSafe c.lamp now _ _ _ f e h,
      fun hs => savedOk_of_frame hs (Or.inl (setColor_saved c.lamp now _ _ _ f e))⟩
  | tick =>
    obtain ⟨c1, h1, h2, h3⟩ := taskLoop_cctSafe fx now c h
    refine ⟨c1, h1, h2, fun hs => ?_⟩
    simp only [staticView, Prod.mk.injEq] at h3
    unfold SavedOk
    rw [h3.2.1]
    exact hs

/-- Every sequence of calls is defined and keeps the CCT within range and the
saved brightness a percentage. -/
theorem runCalls_inv (fx : EffectFrame) (calls : List (Nat × Call)) :
    ∀ c : Sys, CctSafe c.lamp →
      ∃ c1, runCalls fx calls c = some c1 ∧ CctSafe c1.lamp
        ∧ (SavedOk c.lamp → SavedOk c1.lamp) := by
  induction calls with
  | nil => intro c h; exact ⟨c, rfl, h, fun hs => hs⟩
  | cons x rest ih =>
    intro c h
    obtain ⟨c1, h1, h2, h3⟩ := call_inv fx x.1 x.2 c h
    obtain ⟨c2, h4, h5, h6⟩ := ih c1 h2
    refine ⟨c2, ?_, h5, fun hs => h6 (h3 hs)⟩
    simp only [runCalls, h1, h4]

namespace LampController

theorem init_cctView (p : Preferences) :
    cctView (init p)
      = ((if (if AppConfig.loadCCT p < LAMP_CCT_MIN then LAMP_CCT_MIN else AppConfig.loadCCT p)
            > LAMP_CCT_MAX then LAMP_CCT_MAX
          else (if AppConfig.loadCCT p < LAMP_CCT_MIN then LAMP_CCT_MIN
            else AppConfig.loadCCT p)),
          false, false, AppConfig.loadMode p, 0, 0, 0)
      ∧ (init p).m_savedOnBrightness
          = (if AppConfig.loadSavedBrightness p = 0 then 50
              else AppConfig.loadSavedBrightness p) := by
  unfold init
  dsimp only
  constructor
  · split <;> simp [cctView, send_ui_event, fadeToBrightness, loadStateFromNVS]
  · split <;> simp [send_ui_event, fadeToBrightness, loadStateFromNVS] <;>
      (intro h; split at h <;> omega)

/-- After `init()` the CCT is within range, whatever the store holds. -/
theorem init_cctSafe (p : Preferences) : CctSafe (init p) := by
  have h := (init_cctView p).1
  have hc := clampCCT_range (AppConfig.loadCCT p)
  simp only [cctView, Prod.mk.injEq] at h
  obtain ⟨h1, h2, h3, -, -, -, -⟩ := h
  unfold CctSafe
  rw [h1, h2, h3]
  exact ⟨hc, fun h => Bool.noConfusion h, fun h => Bool.noConfusion h,
    fun h => Bool.noConfusion h⟩

/-- After `init()` the saved brightness is a percentage when the stored byte
is at most 100 (or absent). -/
theorem init_savedOk (p : Preferences) (h : AppConfig.loadSavedBrightness p ≤ 100) :
    SavedOk (init p) := by
  unfold SavedOk
  rw [(init_cctView p).2]
  split <;> omega

theorem getCCT_range {s : LampController} (h : CctSafe s) :
    LAMP_CCT_MIN ≤ s.getCCT ∧ s.getCCT ≤ LAMP_CCT_MAX := by
  unfold getCCT
  split
  · rename_i hc
    exact (h.2.2.1 hc.1 hc.2).2
  · exact h.1

/-- From a stored saved-brightness byte of at most 100 (or none), every
sequence of calls and task iterations is defined and leaves the saved
brightness, and what `getSavedBrightness()` returns, in `1..100`. -/
theorem savedBrightness_stays_percentage (fx : EffectFrame) (p : Preferences)
    (l : TaskLocals) (calls : List (Nat × Call))
    (h : AppConfig.loadSavedBrightness p ≤ 100) :
    ∃ c1, runCalls fx calls ⟨init p, l, p⟩ = some c1
      ∧ 1 ≤ c1.lamp.m_savedOnBrightness ∧ c1.lamp.m_savedOnBrightness ≤ 100
      ∧ 1 ≤ c1.lamp.getSavedBrightness ∧ c1.lamp.getSavedBrightness ≤ 100 := by
  obtain ⟨c1, h1, -, h3⟩ := runCalls_inv fx calls ⟨init p, l, p⟩ (init_cctSafe p)
  have hs : SavedOk c1.lamp := h3 (init_savedOk p h)
  refine ⟨c1, h1, hs.1, hs.2, ?_⟩
  unfold getSavedBrightness
  unfold SavedOk at hs
  split <;> omega

theorem savedBrightness_stays_percentage_witness :
    ∃ c1, runCalls (fun _ _ => []) [(5, Call.setPower true 300 0), (10, Call.tick),
            (15, Call.setBrightness 0 0 0), (20, Call.setScene "night" 0), (30, Call.tick)]
          ⟨init Preferences.empty, TaskLocals.entry (init Preferences.empty),
            Preferences.empty⟩ = some c1
      ∧ 1 ≤ c1.lamp.m_savedOnBrightness ∧ c1.lamp.m_savedOnBrightness ≤ 100
      ∧ 1 ≤ c1.lamp.getSavedBrightness ∧ c1.lamp.getSavedBrightness ≤ 100 :=
  savedBrightness_stays_percentage _ Preferences.empty _ _ (by decide)

/-- C19: `loadStateFromNVS` floors the stored saved brightness but does not
cap it: a stored byte of 200 becomes the saved brightness, `init()` keeps it,
and `getSavedBrightness()` returns 200, above the range `1..100`. -/
theorem load_keeps_oversized_saved_brightness :
    (loadStateFromNVS {}
        (Preferences.empty.put AppConfig.K_BR (PrefVal.uchar 200))).m_savedOnBrightness = 200
      ∧ (init (Preferences.empty.put AppConfig.K_BR (PrefVal.uchar 200))).getSavedBrightness
          = 200
      ∧ ¬ (init (Preferences.empty.put AppConfig.K_BR (PrefVal.uchar 200))).getSavedBrightness
          ≤ 100 := by
  decide

/-- C20: after `init()` on any store and any sequence of calls (`setCCT`,
`setColor`, `setScene`, `setFadeCurve` and the others, with any arguments)
and task iterations, every iteration is defined and the CCT field, and what
`getCCT()` returns, lies in `[2700, 6500]`; a `setCCT(c, 0)` then leaves
exactly `c` clamped to that range. -/
theorem cct_stays_in_range (fx : EffectFrame) (p : Preferences) (l : TaskLocals)
    (calls : List (Nat × Call)) (cct now e : Nat) :
    ∃ c1, runCalls fx calls ⟨init p, l, p⟩ = some c1
      ∧ LAMP_CCT_MIN ≤ c1.lamp.m_cct ∧ c1.lamp.m_cct ≤ LAMP_CCT_MAX
      ∧ LAMP_CCT_MIN ≤ c1.lamp.getCCT ∧ c1.lamp.getCCT ≤ LAMP_CCT_MAX
      ∧ (c1.lamp.setCCT now cct 0 e).m_cct = min (max cct LAMP_CCT_MIN) LAMP_CCT_MAX
      ∧ LAMP_CCT_MIN = 2700 ∧ LAMP_CCT_MAX = 6500 := by
  obtain ⟨c1, h1, h2, -⟩ := runCalls_inv fx calls ⟨init p, l, p⟩ (init_cctSafe p)
  exact ⟨c1, h1, h2.1.1, h2.1.2, (getCCT_range h2).1, (getCCT_range h2).2,
    ((setCCT_fields c1.lamp now cct 0 e).2.1 rfl).2.2, rfl, rfl⟩

end LampController

/-! # Power-off, fade durations and reachable states -/

namespace LampController

/-- With an effect selected, `setPower(false, fade_ms)` arms a fade to zero of
duration zero, whatever `fade_ms` is. -/
theorem setPower_off_effect (s : LampController) (now fade_ms e : Nat)
    (he : s.m_effect ≠ EffectMode.None) :
    (s.setPower now false fade_ms e).m_fadeDurationMs = 0
      ∧ (s.setPower now false fade_ms e).m_targetBrightness = 0
      ∧ (s.setPower now false fade_ms e).m_fadeActive = true
      ∧ (s.setPower now false fade_ms e).m_on = false
      ∧ (s.setPower now false fade_ms e).m_effect = s.m_effect
      ∧ (s.setPower now false fade_ms e).m_effectTick = s.m_effectTick := by
  have he1 : (cancelFade s).m_effect ≠ EffectMode.None := he
  unfold setPower
  simp only [Bool.false_eq_true, if_false]
  rw [if_pos (by exact he1)]
  exact ⟨rfl, rfl, rfl, rfl, rfl, rfl⟩

/-- With an effect selected, the lamp off and the brightness at zero, the
effect section clears the pixels and draws no frame. -/
theorem tickEffect_dark (fx : EffectFrame) (s : LampController) (now : Nat)
    (he : s.m_effect ≠ EffectMode.None) (hon : s.m_on = false) (hb : s.m_brightness = 0) :
    (tickEffect fx s now).m_leds = List.replicate LAMP_NUM_LEDS CRGB.Black
      ∧ (tickEffect fx s now).shown = List.replicate LAMP_NUM_LEDS CRGB.Black
      ∧ (tickEffect fx s now).m_effectTick = s.m_effectTick := by
  unfold tickEffect
  rw [if_pos he, if_neg (by rw [hon, hb]; simp)]
  exact ⟨rfl, rfl, rfl⟩

end LampController

open LampController in
/-- One iteration as its last section sees it: the controller handed to the
effect section has the brightness the brightness section left and the static
fields of the controller the iteration started from. -/
theorem taskLoop_effect (fx : EffectFrame) (now : Nat) (c : Sys) (hd : ColorFadeOk c.lamp) :
    ∃ c1 f, taskLoop fx now c = some c1 ∧ c1.lamp = tickEffect fx f now
      ∧ brightnessView f = brightnessView (tickBrightness c.lamp c.loc).1
      ∧ staticView f = staticView c.lamp ∧ f.m_effectTick = c.lamp.m_effectTick := by
  obtain ⟨c1, k, h1, hk, -⟩ := taskLoop_step fx now c hd
  have hb := tickBrightness_frame c.lamp c.loc
  have hd1 : (tickBrightness c.lamp c.loc).1.m_colorFadeActive = true →
      (tickBrightness c.lamp c.loc).1.m_colorFadeDurationMs ≠ 0 := by
    have hbc := colorView_of_eraseBrightness hb
    simp only [colorView, Prod.mk.injEq] at hbc
    intro h
    rw [hbc.2.1]
    exact hd (hbc.1 ▸ h)
  obtain ⟨r, hr, hfr, -⟩ :=
    tickColor_defined (tickBrightness c.lamp c.loc).1 (tickBrightness c.lamp c.loc).2 hd1
  rw [hk] at hr
  cases hr
  have hf := erasePersist_flushIfIdle k.1 c.prefs now
  refine ⟨c1, (flushIfIdle k.1 c.prefs now).1, h1, ?_, ?_, ?_, ?_⟩
  · unfold taskLoop at h1
    simp only [hk] at h1
    cases h1
    rfl
  · exact (brightnessView_of_erasePersist hf).trans (brightnessView_of_eraseColor hfr)
  · exact (staticView_of_erasePersist hf).trans
      ((staticView_of_eraseColor hfr).trans (staticView_of_eraseBrightness hb))
  · have e1 := congrArg LampController.m_effectTick hf
    have e2 := congrArg LampController.m_effectTick hfr
    have e3 := congrArg LampController.m_effectTick hb
    exact e1.trans (e2.trans e3)

namespace LampController

/-- C21: with an effect selected, `setPower(false, fade_ms)` arms a brightness
fade of duration 0 whatever `fade_ms` is, and the next iteration of the task
leaves the brightness at 0 with the fade inactive, draws no effect frame (the
effect tick counter stands still) and clears every pixel to black. The state
is one in which an active colour fade has a non-zero duration, as every state
reached from `init()` is. -/
theorem power_off_with_effect_cuts (fx : EffectFrame) (s : LampController)
    (t fade_ms excludeMask now : Nat) (l : TaskLocals) (p : Preferences)
    (he : s.getEffect ≠ EffectMode.None) (hd : ColorFadeOk s) :
    (s.setPower t false fade_ms excludeMask).m_fadeDurationMs = 0
      ∧ ∃ c1, taskLoop fx now ⟨s.setPower t false fade_ms excludeMask, l, p⟩ = some c1
        ∧ c1.lamp.getBrightness = 0 ∧ c1.lamp.isFading = false ∧ c1.lamp.isOn = false
        ∧ c1.lamp.m_effectTick = s.m_effectTick
        ∧ c1.lamp.m_leds = List.replicate LAMP_NUM_LEDS CRGB.Black
        ∧ c1.lamp.shown = List.replicate LAMP_NUM_LEDS CRGB.Black := by
  obtain ⟨h1, h2, h3, h4, h5, h6⟩ := setPower_off_effect s t fade_ms excludeMask he
  have hcv := (setPower_fields s t false fade_ms excludeMask).2.2.2.2.2.2.2.2.1
  have hok : ColorFadeOk (s.setPower t false fade_ms excludeMask) := by
    simp only [colorView, Prod.mk.injEq] at hcv
    intro h
    rw [hcv.2.1]
    exact hd (hcv.1 ▸ h)
  refine ⟨h1, ?_⟩
  obtain ⟨c1, f, hc1, hlamp, hbv, hst, htick⟩ :=
    taskLoop_effect fx now ⟨s.setPower t false fade_ms excludeMask, l, p⟩ hok
  obtain ⟨hz1, hz2⟩ := brightness_zero_duration fx now _ c1 hok hc1 h3 h1
  simp only [staticView, Prod.mk.injEq] at hst
  obtain ⟨s1, -, s3, -⟩ := hst
  have hfb : f.m_brightness = 0 := by
    simp only [brightnessView, Prod.mk.injEq] at hbv
    rcases tickBrightness_active (s.setPower t false fade_ms excludeMask) l h3 with
      ⟨-, h6⟩ | ⟨-, -, h7, -⟩
    · rw [hbv.1]
      exact h6.trans h2
    · rw [h1] at h7
      exact absurd h7 (Nat.not_lt_zero _)
  obtain ⟨d1, d2, d3⟩ := tickEffect_dark fx f now (by rw [s3, h5]; exact he)
    (s1.trans h4) hfb
  refine ⟨c1, hc1, hz2.trans h2, hz1, ?_, ?_, ?_, ?_⟩
  · have hs := staticView_of_eraseEffect (eraseEffect_tickEffect fx f now)
    simp only [staticView, Prod.mk.injEq] at hs
    show c1.lamp.m_on = false
    rw [hlamp, hs.1, s1]
    exact h4
  · rw [hlamp, d3]
    exact htick.trans h6
  · rw [hlamp]; exact d1
  · rw [hlamp]; exact d2


theorem power_off_with_effect_cuts_witness :
    (({ m_effect := EffectMode.Rainbow, m_on := true } : LampController).setPower 0 false 500
        0).m_fadeDurationMs = 0
      ∧ ∃ c1, taskLoop (fun _ _ => []) 10
            ⟨({ m_effect := EffectMode.Rainbow, m_on := true } : LampController).setPower 0 false
              500 0, TaskLocals.entry {}, Preferences.empty⟩ = some c1
        ∧ c1.lamp.getBrightness = 0 ∧ c1.lamp.isFading = false ∧ c1.lamp.isOn = false
        ∧ c1.lamp.m_effectTick = 0
        ∧ c1.lamp.m_leds = List.replicate LAMP_NUM_LEDS CRGB.Black
        ∧ c1.lamp.shown = List.replicate LAMP_NUM_LEDS CRGB.Black :=
  power_off_with_effect_cuts (fun _ _ => []) { m_effect := EffectMode.Rainbow, m_on := true }
    0 500 0 10 (TaskLocals.entry {}) Preferences.empty (by decide)
    (fun h => Bool.noConfusion h)

/-- With a stored duration of zero `advanceFade` takes its early return: the
brightness is the target, the fade is stopped, and the division by the
duration is not reached. -/
theorem advanceFade_zero_duration (s : LampController) (e st : Nat)
    (hz : s.m_fadeDurationMs = 0) :
    advanceFade s e st
      = (cancelFade (renderBrightness s s.m_targetBrightness), 0, s.m_targetBrightness,
          false) := by
  unfold advanceFade
  rw [if_pos (Or.inr hz)]
  simp only [cancelFade, renderBrightness_m_brightness]

/-- C22: a brightness fade armed with nominal duration 0, by
`fadeToBrightness(g, 0)` with `g ≤ 100` or by `setPower(on, 0)`, has a stored
duration of 0; `advanceFade` then returns early, before its division, and one
iteration of the task leaves the brightness at exactly the target with the
fade inactive. The state is one in which an active colour fade has a non-zero
duration, as every state reached from `init()` is. -/
theorem zero_duration_fade_lands (fx : EffectFrame) (c : Sys) (g now t excludeMask : Nat)
    (onFlag : Bool) (hg : g ≤ 100) (hd : ColorFadeOk c.lamp) :
    (c.lamp.fadeToBrightness g 0).m_fadeDurationMs = 0
      ∧ (∀ e st, advanceFade (c.lamp.fadeToBrightness g 0) e st
          = (cancelFade (renderBrightness (c.lamp.fadeToBrightness g 0) g), 0, g, false))
      ∧ (∃ c1, taskLoop fx now ⟨c.lamp.fadeToBrightness g 0, c.loc, c.prefs⟩ = some c1
          ∧ c1.lamp.getBrightness = g ∧ c1.lamp.isFading = false)
      ∧ (c.lamp.setPower t onFlag 0 excludeMask).m_fadeDurationMs = 0
      ∧ (∃ c2, taskLoop fx now ⟨c.lamp.setPower t onFlag 0 excludeMask, c.loc, c.prefs⟩ = some c2
          ∧ c2.lamp.getBrightness = (c.lamp.setPower t onFlag 0 excludeMask).m_targetBrightness
          ∧ c2.lamp.isFading = false
          ∧ (onFlag = false → c2.lamp.getBrightness = 0)) := by
  obtain ⟨f1, f2, f3, -, f5, -, -⟩ := fadeToBrightness_fields c.lamp g 0
  have hg1 : ¬ g > 100 := by omega
  rw [if_neg hg1] at f2
  have fz := f3 rfl
  obtain ⟨p1, p2, p3, p4, -, -, -, -, p9, -, -⟩ := setPower_fields c.lamp t onFlag 0 excludeMask
  have pz := p4 rfl
  have hok1 : ColorFadeOk (c.lamp.fadeToBrightness g 0) := by
    simp only [colorView, Prod.mk.injEq] at f5
    intro h
    rw [f5.2.1]
    exact hd (f5.1 ▸ h)
  have hok2 : ColorFadeOk (c.lamp.setPower t onFlag 0 excludeMask) := by
    simp only [colorView, Prod.mk.injEq] at p9
    intro h
    rw [p9.2.1]
    exact hd (p9.1 ▸ h)
  refine ⟨fz, ?_, ?_, pz, ?_⟩
  · intro e st
    have := advanceFade_zero_duration (c.lamp.fadeToBrightness g 0) e st fz
    rw [f2] at this
    exact this
  · obtain ⟨c1, -, h1, -⟩ := taskLoop_step fx now ⟨c.lamp.fadeToBrightness g 0, c.loc, c.prefs⟩
      hok1
    obtain ⟨z1, z2⟩ := brightness_zero_duration fx now
      ⟨c.lamp.fadeToBrightness g 0, c.loc, c.prefs⟩ c1 hok1 h1 f1 fz
    exact ⟨c1, h1, z2.trans f2, z1⟩
  · obtain ⟨c2, -, h1, -⟩ := taskLoop_step fx now
      ⟨c.lamp.setPower t onFlag 0 excludeMask, c.loc, c.prefs⟩ hok2
    obtain ⟨z1, z2⟩ := brightness_zero_duration fx now
      ⟨c.lamp.setPower t onFlag 0 excludeMask, c.loc, c.prefs⟩ c2 hok2 h1 p2 pz
    exact ⟨c2, h1, z2, z1, fun h => z2.trans (p3 h)⟩

theorem zero_duration_fade_lands_witness :
    (∃ c1, taskLoop (fun _ _ => []) 10
          ⟨({} : LampController).fadeToBrightness 80 0, TaskLocals.entry {}, Preferences.empty⟩
          = some c1
        ∧ c1.lamp.getBrightness = 80 ∧ c1.lamp.isFading = false)
      ∧ (({} : LampController).setPower 0 true 0 0).m_fadeDurationMs = 0 :=
  ⟨(zero_duration_fade_lands (fun _ _ => []) ⟨{}, TaskLocals.entry {}, Preferences.empty⟩ 80 10
      0 0 true (by decide) (fun h => Bool.noConfusion h)).2.2.1,
    (zero_duration_fade_lands (fun _ _ => []) ⟨{}, TaskLocals.entry {}, Preferences.empty⟩ 80 10
      0 0 true (by decide) (fun h => Bool.noConfusion h)).2.2.2.1⟩

/-- C25: from a brightness of at most 100, `fadeToBrightness(g, d)` with a
16-bit `d` stores the target `g` clamped to 100, marks the fade active, and
stores the duration 0 when `d = 0` or the clamped target is the current
brightness, and otherwise `d * |g - c| / 100` raised to at least 50; that
value is below 65536, so the 16-bit field holds it unchanged. -/
theorem fadeToBrightness_duration (s : LampController) (g d : Nat)
    (hc : s.getBrightness ≤ 100) (hd : d ≤ 65535) :
    (s.fadeToBrightness g d).m_targetBrightness = min g 100
      ∧ (s.fadeToBrightness g d).isFading = true
      ∧ (s.fadeToBrightness g d).m_fadeDurationMs
          = (if d = 0 then 0
              else if min g 100 = s.getBrightness then 0
              else max 50 (d * ((min g 100 - s.getBrightness) + (s.getBrightness - min g 100))
                    / 100))
      ∧ (s.fadeToBrightness g d).m_fadeDurationMs ≤ 65535
      ∧ max 50 (d * ((min g 100 - s.getBrightness) + (s.getBrightness - min g 100)) / 100)
          ≤ 65535 := by
  unfold getBrightness at hc ⊢
  have hmin : (if g > 100 then 100 else g) = min g 100 := by
    split <;> omega
  have hb : (d * ((min g 100 - s.m_brightness) + (s.m_brightness - min g 100))) / 100
      ≤ 65535 := by
    have h1 : (min g 100 - s.m_brightness) + (s.m_brightness - min g 100) ≤ 100 := by omega
    have h2 : d * ((min g 100 - s.m_brightness) + (s.m_brightness - min g 100)) ≤ 65535 * 100 :=
      Nat.mul_le_mul hd h1
    omega
  refine ⟨hmin, rfl, ?_, (fadeToBrightness_duration_le s g d).1, by omega⟩
  unfold fadeToBrightness
  simp only [hmin]
  have ht : min g 100 ≤ 100 := by omega
  generalize min g 100 = t at hb ht ⊢
  have hdiff : (if t > s.m_brightness then u8 ((t : Int) - s.m_brightness)
      else u8 ((s.m_brightness : Int) - t))
      = (t - s.m_brightness) + (s.m_brightness - t) := by
    unfold u8
    split <;> omega
  rw [hdiff]
  have hk : (t - s.m_brightness) + (s.m_brightness - t) ≤ 100 := by omega
  have hk0 : t = s.m_brightness ↔ (t - s.m_brightness) + (s.m_brightness - t) = 0 := by omega
  simp only [hk0]
  generalize (t - s.m_brightness) + (s.m_brightness - t) = k at hb hk ⊢
  have hm : d * k % 4294967296 = d * k := by
    have : d * k ≤ 65535 * 100 := Nat.mul_le_mul hd hk
    omega
  rw [hm]
  by_cases hd0 : d = 0
  · simp only [hd0, if_true]
    rfl
  · simp only [if_neg hd0]
    by_cases hk1 : k = 0
    · subst hk1
      simp only [Nat.mul_zero, Nat.zero_div, if_true]
      rw [if_neg (by omega)]
      rfl
    · rw [if_neg hk1]
      have hu : ∀ n : Nat, n ≤ 65535 → u16 (n : Int) = n := by
        intro n hn
        unfold u16
        omega
      by_cases h50 : d * k / 100 < 50
      · rw [if_pos ⟨h50, by omega, by omega⟩, hu 50 (by omega)]
        omega
      · rw [if_neg (fun h => h50 h.1), hu _ hb]
        omega


theorem fadeToBrightness_duration_witness :
    (({} : LampController).fadeToBrightness 80 1000).m_targetBrightness = min 80 100
      ∧ (({} : LampController).fadeToBrightness 80 1000).m_fadeDurationMs = 300 :=
  ⟨(fadeToBrightness_duration {} 80 1000 (by decide) (by decide)).1,
    (fadeToBrightness_duration {} 80 1000 (by decide) (by decide)).2.2.1.trans (by decide)⟩

/-- The state `setCCT(cct, 0)` leaves, spelled out: the clamped value in CCT
mode with no colour fade, redrawn, both dirty flags set, the change stamped
and one UI event queued. -/
theorem setCCT_snap_eq (s : LampController) (now cct e : Nat) :
    s.setCCT now cct 0 e
      = { update { s with m_cct := min (max cct LAMP_CCT_MIN) LAMP_CCT_MAX, m_useCCT := true,
                          m_colorFadeActive := false, m_fadingToCCT := false } with
          events := s.events ++ [⟨UI_EVENT_CCT, (min (max cct LAMP_CCT_MIN) LAMP_CCT_MAX : Nat),
            e⟩],
          m_dirty_cct := true, m_dirty_mode := true, m_lastChangeMs := now } := by
  have hclamp : (if (if cct < LAMP_CCT_MIN then LAMP_CCT_MIN else cct) > LAMP_CCT_MAX
      then LAMP_CCT_MAX else (if cct < LAMP_CCT_MIN then LAMP_CCT_MIN else cct))
      = min (max cct LAMP_CCT_MIN) LAMP_CCT_MAX := by
    simp only [LAMP_CCT_MIN, LAMP_CCT_MAX]
    split <;> split <;> omega
  unfold setCCT
  simp only [hclamp]
  have h1 : ¬ (s.m_useCCT = true ∧ 0 > 0) := fun h => absurd h.2 (by decide)
  have h2 : ¬ (¬ s.m_useCCT = true ∧ 0 > 0) := fun h => absurd h.2 (by decide)
  simp only [if_neg h1, if_neg h2]
  unfold update
  split <;> rfl


/-- C23: a second `setCCT(cct, 0)` right after the first changes nothing but
the change timestamp and the queue of UI events: the CCT is the clamped value,
the mode is CCT, no colour fade is active, and power, brightness, RGB, effect,
scene, pixels and dirty flags are those the first call left. -/
theorem setCCT_snap_idempotent (s : LampController) (t1 t2 cct e : Nat) :
    (s.setCCT t1 cct 0 e).setCCT t2 cct 0 e
        = { s.setCCT t1 cct 0 e with
            m_lastChangeMs := t2,
            events := (s.setCCT t1 cct 0 e).events
              ++ [⟨UI_EVENT_CCT, (min (max cct LAMP_CCT_MIN) LAMP_CCT_MAX : Nat), e⟩] }
      ∧ (s.setCCT t1 cct 0 e).getCCT = min (max cct LAMP_CCT_MIN) LAMP_CCT_MAX
      ∧ ((s.setCCT t1 cct 0 e).setCCT t2 cct 0 e).getCCT
          = min (max cct LAMP_CCT_MIN) LAMP_CCT_MAX
      ∧ ((s.setCCT t1 cct 0 e).setCCT t2 cct 0 e).isCCTMode = true
      ∧ ((s.setCCT t1 cct 0 e).setCCT t2 cct 0 e).m_colorFadeActive = false := by
  have hf1 := (setCCT_fields s t1 cct 0 e).2.1 rfl
  have hf2 := (setCCT_fields (s.setCCT t1 cct 0 e) t2 cct 0 e).2.1 rfl
  refine ⟨?_, ?_, ?_, hf2.2.1, hf2.1⟩
  · rw [setCCT_snap_eq (s.setCCT t1 cct 0 e), setCCT_snap_eq s]
    unfold update
    by_cases he : s.m_effect ≠ EffectMode.None
    · simp only [if_pos he]
    · simp only [if_neg he]
  · unfold getCCT
    rw [hf1.1, hf1.2.2]
    simp
  · unfold getCCT
    rw [hf2.1, hf2.2.2]
    simp


/-- The interpolation of `advanceFade` in plain integers: with start and
target at most 100 and a progress of at most 65536 the 32-bit value is
non-negative and below `2^31`, and its top bits are between start and target. -/
theorem fadeValue_exact (g b T : Nat) (hb : b ≤ 100) (hg : g ≤ 100) (hT : T ≤ 65536) :
    0 ≤ (b : Int) * 65536 + ((g : Int) - b) * T
      ∧ (b : Int) * 65536 + ((g : Int) - b) * T ≤ 100 * 65536
      ∧ (fadeValue g b T : Int) = ((b : Int) * 65536 + ((g : Int) - b) * T) / 65536
      ∧ min b g ≤ fadeValue g b T ∧ fadeValue g b T ≤ max b g := by
  have hv := fadeValue_eq g b T (by omega) (by omega) hT
  have hTi : (0 : Int) ≤ T := by omega
  have hTi2 : (T : Int) ≤ 65536 := by exact_mod_cast hT
  rcases Nat.le_total b g with hbg | hbg
  · have hd : (0 : Int) ≤ (g : Int) - b := by omega
    have h0 : 0 ≤ ((g : Int) - b) * T := mul_nonneg hd hTi
    have h2 : ((g : Int) - b) * T ≤ ((g : Int) - b) * 65536 :=
      mul_le_mul_of_nonneg_left hTi2 hd
    have hu := fadeValue_up g b T T hbg (by omega) (le_refl _) hT
    rw [hv] at hu ⊢
    generalize ((g : Int) - b) * T = P at h0 h2 hu ⊢
    unfold u8 at hu ⊢
    omega
  · have hd : (g : Int) - b ≤ 0 := by omega
    have h0 : ((g : Int) - b) * T ≤ 0 := mul_nonpos_of_nonpos_of_nonneg hd hTi
    have h2 : ((g : Int) - b) * 65536 ≤ ((g : Int) - b) * T :=
      mul_le_mul_of_nonpos_left hTi2 hd
    have hu := fadeValue_down g b T T hbg (by omega) (le_refl _) hT
    rw [hv] at hu ⊢
    generalize ((g : Int) - b) * T = P at h0 h2 hu ⊢
    unfold u8 at hu ⊢
    omega

/-- One `advanceFade` from a start and toward a target of at most 100 leaves a
brightness between the two, and hands back a start of at most 100. -/
theorem advanceFade_within (s : LampController) (e st : Nat)
    (ht : s.m_targetBrightness ≤ 100) (hst : st ≤ 100) :
    min st s.m_targetBrightness ≤ (advanceFade s e st).1.m_brightness
      ∧ (advanceFade s e st).1.m_brightness ≤ max st s.m_targetBrightness
      ∧ (advanceFade s e st).2.2.1 ≤ 100 := by
  have hT := fadeProgress_le s (stepElapsed e s.m_fadeDurationMs) s.m_fadeDurationMs
  obtain ⟨-, -, -, hlo, hhi⟩ := fadeValue_exact s.m_targetBrightness st _ hst ht hT
  unfold advanceFade
  split
  · simp only [cancelFade, renderBrightness_m_brightness]
    omega
  · dsimp only
    have hcur : (if fadeValue s.m_targetBrightness st
          (fadeProgress s (stepElapsed e s.m_fadeDurationMs) s.m_fadeDurationMs)
            ≠ s.m_brightness
        then renderBrightness s (fadeValue s.m_targetBrightness st
          (fadeProgress s (stepElapsed e s.m_fadeDurationMs) s.m_fadeDurationMs))
        else s).m_brightness
        = fadeValue s.m_targetBrightness st
          (fadeProgress s (stepElapsed e s.m_fadeDurationMs) s.m_fadeDurationMs) := by
      split
      · exact renderBrightness_m_brightness _ _
      · rename_i h
        exact (not_not.mp h).symm
    have htg : (if fadeValue s.m_targetBrightness st
          (fadeProgress s (stepElapsed e s.m_fadeDurationMs) s.m_fadeDurationMs)
            ≠ s.m_brightness
        then renderBrightness s (fadeValue s.m_targetBrightness st
          (fadeProgress s (stepElapsed e s.m_fadeDurationMs) s.m_fadeDurationMs))
        else s).m_targetBrightness = s.m_targetBrightness := by
      split
      · exact (target_of_eraseBrightness (eraseBrightness_renderBrightness s _)).1
      · rfl
    generalize (if fadeValue s.m_targetBrightness st
          (fadeProgress s (stepElapsed e s.m_fadeDurationMs) s.m_fadeDurationMs)
            ≠ s.m_brightness
        then renderBrightness s (fadeValue s.m_targetBrightness st
          (fadeProgress s (stepElapsed e s.m_fadeDurationMs) s.m_fadeDurationMs))
        else s) = m at hcur htg ⊢
    split
    · have hfin : (cancelFade (if m.m_brightness ≠ m.m_targetBrightness
          then renderBrightness m m.m_targetBrightness else m)).m_brightness
          = s.m_targetBrightness := by
        split
        · simp only [cancelFade, renderBrightness_m_brightness]
          exact htg
        · rename_i h
          simpa [cancelFade, htg] using h
      simp only [hfin]
      omega
    · simp only [hcur]
      omega

/-- What the brightness section leaves when the values it starts from are
percentages. -/
theorem tickBrightness_within (s : LampController) (l : TaskLocals)
    (hb : s.m_brightness ≤ 100) (ht : s.m_targetBrightness ≤ 100) (hst : l.start ≤ 100) :
    (tickBrightness s l).1.m_brightness ≤ 100
      ∧ (tickBrightness s l).2.start ≤ 100
      ∧ (s.m_fadeActive = true →
          min (nextStart ⟨s, l, Preferences.empty⟩) s.m_targetBrightness
              ≤ (tickBrightness s l).1.m_brightness
            ∧ (tickBrightness s l).1.m_brightness
              ≤ max (nextStart ⟨s, l, Preferences.empty⟩) s.m_targetBrightness) := by
  unfold tickBrightness nextStart
  by_cases ha : s.m_fadeActive = true
  · by_cases hc : s.m_targetBrightness = l.lastTarget
    · have hn : ¬ (s.m_fadeActive = true ∧ s.m_targetBrightness ≠ l.lastTarget) :=
        fun h2 => h2.2 hc
      simp only [if_neg hn, if_pos ha, if_pos hc]
      obtain ⟨h1, h2, h3⟩ := advanceFade_within s l.elapsed l.start ht hst
      exact ⟨by omega, h3, fun _ => ⟨h1, h2⟩⟩
    · have hn : s.m_fadeActive = true ∧ s.m_targetBrightness ≠ l.lastTarget := ⟨ha, hc⟩
      simp only [if_pos hn, if_pos ha, if_neg hc]
      obtain ⟨h1, h2, h3⟩ := advanceFade_within s 0 s.m_brightness ht hb
      exact ⟨by omega, h3, fun _ => ⟨h1, h2⟩⟩
  · have hn : ¬ (s.m_fadeActive = true ∧ s.m_targetBrightness ≠ l.lastTarget) :=
      fun h2 => ha h2.1
    simp only [if_neg hn, if_neg ha]
    exact ⟨hb, hb, fun h => absurd h ha⟩

end LampController

open LampController in
/-- One iteration of the task keeps brightness, target and captured start
percentages, and an active fade leaves the brightness between the start the
iteration works from and the target. -/
theorem taskLoop_bright (fx : EffectFrame) (now : Nat) (c : Sys) (hd : ColorFadeOk c.lamp)
    (h : BrightOk c) :
    ∃ c1, taskLoop fx now c = some c1 ∧ BrightOk c1
      ∧ (c.lamp.m_fadeActive = true →
          min (nextStart c) c.lamp.m_targetBrightness ≤ c1.lamp.m_brightness
            ∧ c1.lamp.m_brightness ≤ max (nextStart c) c.lamp.m_targetBrightness) := by
  obtain ⟨c1, h1, hbv, -, -, hstart, -, -⟩ := taskLoop_brightness fx now c hd
  obtain ⟨htg, -⟩ := target_of_eraseBrightness (tickBrightness_frame c.lamp c.loc)
  simp only [brightnessView, Prod.mk.injEq] at hbv
  obtain ⟨hb1, -, hb3, -⟩ := hbv
  obtain ⟨w1, w2, w3⟩ := tickBrightness_within c.lamp c.loc h.1 h.2.1 h.2.2
  refine ⟨c1, h1, ⟨?_, ?_, ?_⟩, ?_⟩
  · rw [hb1]; exact w1
  · rw [hb3, htg]; exact h.2.1
  · rw [hstart]; exact w2
  · intro ha
    rw [hb1]
    exact w3 ha

namespace LampController

/-! ## The brightness under the setters -/

theorem percentOk_of_view {s r : LampController} (h : brightnessView r = brightnessView s)
    (hs : PercentOk s) : PercentOk r := by
  simp only [brightnessView, Prod.mk.injEq] at h
  unfold PercentOk at hs ⊢
  rw [h.1, h.2.2.1]
  exact hs

theorem fadeToBrightness_percent (s : LampController) (g d : Nat) (h : PercentOk s) :
    PercentOk (s.fadeToBrightness g d) := by
  obtain ⟨-, f2, -, f4, -⟩ := fadeToBrightness_fields s g d
  unfold PercentOk
  rw [f2, f4]
  refine ⟨h.1, ?_⟩
  split <;> omega

theorem setPower_percent (s : LampController) (now : Nat) (onFlag : Bool) (f e : Nat)
    (h : PercentOk s) : PercentOk (s.setPower now onFlag f e) := by
  have hb := (setPower_fields s now onFlag f e).2.2.2.2.1
  cases onFlag
  · have p3 := (setPower_fields s now false f e).2.2.1 rfl
    unfold PercentOk
    rw [p3, hb]
    exact ⟨h.1, Nat.zero_le _⟩
  · have ht : ∃ T : Nat, (s.setPower now true f e).m_targetBrightness
        = (if T > 100 then 100 else T) := ⟨_, rfl⟩
    obtain ⟨T, hT⟩ := ht
    unfold PercentOk
    rw [hT, hb]
    refine ⟨h.1, ?_⟩
    split <;> omega

theorem clamp_le (T : Nat) : (if 100 < T then 100 else T) ≤ 100 := by
  split <;> omega

theorem internal_le (P : Nat) (hP : P < 101) :
    (if P > 0 then u8 (map (P : Nat) 1 100 kMinVisibleBrightness 100) else 0) ≤ 100 := by
  split
  · exact mapped_le P hP
  · exact Nat.zero_le _

theorem setBrightness_percent (s : LampController) (b f e : Nat) (h : PercentOk s) :
    PercentOk (s.setBrightness b f e) := by
  have key : ∀ V P : Nat, V ≤ 100 →
      PercentOk (send_ui_event
        (if P > 0 then
          { (if f > 0 then fadeToBrightness s V f
              else update { cancelFade s with m_brightness := V }) with
            m_savedOnBrightness := P, m_dirty_br := true }
          else (if f > 0 then fadeToBrightness s V f
              else update { cancelFade s with m_brightness := V }))
        UI_EVENT_BRIGHTNESS P e) := by
    intro V P hV
    have h1 : PercentOk (if f > 0 then fadeToBrightness s V f
        else update { cancelFade s with m_brightness := V }) := by
      split
      · exact fadeToBrightness_percent s V f h
      · unfold PercentOk
        rw [update_m_brightness, update_m_targetBrightness]
        exact ⟨hV, h.2⟩
    split
    · exact h1
    · exact h1
  unfold setBrightness
  dsimp only
  split
  · apply key
    apply internal_le
    split <;> split <;> omega
  · exact h

theorem setSavedBrightness_view (s : LampController) (now b : Nat) :
    brightnessView (s.setSavedBrightness now b) = brightnessView s := by
  unfold setSavedBrightness
  dsimp only
  by_cases h0 : (if b > 100 then 100 else b) > 0
  · rw [if_pos h0]
    rfl
  · rw [if_neg h0]

theorem setColor_view (s : LampController) (now r g b f e : Nat) :
    brightnessView (s.setColor now r g b f e) = brightnessView s := by
  unfold setColor
  dsimp only
  split
  · rfl
  · split
    · rfl
    · simp only [brightnessView, markChanged, send_ui_event, update_m_brightness,
        update_m_fadeActive, update_m_targetBrightness, update_m_fadeDurationMs]

/-- One preset of `setScene` keeps the brightness fields percentages. -/
theorem scenePreset_percent (s : LampController) (now cct b e : Nat) (label : String)
    (h : PercentOk s) :
    PercentOk { setBrightness (setCCT s now cct 500 e) b 500 e with m_scene := label } :=
  setBrightness_percent _ b 500 e
    (percentOk_of_view (setCCT_fields s now cct 500 e).2.2.1 h)

theorem sceneChoice_percent (s : LampController) (now e : Nat) (nm : String)
    (h : PercentOk s) :
    PercentOk
      (if nm = "reading" then
        { setBrightness (setCCT s now 4500 500 e) 80 500 e with m_scene := "Reading" }
      else if nm = "night" then
        { setBrightness (setCCT s now 2700 500 e) 5 500 e with m_scene := "Night" }
      else if nm = "cozy" then
        { setBrightness (setCCT s now 3000 500 e) 50 500 e with m_scene := "Cozy" }
      else if nm = "bright" then
        { setBrightness (setCCT s now 6000 500 e) 100 500 e with m_scene := "Bright" }
      else if nm = "none" then { s with m_scene := "None" }
      else s) := by
  split
  · exact scenePreset_percent s now 4500 80 e "Reading" h
  · split
    · exact scenePreset_percent s now 2700 5 e "Night" h
    · split
      · exact scenePreset_percent s now 3000 50 e "Cozy" h
      · split
        · exact scenePreset_percent s now 6000 100 e "Bright" h
        · split
          · exact h
          · exact h

theorem setScene_percent (s : LampController) (now : Nat) (scene : String) (e : Nat)
    (h : PercentOk s) : PercentOk (s.setScene now scene e) := by
  have h1 := sceneChoice_percent s now e (toLowerCase scene) h
  unfold setScene
  dsimp only
  by_cases hn : toLowerCase scene ≠ "none"
  · simp only [if_pos hn]
    exact percentOk_of_view (setEffect_none_fields _).2.2.2.2.2.1 h1
  · simp only [if_neg hn]
    exact h1

theorem init_percent (p : Preferences) : PercentOk (init p) := by
  unfold init PercentOk
  dsimp only
  split <;> simp [send_ui_event, fadeToBrightness, loadStateFromNVS]
  exact clamp_le _

end LampController

open LampController in
/-- Every call keeps brightness, target and captured start percentages. -/
theorem call_bright (fx : EffectFrame) (now : Nat) (call : Call) (c c1 : Sys)
    (hd : ColorFadeOk c.lamp) (h : BrightOk c) (hr : call.run fx now c = some c1) :
    BrightOk c1 := by
  have hp : PercentOk c.lamp := ⟨h.1, h.2.1⟩
  have lift : ∀ s : LampController, PercentOk s → BrightOk ⟨s, c.loc, c.prefs⟩ :=
    fun s hs => ⟨hs.1, hs.2, h.2.2⟩
  cases call with
  | setPower onFlag f e =>
    cases hr
    exact lift _ (setPower_percent c.lamp now onFlag f e hp)
  | setBrightness b f e =>
    cases hr
    exact lift _ (setBrightness_percent c.lamp b f e hp)
  | setSavedBrightness b =>
    cases hr
    exact lift _ (percentOk_of_view (setSavedBrightness_view c.lamp now b) hp)
  | setCCT cct f e =>
    cases hr
    exact lift _ (percentOk_of_view (setCCT_fields c.lamp now cct f e).2.2.1 hp)
  | setColor r g b f e =>
    cases hr
    exact lift _ (percentOk_of_view (setColor_view c.lamp now r g b f e) hp)
  | setScene scene e =>
    cases hr
    exact lift _ (setScene_percent c.lamp now scene e hp)
  | setFadeCurve curve =>
    cases hr
    exact lift _ hp
  | fadeToBrightness g d =>
    cases hr
    exact lift _ (fadeToBrightness_percent c.lamp g d hp)
  | cancelFade =>
    cases hr
    exact lift _ hp
  | setHSV hsv hh sat v f e =>
    cases hr
    exact lift _ (percentOk_of_view (setColor_view c.lamp now _ _ _ f e) hp)
  | tick =>
    obtain ⟨c2, h2, hb, -⟩ := taskLoop_bright fx now c hd h
    have : taskLoop fx now c = some c1 := hr
    rw [h2] at this
    cases this
    exact hb

open LampController in
/-- Every sequence of calls from a state with the CCT invariant and percentage
brightness fields is defined and keeps both. -/
theorem runCalls_bright (fx : EffectFrame) (calls : List (Nat × Call)) :
    ∀ c : Sys, CctSafe c.lamp → BrightOk c →
      ∃ c1, runCalls fx calls c = some c1 ∧ CctSafe c1.lamp ∧ BrightOk c1 := by
  induction calls with
  | nil => intro c h hb; exact ⟨c, rfl, h, hb⟩
  | cons x rest ih =>
    intro c h hb
    obtain ⟨c1, h1, h2, -⟩ := call_inv fx x.1 x.2 c h
    obtain ⟨c2, h4, h5, h6⟩ := ih c1 h2 (call_bright fx x.1 x.2 c c1 (cctSafe_ok h) hb h1)
    refine ⟨c2, ?_, h5, h6⟩
    simp only [runCalls, h1, h4]

open LampController in
/-- C27: in every state reached from `init()` by any sequence of calls on the
control surface (`setPower`, `setBrightness`, `fadeToBrightness`, `cancelFade`,
`setScene`, `setFadeCurve` and the others, with any arguments) and ticks, the
brightness, the fade target and the start the task works from are at most 100;
the next tick is defined, leaves a brightness of at most 100 and, while a fade
is active, one between that start and the target inclusive; and for every
elapsed time the interpolation `start * 65536 + delta * progress` is between 0
and `100 * 65536`, so the 32-bit value neither goes negative nor wraps and the
byte taken from it is its exact quotient by 65536. -/
theorem brightness_stays_percentage (fx : EffectFrame) (p : Preferences)
    (calls : List (Nat × Call)) (now : Nat) :
    ∃ c, runCalls fx calls ⟨init p, TaskLocals.entry (init p), p⟩ = some c
      ∧ c.lamp.m_brightness ≤ 100 ∧ c.lamp.m_targetBrightness ≤ 100 ∧ nextStart c ≤ 100
      ∧ (∃ c1, taskLoop fx now c = some c1 ∧ c1.lamp.m_brightness ≤ 100
          ∧ (c.lamp.m_fadeActive = true →
              min (nextStart c) c.lamp.m_targetBrightness ≤ c1.lamp.m_brightness
                ∧ c1.lamp.m_brightness ≤ max (nextStart c) c.lamp.m_targetBrightness))
      ∧ ∀ e : Nat,
          0 ≤ (nextStart c : Int) * 65536 + ((c.lamp.m_targetBrightness : Int) - nextStart c)
                * fadeProgress c.lamp e c.lamp.m_fadeDurationMs
            ∧ (nextStart c : Int) * 65536 + ((c.lamp.m_targetBrightness : Int) - nextStart c)
                * fadeProgress c.lamp e c.lamp.m_fadeDurationMs ≤ 100 * 65536
            ∧ (fadeValue c.lamp.m_targetBrightness (nextStart c)
                  (fadeProgress c.lamp e c.lamp.m_fadeDurationMs) : Int)
                = ((nextStart c : Int) * 65536
                    + ((c.lamp.m_targetBrightness : Int) - nextStart c)
                      * fadeProgress c.lamp e c.lamp.m_fadeDurationMs) / 65536 := by
  have h0 : BrightOk ⟨init p, TaskLocals.entry (init p), p⟩ :=
    ⟨(init_percent p).1, (init_percent p).2, (init_percent p).1⟩
  obtain ⟨c, hc, hs, hb⟩ := runCalls_bright fx calls _ (init_cctSafe p) h0
  obtain ⟨c1, h1, hb1, hbetween⟩ := taskLoop_bright fx now c (cctSafe_ok hs) hb
  have hst : nextStart c ≤ 100 := by
    unfold nextStart
    split
    · exact hb.2.2
    · exact hb.1
  refine ⟨c, hc, hb.1, hb.2.1, hst, ⟨c1, h1, hb1.1, hbetween⟩, fun e => ?_⟩
  obtain ⟨a1, a2, a3, -, -⟩ := fadeValue_exact c.lamp.m_targetBrightness (nextStart c)
    (fadeProgress c.lamp e c.lamp.m_fadeDurationMs) hst hb.2.1 (fadeProgress_le _ _ _)
  exact ⟨a1, a2, a3⟩

open LampController in
/-- C28: in every state reached from `init()` by any sequence of calls on the
control surface (`setCCT`, `setColor`, `setHSV`, `setScene` and the others) and
ticks, an active colour fade has a duration greater than 0; the state the task
hands to `advanceColorFade` has the same non-zero divisor, `advanceColorFade`
returns a result on it for every elapsed time, and the next iteration of the
task is defined. -/
theorem color_fade_divisor_nonzero (fx : EffectFrame) (p : Preferences)
    (calls : List (Nat × Call)) (now : Nat) :
    ∃ c, runCalls fx calls ⟨init p, TaskLocals.entry (init p), p⟩ = some c
      ∧ (c.lamp.m_colorFadeActive = true → 0 < c.lamp.m_colorFadeDurationMs)
      ∧ ((tickBrightness c.lamp c.loc).1.m_colorFadeActive = true →
          0 < (tickBrightness c.lamp c.loc).1.m_colorFadeDurationMs
            ∧ ∀ e, (advanceColorFade (tickBrightness c.lamp c.loc).1 e).isSome = true)
      ∧ ∃ c1, taskLoop fx now c = some c1 := by
  obtain ⟨c, hc, hs, -⟩ :=
    runCalls_inv fx calls ⟨init p, TaskLocals.entry (init p), p⟩ (init_cctSafe p)
  have hd : ColorFadeOk c.lamp := cctSafe_ok hs
  obtain ⟨c1, -, h1, -⟩ := taskLoop_step fx now c hd
  have hbc := colorView_of_eraseBrightness (tickBrightness_frame c.lamp c.loc)
  simp only [colorView, Prod.mk.injEq] at hbc
  refine ⟨c, hc, fun h => Nat.pos_of_ne_zero (hd h), fun h => ?_, c1, h1⟩
  have hne : (tickBrightness c.lamp c.loc).1.m_colorFadeDurationMs ≠ 0 := by
    rw [hbc.2.1]
    exact hd (hbc.1 ▸ h)
  refine ⟨Nat.pos_of_ne_zero hne, fun e => ?_⟩
  unfold advanceColorFade
  dsimp only
  rw [if_neg hne]
  split <;> rfl

/-! # Effects, persistence across colour fades, the Wi-Fi list and MQTT -/

namespace LampController

/-- C24: the Police pattern repeats every 400 ticks, which at `STEP_MS = 10` is
4000 ms and not 8000 ms: tick 400 draws what tick 0 draws; the rotating
two-colour pattern ends after tick 299 and tick 300, 3000 ms into the cycle, is
already the solid red strobe, also as `runEffect` renders it on a lamp whose
counter stands at 299. -/
theorem police_cycle_is_four_seconds :
    (∀ t, policePattern (t + 400) = policePattern t)
      ∧ 400 * STEP_MS = 4000
      ∧ policePattern 400 = policePattern 0
      ∧ CRGB.Blue ∈ policePattern 299 ∧ CRGB.Red ∈ policePattern 299
      ∧ policePattern 300 = List.replicate LAMP_NUM_LEDS CRGB.Red
      ∧ policePattern 305 = List.replicate LAMP_NUM_LEDS CRGB.Black
      ∧ (∀ (nscale8 : CRGB → Nat → CRGB) (now : Nat),
          (runEffect (policeFrame nscale8)
              { m_effect := EffectMode.Police, m_on := true, m_effectTick := 299 } now).shown
            = List.replicate LAMP_NUM_LEDS (nscale8 CRGB.Red (scaleChannel 255 50))) := by
  refine ⟨fun t => ?_, by decide, by decide, by decide, by decide, by decide, by decide,
    fun nscale8 now => rfl⟩
  unfold policePattern
  rw [Nat.add_mod_right]

end LampController

namespace LampController

set_option maxRecDepth 1000000 in
/-- C26: on a lamp in CCT mode at 4000 K, `setCCT(3000, 1020)` at 5 ms and then
200 iterations of the task, 10 ms apart, with no further call: the flush fires
on the iteration at 1010 ms, while the fade is still running, and stores the
value the fade has reached, 3009; the fade lands on 3000 one iteration later.
At the end the CCT in memory is 3000, the stored one is 3009 and both dirty
flags are clear. From RGB mode the same call leaves CCT mode at 3000 in memory
and RGB mode with 4000 in the store, both flags clear. With a fade of 500 ms
the store and the memory agree. -/
theorem flush_during_color_fade_stores_stale :
    (runTicks (fun _ _ => []) (tickTimes 0 200)
        ⟨(init Preferences.empty).setCCT 5 3000 1020 0, TaskLocals.entry (init Preferences.empty),
          Preferences.empty⟩).map
      (fun c => ((c.lamp.getCCT, c.lamp.isCCTMode, c.lamp.m_colorFadeActive),
        (c.lamp.m_dirty_cct, c.lamp.m_dirty_mode),
        (AppConfig.loadCCT c.prefs, AppConfig.loadMode c.prefs)))
      = some ((3000, true, false), (false, false), (3009, true))
    ∧ (runTicks (fun _ _ => []) (tickTimes 0 200)
        ⟨((init Preferences.empty).setColor 1 255 0 0 0 0).setCCT 5 3000 1020 0,
          TaskLocals.entry (init Preferences.empty), Preferences.empty⟩).map
      (fun c => ((c.lamp.getCCT, c.lamp.isCCTMode, c.lamp.m_colorFadeActive),
        (c.lamp.m_dirty_cct, c.lamp.m_dirty_mode),
        (AppConfig.loadCCT c.prefs, AppConfig.loadMode c.prefs)))
      = some ((3000, true, false), (false, false), (4000, false))
    ∧ (runTicks (fun _ _ => []) (tickTimes 0 200)
        ⟨((init Preferences.empty).setColor 1 255 0 0 0 0).setCCT 5 3000 500 0,
          TaskLocals.entry (init Preferences.empty), Preferences.empty⟩).map
      (fun c => ((c.lamp.getCCT, c.lamp.isCCTMode, c.lamp.m_colorFadeActive),
        (c.lamp.m_dirty_cct, c.lamp.m_dirty_mode),
        (AppConfig.loadCCT c.prefs, AppConfig.loadMode c.prefs)))
      = some ((3000, true, false), (false, false), (3000, true)) := by
  refine ⟨?_, ?_, ?_⟩ <;> decide

end LampController

namespace AppConfig

/-- C29: on an empty store, after `addWifi("home", "pw")` and then
`removeWifi("home")`, `loadWifiList` still returns the network: `removeWifi`
rewrites `wifi_count` and the numbered entries but leaves the keys `ssid` and
`pass` that `addWifi` wrote, and `loadWifiList` reads those first. The same
with a second network in the list, which is kept; `clearWifiList` does remove
the two keys. -/
theorem removeWifi_leaves_last_added :
    loadWifiList (addWifi Preferences.empty "home" "pw") = [⟨"home", "pw"⟩]
      ∧ loadWifiList (removeWifi (addWifi Preferences.empty "home" "pw") "home")
          = [⟨"home", "pw"⟩]
      ∧ loadWifiList (addWifi (addWifi Preferences.empty "cafe" "x") "home" "pw")
          = [⟨"home", "pw"⟩, ⟨"cafe", "x"⟩]
      ∧ loadWifiList (removeWifi (addWifi (addWifi Preferences.empty "cafe" "x") "home" "pw")
            "home")
          = [⟨"home", "pw"⟩, ⟨"cafe", "x"⟩]
      ∧ loadWifiList (removeWifi (addWifi (addWifi Preferences.empty "cafe" "x") "home" "pw")
            "cafe")
          = [⟨"home", "pw"⟩]
      ∧ loadWifiList (clearWifiList (addWifi Preferences.empty "home" "pw")) = [] := by
  decide

end AppConfig

/-- A mired value from 154 to 370 is converted to `1000000 / m` Kelvin, which
lies in 2700..6500, and `setCCT` is called with it. -/
theorem handle_cct_accepts (s : LampController) (now m : Nat) (g : Bool)
    (hlo : 154 ≤ m) (hhi : m ≤ 370) :
    2700 ≤ 1000000 / m ∧ 1000000 / m ≤ 6500
      ∧ handle_cct s now m g
        = ((s.setCCT now (1000000 / m) 500 DEST_MQTT).send_ui_event UI_EVENT_CCT
            ((1000000 / m : Nat) : Int) DEST_MQTT, true) := by
  have h1 : 2700 ≤ 1000000 / m := by
    rw [Nat.le_div_iff_mul_le (by omega)]
    omega
  have h2 : 1000000 / m ≤ 6500 := by
    have : 1000000 / m < 6501 := by
      rw [Nat.div_lt_iff_lt_mul (by omega)]
      omega
    omega
  have hq : Int.tdiv 1000000 (m : Int) = ((1000000 / m : Nat) : Int) := by
    rw [Int.tdiv_eq_ediv (by decide) (by omega)]
    norm_cast
  have hc : (m : Int) > 0 ∧ (m : Int) < 1000 := by constructor <;> omega
  have hr : ((1000000 / m : Nat) : Int) ≥ 2700 ∧ ((1000000 / m : Nat) : Int) ≤ 6500 := by
    constructor <;> omega
  refine ⟨h1, h2, ?_⟩
  unfold handle_cct
  simp only [if_pos hc, hq, if_pos hr, Int.toNat_ofNat]

/-- C30: the payload 153, the `min_mireds` the discovery message advertises, is
converted to `1000000 / 153 = 6535` Kelvin, which is above 6500, and
`handle_cct` drops the command: the lamp and the flag are as before, while 154
is converted to 6493 Kelvin and handed to `setCCT`. -/
theorem handle_cct_drops_min_mireds :
    Int.tdiv 1000000 153 = 6535
      ∧ (∀ (s : LampController) (now : Nat) (g : Bool), handle_cct s now 153 g = (s, g))
      ∧ (∀ (s : LampController) (now : Nat) (g : Bool), handle_cct s now 154 g
          = ((s.setCCT now 6493 500 DEST_MQTT).send_ui_event UI_EVENT_CCT 6493 DEST_MQTT,
              true)) := by
  refine ⟨by decide, fun s now g => ?_, fun s now g => ?_⟩
  · unfold handle_cct
    have hc : (153 : Int) > 0 ∧ (153 : Int) < 1000 := by decide
    have hq : Int.tdiv 1000000 153 = 6535 := by decide
    have hr : ¬ ((6535 : Int) ≥ 2700 ∧ (6535 : Int) ≤ 6500) := by decide
    simp only [if_pos hc, hq, if_neg hr]
  · unfold handle_cct
    have hc : (154 : Int) > 0 ∧ (154 : Int) < 1000 := by decide
    have hq : Int.tdiv 1000000 154 = 6493 := by decide
    have hr : (6493 : Int) ≥ 2700 ∧ (6493 : Int) ≤ 6500 := by decide
    simp only [if_pos hc, hq, if_pos hr]
    rfl

/-! # Fades requested while the task tracks an earlier one -/

namespace LampController

set_option maxRecDepth 1000000 in
/-- C16: two fades from a live brightness `s` up to 80 on the linear curve that
do not rise. Requested again halfway with the same target, from `s = 50`: the
iteration before the call left 50, the one after leaves 21 and the next 21.
Requested from `s = 20` while the task still tracks a fade down to 80 that
started at 100: the next iteration leaves 98, above the target, the one after
97, and the fade lands on 80 in the end. In both the target the task has seen
is unchanged, so it keeps its start value and its elapsed time. -/
theorem linear_fade_stale_start_not_monotone :
    (runCalls (fun _ _ => []) fadeUpRestarted afterInit).map
        (fun c => (c.lamp.getBrightness, c.lamp.isFading, c.lamp.m_targetBrightness,
          c.lamp.m_curve)) = some (50, true, 80, FadeCurve.Linear)
      ∧ (runCalls (fun _ _ => []) (fadeUpRestarted ++ tickCalls 310 1) afterInit).map
          (fun c => (c.lamp.getBrightness, c.lamp.isFading)) = some (21, true)
      ∧ (runCalls (fun _ _ => []) (fadeUpRestarted ++ tickCalls 310 2) afterInit).map
          (fun c => (c.lamp.getBrightness, c.lamp.isFading)) = some (21, true)
      ∧ (runCalls (fun _ _ => []) fadeUpAfterSnap afterInit).map
          (fun c => (c.lamp.getBrightness, c.lamp.isFading, c.lamp.m_targetBrightness,
            c.lamp.m_curve)) = some (20, true, 80, FadeCurve.Linear)
      ∧ (runCalls (fun _ _ => []) (fadeUpAfterSnap ++ tickCalls 60 1) afterInit).map
          (fun c => (c.lamp.getBrightness, c.lamp.isFading)) = some (98, true)
      ∧ (runCalls (fun _ _ => []) (fadeUpAfterSnap ++ tickCalls 60 2) afterInit).map
          (fun c => (c.lamp.getBrightness, c.lamp.isFading)) = some (97, true)
      ∧ (runCalls (fun _ _ => []) (fadeUpAfterSnap ++ tickCalls 60 60) afterInit).map
          (fun c => (c.lamp.getBrightness, c.lamp.isFading)) = some (80, false) := by
  refine ⟨?_, ?_, ?_, ?_, ?_, ?_, ?_⟩ <;> decide

set_option maxRecDepth 1000000 in
/-- C17: with the lamp on at a live brightness of 60 and a fade toward the
mapped value of 80 (82) active, requested before the task has run since
`setBrightness(30, 1000)`, the call `setBrightness(30, 5000)` arms a fade
toward the mapped value of 30 (37); the next iteration leaves 77 and the one
after 76, above the live brightness at the call, and the fade lands on 37 in
the end. The target 37 is the one the task saw last, so it keeps its start
value 100 and its elapsed time. -/
theorem retrigger_unseen_fade_rises :
    u8 (map 80 1 100 kMinVisibleBrightness 100) = 82
      ∧ u8 (map 30 1 100 kMinVisibleBrightness 100) = 37
      ∧ (runCalls (fun _ _ => []) fadeTowardEighty afterInit).map
          (fun c => (c.lamp.getBrightness, c.lamp.isOn, c.lamp.isFading,
            c.lamp.m_targetBrightness)) = some (60, true, true, 82)
      ∧ (runCalls (fun _ _ => []) (fadeTowardEighty ++ [(412, Call.setBrightness 30 5000 0)])
            afterInit).map
          (fun c => (c.lamp.getBrightness, c.lamp.isFading, c.lamp.m_targetBrightness))
          = some (60, true, 37)
      ∧ (runCalls (fun _ _ => [])
            (fadeTowardEighty ++ [(412, Call.setBrightness 30 5000 0)] ++ tickCalls 410 1)
            afterInit).map
          (fun c => (c.lamp.getBrightness, c.lamp.isFading)) = some (77, true)
      ∧ (runCalls (fun _ _ => [])
            (fadeTowardEighty ++ [(412, Call.setBrightness 30 5000 0)] ++ tickCalls 410 2)
            afterInit).map
          (fun c => (c.lamp.getBrightness, c.lamp.isFading)) = some (76, true)
      ∧ (runCalls (fun _ _ => [])
            (fadeTowardEighty ++ [(412, Call.setBrightness 30 5000 0)] ++ tickCalls 410 200)
            afterInit).map
          (fun c => (c.lamp.getBrightness, c.lamp.isFading)) = some (37, false) := by
  refine ⟨?_, ?_, ?_, ?_, ?_, ?_, ?_⟩ <;> decide

end LampController

end SmartLamp
